import Mathlib

/-! API gateway of lab03-microservices-nosql: circuit breaker and proxy.

A shallow embedding of `api-gateway/server.js` (class `APIGateway`).

* Times are the integers returned by `Date.now()` (milliseconds).
* `this.circuitBreakers` (a JavaScript `Map` from service name to a mutable
  breaker object) is an association list in insertion order; mutating the
  object held by the map is modelled by storing the updated record under the
  same key.
* A method that reads the clock takes the value of `Date.now()` as an argument.
-/

namespace APIGateway

/-- The breaker object kept per service name:
`{ failures, isOpen, isHalfOpen, lastFailure }`; `lastFailure` is `null`
only in the object literal of `recordFailure`. -/
structure Breaker where
  failures : Nat
  isOpen : Bool
  isHalfOpen : Bool
  lastFailure : Option Int
  deriving DecidableEq, Repr

/-- The field `this.circuitBreakers`: a `Map` keyed by service name. -/
abbrev CircuitBreakers := List (String × Breaker)

/-- The method `Map.prototype.get`: the value stored under the key, if any. -/
def mapGet : CircuitBreakers → String → Option Breaker
  | [], _ => none
  | (k, v) :: rest, key => if k = key then some v else mapGet rest key

/-- The method `Map.prototype.set`: an existing key keeps its position and
gets the new value, a new key is appended. -/
def mapSet : CircuitBreakers → String → Breaker → CircuitBreakers
  | [], key, b => [(key, b)]
  | (k, v) :: rest, key, b =>
      if k = key then (key, b) :: rest else (k, v) :: mapSet rest key b

/-- The numeric value of `breaker.lastFailure` in `now - breaker.lastFailure`:
`null` converts to `0`. -/
def toNumber (lastFailure : Option Int) : Int :=
  match lastFailure with
  | some t => t
  | none => 0

/-- The method `isCircuitOpen(serviceName)` (server.js 339-354), with `now`
the value of `Date.now()`. Returns the boolean result and the map after the
call. -/
def isCircuitOpen (serviceName : String) (now : Int) (cb : CircuitBreakers) :
    Bool × CircuitBreakers :=
  match mapGet cb serviceName with
  | none => (false, cb)
  | some breaker =>
      if breaker.isOpen && decide (now - toNumber breaker.lastFailure > 30000) then
        (false, mapSet cb serviceName { breaker with isOpen := false, isHalfOpen := true })
      else
        (breaker.isOpen, cb)

/-- The method `recordFailure(serviceName)` (server.js 356-375), with `now`
the value of `Date.now()`. -/
def recordFailure (serviceName : String) (now : Int) (cb : CircuitBreakers) :
    CircuitBreakers :=
  let breaker : Breaker :=
    match mapGet cb serviceName with
    | some b => b
    | none => { failures := 0, isOpen := false, isHalfOpen := false, lastFailure := none }
  let breaker := { breaker with failures := breaker.failures + 1 }
  let breaker := { breaker with lastFailure := some now }
  let breaker :=
    if breaker.failures ≥ 3 then
      { breaker with isOpen := true, isHalfOpen := false }
    else breaker
  mapSet cb serviceName breaker

/-- The method `resetCircuitBreaker(serviceName)` (server.js 377-385). -/
def resetCircuitBreaker (serviceName : String) (cb : CircuitBreakers) :
    CircuitBreakers :=
  match mapGet cb serviceName with
  | some breaker =>
      mapSet cb serviceName { breaker with failures := 0, isOpen := false, isHalfOpen := false }
  | none => cb

/-! ## Strings, JSON values and the HTTP collaborators -/

/-- The method `String.prototype.startsWith` for a string argument. -/
def jsStartsWith (s p : String) : Bool :=
  p.data.isPrefixOf s.data

/-- Whether the characters `p` occur as a contiguous run somewhere in `s`. -/
def includesChars : List Char → List Char → Bool
  | [], p => p.isEmpty
  | c :: s, p => p.isPrefixOf (c :: s) || includesChars s p

/-- The method `String.prototype.includes` for a string argument. -/
def jsIncludes (s p : String) : Bool :=
  includesChars s.data p.data

/-- The characters of `s` with the first occurrence of `p` replaced by `r`
(`s` itself when `p` does not occur). -/
def replaceChars : List Char → List Char → List Char → List Char
  | [], p, r => if p.isEmpty then r else []
  | c :: s, p, r =>
      if p.isPrefixOf (c :: s) then r ++ (c :: s).drop p.length
      else c :: replaceChars s p r

/-- The method `String.prototype.replace` with a string pattern and a
replacement string without `$`: only the first occurrence is replaced. -/
def jsReplace (s p r : String) : String :=
  ⟨replaceChars s.data p.data r.data⟩

/-- A JSON value, as passed to `res.json` and received in `response.data`. -/
inductive Json where
  | null
  | bool (b : Bool)
  | num (n : Int)
  | str (s : String)
  | arr (items : List Json)
  | obj (fields : List (String × Json))

/-- The parts of the express request `req` that `proxyRequest` reads. -/
structure Request where
  method : String
  originalUrl : String
  headers : List (String × String)
  body : Json
  query : List (String × Json)

/-- What the handler sends with `res.status(status).json(body)`. -/
structure Response where
  status : Nat
  body : Json

/-- A directory entry returned by `serviceRegistry.discover`; the gateway
reads only its `url`. -/
structure Service where
  url : String

/-- The module `../shared/serviceRegistry`, which is not among the sources and
is taken as a parameter: `discover(name)` returns the entry or throws an error
with a message, `listServices()` returns an object given by its entries in key
order. -/
structure ServiceRegistry where
  discover : String → Except String Service
  listServices : List (String × Json)

/-- The function `Object.keys` on an object given by its entries. -/
def objectKeys {α : Type} (entries : List (String × α)) : List String :=
  entries.map Prod.fst

/-- The function `validateStatus` given to axios (server.js 212-214). -/
def validateStatus (status : Nat) : Bool :=
  decide (status < 500)

/-- The object `config` handed to `axios` (server.js 206-229). -/
structure AxiosConfig where
  method : String
  url : String
  headers : List (String × String)
  timeout : Nat
  family : Nat
  validateStatus : Nat → Bool
  data : Option Json
  params : Option (List (String × Json))

/-- The value `response` of a fulfilled `axios(config)`. -/
structure AxiosResponse where
  status : Nat
  data : Json

/-- The value `error` caught by `proxyRequest`: the fields it reads. -/
structure JsError where
  code : Option String
  message : String
  response : Option AxiosResponse

/-- What happens to the HTTP call on the network: the backend answers with a
status and a body, or the call fails without a response, with an error code
(`ECONNREFUSED`, `ETIMEDOUT`, `ECONNABORTED`, `ENOTFOUND`, ... or none) and a
message. -/
inductive NetOutcome where
  | answered (status : Nat) (data : Json)
  | failed (code : Option String) (message : String)

/-- The promise `axios(config)` once settled (behaviour of the axios library):
an answer whose status passes `config.validateStatus` fulfils it, any other
answer rejects it with an error carrying the response, a failed call rejects it
with an error without response. -/
def axios (config : AxiosConfig) : NetOutcome → Except JsError AxiosResponse
  | .answered status data =>
      if config.validateStatus status then .ok { status := status, data := data }
      else .error
        { code :=
            if status / 100 = 4 then some "ERR_BAD_REQUEST"
            else if status / 100 = 5 then some "ERR_BAD_RESPONSE"
            else none
          message := "Request failed with status code " ++ toString status
          response := some { status := status, data := data } }
  | .failed code message =>
      .error { code := code, message := message, response := none }

/-! ## The path translator and the proxy -/

/-- The method `buildTargetPath(serviceName, originalPath)`
(server.js 278-336). -/
def buildTargetPath (serviceName originalPath : String) : String :=
  let targetPath : String :=
    if serviceName = "user-service" then
      if jsStartsWith originalPath "/api/auth" then
        jsReplace originalPath "/api/auth" "/auth"
      else
        jsReplace originalPath "/api/users" "/users"
    else if serviceName = "item-service" then
      if jsStartsWith originalPath "/api/items/categories" then
        "/categories"
      else if jsIncludes originalPath "/search" then
        "/search"
      else
        jsReplace originalPath "/api/items" "/items"
    else if serviceName = "list-service" then
      jsReplace originalPath "/api/lists" "/lists"
    else
      originalPath
  let targetPath : String :=
    if !jsStartsWith targetPath "/" then "/" ++ targetPath else targetPath
  if targetPath = "/" || targetPath = "" then
    if serviceName = "user-service" then "/"
    else if serviceName = "item-service" then "/items"
    else if serviceName = "list-service" then "/lists"
    else "/"
  else
    targetPath

/-- The property deletion `delete headers[name]`. -/
def deleteKey (headers : List (String × String)) (name : String) :
    List (String × String) :=
  headers.filter (fun h => h.1 ≠ name)

/-- The request configuration built by `proxyRequest` (server.js 197-229). -/
def buildConfig (serviceName : String) (service : Service) (req : Request) :
    AxiosConfig :=
  let originalPath := req.originalUrl
  let targetPath := buildTargetPath serviceName originalPath
  let targetUrl := service.url ++ targetPath
  { method := req.method
    url := targetUrl
    headers := deleteKey (deleteKey req.headers "host") "content-length"
    timeout := 10000
    family := 4
    validateStatus := validateStatus
    data := if ["POST", "PUT", "PATCH"].contains req.method then some req.body else none
    params := if (objectKeys req.query).length > 0 then some req.query else none }

/-- The object `config` handed to `axios` by `callService`
(server.js 515-527): no `validateStatus`, so the default of axios applies. -/
structure CallConfig where
  method : String
  url : String
  timeout : Nat
  headers : Option (List (String × String))
  params : Option (List (String × Json))

/-- A call made by a handler on the breaker bank, the directory or the
network, recorded in the order of execution; `axios` is the HTTP call of
`proxyRequest` and `request` the HTTP call of `callService`. -/
inductive Effect where
  | isCircuitOpen (serviceName : String)
  | discover (serviceName : String)
  | listServices
  | axios (config : AxiosConfig)
  | resetCircuitBreaker (serviceName : String)
  | recordFailure (serviceName : String)
  | request (config : CallConfig)

/-- The outcome of one `proxyRequest`: the response sent, the breaker map
afterwards, and the calls made. -/
structure ProxyResult where
  response : Response
  circuitBreakers : CircuitBreakers
  effects : List Effect

/-- The response of the `catch` block of `proxyRequest` (server.js 255-273). -/
def errorResponse (serviceName : String) (error : JsError) : Response :=
  if error.code = some "ECONNREFUSED" || error.code = some "ETIMEDOUT" then
    { status := 503
      body := .obj
        [("success", .bool false),
         ("message", .str ("Serviço " ++ serviceName ++ " indisponível")),
         ("service", .str serviceName),
         ("error", match error.code with
                   | some c => .str c
                   | none => .null)] }
  else
    match error.response with
    | some response => { status := response.status, body := response.data }
    | none =>
        { status := 500
          body := .obj
            [("success", .bool false),
             ("message", .str "Erro interno do gateway"),
             ("service", .str "api-gateway"),
             ("error", .str error.message)] }

/-- The method `proxyRequest(serviceName, req, res, next)` (server.js 164-275)
for one request handled without another request's breaker calls in between.
`outcome` is what the network does with the HTTP call if it is issued, `now`
is the clock read by `isCircuitOpen` and `later` the clock read by
`recordFailure`. -/
def proxyRequest (registry : ServiceRegistry) (serviceName : String) (req : Request)
    (outcome : NetOutcome) (now later : Int) (cb : CircuitBreakers) : ProxyResult :=
  match isCircuitOpen serviceName now cb with
  | (true, cb) =>
      { response :=
          { status := 503
            body := .obj
              [("success", .bool false),
               ("message", .str ("Serviço " ++ serviceName ++ " temporariamente indisponível")),
               ("service", .str serviceName)] }
        circuitBreakers := cb
        effects := [.isCircuitOpen serviceName] }
  | (false, cb) =>
      match registry.discover serviceName with
      | .error _ =>
          let availableServices := registry.listServices
          { response :=
              { status := 503
                body := .obj
                  [("success", .bool false),
                   ("message", .str ("Serviço " ++ serviceName ++ " não encontrado")),
                   ("service", .str serviceName),
                   ("availableServices",
                     .arr ((objectKeys availableServices).map Json.str))] }
            circuitBreakers := cb
            effects := [.isCircuitOpen serviceName, .discover serviceName, .listServices] }
      | .ok service =>
          let config := buildConfig serviceName service req
          match axios config outcome with
          | .ok response =>
              { response := { status := response.status, body := response.data }
                circuitBreakers := resetCircuitBreaker serviceName cb
                effects :=
                  [.isCircuitOpen serviceName, .discover serviceName, .axios config,
                   .resetCircuitBreaker serviceName] }
          | .error error =>
              { response := errorResponse serviceName error
                circuitBreakers := recordFailure serviceName later cb
                effects :=
                  [.isCircuitOpen serviceName, .discover serviceName, .axios config,
                   .recordFailure serviceName] }

/-- One call of a breaker method on the gateway. -/
inductive Call where
  | isCircuitOpen (serviceName : String) (now : Int)
  | recordFailure (serviceName : String) (now : Int)
  | resetCircuitBreaker (serviceName : String)
  deriving DecidableEq, Repr

/-- The map after one breaker call. -/
def step (cb : CircuitBreakers) : Call → CircuitBreakers
  | .isCircuitOpen s now => (isCircuitOpen s now cb).2
  | .recordFailure s now => recordFailure s now cb
  | .resetCircuitBreaker s => resetCircuitBreaker s cb

/-- The map after a sequence of breaker calls, in order. -/
def run (cb : CircuitBreakers) (calls : List Call) : CircuitBreakers :=
  calls.foldl step cb

/-- Whether the call is `recordFailure` for the service. -/
def Call.isFailureOf (serviceName : String) : Call → Bool
  | .recordFailure s _ => decide (s = serviceName)
  | _ => false

/-- Whether the call is `resetCircuitBreaker` for the service. -/
def Call.isResetOf (serviceName : String) : Call → Bool
  | .resetCircuitBreaker s => decide (s = serviceName)
  | _ => false

/-- One proxied request with what the network and the clock do for it. -/
structure Exchange where
  req : Request
  outcome : NetOutcome
  now : Int
  later : Int

/-- The breaker map after a sequence of proxied requests to one service,
handled one after the other. -/
def proxyAll (registry : ServiceRegistry) (serviceName : String)
    (cb : CircuitBreakers) (exchanges : List Exchange) : CircuitBreakers :=
  exchanges.foldl
    (fun cb x => (proxyRequest registry serviceName x.req x.outcome x.now x.later cb).circuitBreakers)
    cb

/-- The entry of the service counts `k` failures and is not open; with no
entry the count is `0`. -/
def closedWith (cb : CircuitBreakers) (serviceName : String) (k : Nat) : Bool :=
  match mapGet cb serviceName with
  | none => k == 0
  | some b => b.failures == k && !b.isOpen

/-- Every stored entry that is open or half-open counts at least three
failures. -/
def Tripped (cb : CircuitBreakers) : Prop :=
  ∀ p ∈ cb, (p.2.isOpen = true ∨ p.2.isHalfOpen = true) → 3 ≤ p.2.failures

/-- A directory in which item-service and list-service are registered and
user-service is not. -/
def exampleRegistry : ServiceRegistry :=
  { discover := fun name =>
      if name = "item-service" then .ok { url := "http://localhost:3003" }
      else if name = "list-service" then .ok { url := "http://localhost:3002" }
      else .error ("Serviço não encontrado: " ++ name)
    listServices :=
      [("item-service", .obj [("url", .str "http://localhost:3003")]),
       ("list-service", .obj [("url", .str "http://localhost:3002")])] }

/-- A request `GET /api/lists` carrying an authorization header. -/
def exampleRequest : Request :=
  { method := "GET"
    originalUrl := "/api/lists"
    headers := [("host", "localhost:3000"), ("authorization", "Bearer token")]
    body := .null
    query := [] }

/-! ## The aggregator -/

/-- Whether `authHeader` passes `if (authHeader)`: a header that is present and
not the empty string. -/
def truthy (authHeader : Option String) : Bool :=
  match authHeader with
  | some h => decide (h ≠ "")
  | none => false

/-- The promise `axios(config)` of `callService` once settled (behaviour of the
axios library with its default `validateStatus`, `status >= 200 && status <
300`): an answer with a 2xx status fulfils it, any other answer rejects it with
an error carrying the response, a failed call rejects it with an error without
response. -/
def axiosDefault : NetOutcome → Except JsError AxiosResponse
  | .answered status data =>
      if decide (200 ≤ status) && decide (status < 300) then
        .ok { status := status, data := data }
      else .error
        { code :=
            if status / 100 = 4 then some "ERR_BAD_REQUEST"
            else if status / 100 = 5 then some "ERR_BAD_RESPONSE"
            else none
          message := "Request failed with status code " ++ toString status
          response := some { status := status, data := data } }
  | .failed code message =>
      .error { code := code, message := message, response := none }

/-- An element of the array returned by `Promise.allSettled`:
`{ status: 'fulfilled', value }` or `{ status: 'rejected', reason }`. -/
inductive Settled where
  | fulfilled (value : Json)
  | rejected (reason : JsError)

/-- The outcome of one `callService`: how its promise settles, the breaker map
afterwards, and the calls made. -/
structure ServiceCall where
  settled : Settled
  circuitBreakers : CircuitBreakers
  effects : List Effect

/-- The method `callService(serviceName, path, method, authHeader, params)`
(server.js 512-531); `outcome` is what the network does with its HTTP call if
it is issued. An error thrown by `discover` rejects the promise. -/
def callService (registry : ServiceRegistry) (serviceName path method : String)
    (authHeader : Option String) (params : List (String × Json))
    (outcome : NetOutcome) (cb : CircuitBreakers) : ServiceCall :=
  match registry.discover serviceName with
  | .error e =>
      { settled := .rejected { code := none, message := e, response := none }
        circuitBreakers := cb
        effects := [.discover serviceName] }
  | .ok service =>
      let config : CallConfig :=
        { method := method
          url := service.url ++ path
          timeout := 5000
          headers :=
            match authHeader with
            | some h => if truthy authHeader then some [("Authorization", h)] else none
            | none => none
          params :=
            if method = "GET" && decide ((objectKeys params).length > 0) then some params
            else none }
      match axiosDefault outcome with
      | .ok response =>
          { settled := .fulfilled response.data
            circuitBreakers := cb
            effects := [.discover serviceName, .request config] }
      | .error error =>
          { settled := .rejected error
            circuitBreakers := cb
            effects := [.discover serviceName, .request config] }

/-- The value of `value[key]` for a key that strings, numbers, booleans and
arrays do not carry (`data`, `results`, `total`): the field of an object given
by its entries, `undefined` (here `none`) when absent or when the value is not
an object, and a `TypeError` when the value is `null`. -/
def property (value : Json) (key : String) : Except JsError (Option Json) :=
  match value with
  | .null =>
      .error { code := none
               message := "Cannot read properties of null (reading '" ++ key ++ "')"
               response := none }
  | .obj fields => .ok ((fields.find? (fun f => f.1 = key)).map Prod.snd)
  | _ => .ok none

/-- The JSON sent for an object literal whose property values may be
`undefined`: `res.json` leaves those properties out. -/
def jsonObject (fields : List (String × Option Json)) : Json :=
  .obj (fields.filterMap (fun f => f.2.map (fun v => (f.1, v))))

/-- One entry of the `data` object built by `getDashboard`
(server.js 413-432): `{ available, data, error }` for a settled sub-call. -/
def dashboardEntry (r : Settled) : Except JsError Json :=
  match r with
  | .fulfilled value =>
      match property value "data" with
      | .ok d =>
          .ok (jsonObject [("available", some (.bool true)), ("data", d),
                           ("error", some .null)])
      | .error e => .error e
  | .rejected reason =>
      .ok (jsonObject [("available", some (.bool false)), ("data", some .null),
                       ("error", some (.str reason.message))])

/-- The part of `getDashboard` after `Promise.allSettled`
(server.js 407-447): the dashboard object and the response, or the response of
the `catch` block when building the object throws. -/
def dashboardResponse (timestamp : String) (servicesStatus : List (String × Json))
    (userResponse itemsResponse categoriesResponse listsResponse : Settled) : Response :=
  let data : Except JsError Json := do
    let users ← dashboardEntry userResponse
    let items ← dashboardEntry itemsResponse
    let categories ← dashboardEntry categoriesResponse
    let lists ← dashboardEntry listsResponse
    pure (.obj [("users", users), ("items", items), ("categories", categories),
                ("lists", lists)])
  match data with
  | .ok data =>
      { status := 200
        body := .obj
          [("success", .bool true),
           ("data", .obj
             [("timestamp", .str timestamp),
              ("architecture", .str "Microservices with NoSQL"),
              ("database_approach", .str "Database per Service"),
              ("services_status", .obj servicesStatus),
              ("data", data)])] }
  | .error _ =>
      { status := 500
        body := .obj
          [("success", .bool false),
           ("message", .str "Erro ao agregar dados do dashboard")] }

/-- The method `getDashboard(req, res)` (server.js 388-448): `authHeader` is
`req.header('Authorization')`, `timestamp` is `new Date().toISOString()`, and
`users`, `items`, `categories`, `lists` are what the network does with the four
sub-calls. The sub-calls are started in the order written. -/
def getDashboard (registry : ServiceRegistry) (authHeader : Option String)
    (timestamp : String) (users items categories lists : NetOutcome)
    (cb : CircuitBreakers) : ProxyResult :=
  if !truthy authHeader then
    { response :=
        { status := 401
          body := .obj
            [("success", .bool false),
             ("message", .str "Token de autenticação obrigatório")] }
      circuitBreakers := cb
      effects := [] }
  else
    let userResponse :=
      callService registry "user-service" "/users" "GET" authHeader
        [("limit", .num 5)] users cb
    let itemsResponse :=
      callService registry "item-service" "/items" "GET" none
        [("limit", .num 10)] items userResponse.circuitBreakers
    let categoriesResponse :=
      callService registry "item-service" "/categories" "GET" none
        [] categories itemsResponse.circuitBreakers
    let listsResponse :=
      callService registry "list-service" "/lists" "GET" authHeader
        [("limit", .num 5)] lists categoriesResponse.circuitBreakers
    { response :=
        dashboardResponse timestamp registry.listServices userResponse.settled
          itemsResponse.settled categoriesResponse.settled listsResponse.settled
      circuitBreakers := listsResponse.circuitBreakers
      effects :=
        userResponse.effects ++ itemsResponse.effects ++ categoriesResponse.effects ++
          listsResponse.effects ++ [.listServices] }

/-- Following the specification: the composite entry of a sub-call, with
`available = false`, `data = null` and the message of the error for a rejected
sub-call, and `available = true`, the `data` field of the body (left out when
the body has none) and `error = null` for a sub-call fulfilled with an object. -/
def compositeEntry (r : Settled) : Json :=
  match r with
  | .rejected reason =>
      .obj [("available", .bool false), ("data", .null), ("error", .str reason.message)]
  | .fulfilled (.obj fields) =>
      match fields.find? (fun f => f.1 = "data") with
      | some f => .obj [("available", .bool true), ("data", f.2), ("error", .null)]
      | none => .obj [("available", .bool true), ("error", .null)]
  | .fulfilled _ => .obj [("available", .bool true), ("error", .null)]

/-- A settled sub-call as the dashboard claim takes it: rejected with an error,
or fulfilled with an object body. -/
def Settled.isRejectedOrObject : Settled → Bool
  | .rejected _ => true
  | .fulfilled (.obj _) => true
  | .fulfilled _ => false

/-! ## The global search and the fallback handlers -/

/-- Whether a JSON value is truthy in JavaScript (`!q` is its negation). -/
def jsTruthy : Json → Bool
  | .null => false
  | .bool b => b
  | .num n => decide (n ≠ 0)
  | .str s => decide (s ≠ "")
  | .arr _ => true
  | .obj _ => true

/-- The value of `value.data[key]` given `value.data`: a `TypeError` when
`value.data` is `undefined` or `null`, otherwise the property. -/
def propertyOfData (data : Option Json) (key : String) : Except JsError (Option Json) :=
  match data with
  | none =>
      .error { code := none
               message := "Cannot read properties of undefined (reading '" ++ key ++ "')"
               response := none }
  | some d => property d key

/-- One entry of the `results` object built by `globalSearch`
(server.js 479-494): `{ available, results, total, error }` for a settled
sub-call. -/
def searchEntry (r : Settled) : Except JsError Json :=
  match r with
  | .fulfilled value =>
      match property value "data" with
      | .error e => .error e
      | .ok data =>
          match propertyOfData data "results" with
          | .error e => .error e
          | .ok results =>
              match propertyOfData data "total" with
              | .error e => .error e
              | .ok total =>
                  .ok (jsonObject [("available", some (.bool true)), ("results", results),
                                   ("total", total), ("error", some .null)])
  | .rejected reason =>
      .ok (jsonObject [("available", some (.bool false)), ("results", some (.arr [])),
                       ("total", some (.num 0)), ("error", some (.str reason.message))])

/-- The part of `globalSearch` after `Promise.allSettled` (server.js 477-508):
`userResults` is `undefined` (here `none`) when only one search was issued. -/
def searchResponse (q : Json) (itemResults : Settled) (userResults : Option Settled) :
    Response :=
  let results : Except JsError Json :=
    match searchEntry itemResults with
    | .error e => .error e
    | .ok items =>
        match userResults with
        | none => .ok (.obj [("query", q), ("items", items)])
        | some r =>
            match searchEntry r with
            | .error e => .error e
            | .ok users => .ok (.obj [("query", q), ("items", items), ("users", users)])
  match results with
  | .ok results =>
      { status := 200
        body := .obj [("success", .bool true), ("data", results)] }
  | .error _ =>
      { status := 500
        body := .obj [("success", .bool false), ("message", .str "Erro na busca")] }

/-- The method `globalSearch(req, res)` (server.js 451-509): `q` is
`req.query.q` (`none` when absent), `authHeader` is
`req.header('Authorization')`, and `itemOutcome`, `userOutcome` are what the
network does with the item search and, if it is issued, the user search. -/
def globalSearch (registry : ServiceRegistry) (q : Option Json)
    (authHeader : Option String) (itemOutcome userOutcome : NetOutcome)
    (cb : CircuitBreakers) : ProxyResult :=
  match q with
  | none =>
      { response :=
          { status := 400
            body := .obj
              [("success", .bool false),
               ("message", .str "Parâmetro de busca \"q\" é obrigatório")] }
        circuitBreakers := cb
        effects := [] }
  | some q =>
      if !jsTruthy q then
        { response :=
            { status := 400
              body := .obj
                [("success", .bool false),
                 ("message", .str "Parâmetro de busca \"q\" é obrigatório")] }
          circuitBreakers := cb
          effects := [] }
      else
        let itemSearch :=
          callService registry "item-service" "/search" "GET" none
            [("q", q), ("limit", .num 10)] itemOutcome cb
        if truthy authHeader then
          let userSearch :=
            callService registry "user-service" "/search" "GET" authHeader
              [("q", q), ("limit", .num 5)] userOutcome itemSearch.circuitBreakers
          { response := searchResponse q itemSearch.settled (some userSearch.settled)
            circuitBreakers := userSearch.circuitBreakers
            effects := itemSearch.effects ++ userSearch.effects }
        else
          { response := searchResponse q itemSearch.settled none
            circuitBreakers := itemSearch.circuitBreakers
            effects := itemSearch.effects }

/-- The response of the 404 handler of `setupErrorHandling`
(server.js 136-150). -/
def notFoundResponse : Response :=
  { status := 404
    body := .obj
      [("success", .bool false),
       ("message", .str "Endpoint não encontrado"),
       ("service", .str "api-gateway"),
       ("availableEndpoints", .obj
         [("auth", .str "/api/auth"),
          ("users", .str "/api/users"),
          ("items", .str "/api/items"),
          ("lists", .str "/api/lists"),
          ("dashboard", .str "/api/dashboard"),
          ("search", .str "/api/search")])] }

/-- The response of the error handler of `setupErrorHandling`
(server.js 153-160). -/
def errorHandlerResponse : Response :=
  { status := 500
    body := .obj
      [("success", .bool false),
       ("message", .str "Erro interno do gateway"),
       ("service", .str "api-gateway")] }

/-- Whether the object has a property with the key. -/
def hasKey (body : Json) (key : String) : Bool :=
  match body with
  | .obj fields => fields.any (fun f => decide (f.1 = key))
  | _ => false

/-- Whether the property `success` of the object is `false`. -/
def successIsFalse (body : Json) : Bool :=
  match body with
  | .obj fields =>
      match fields.find? (fun f => decide (f.1 = "success")) with
      | some (_, .bool false) => true
      | _ => false
  | _ => false

/-- Following the specification: the failure envelope
`{ success: false, message, service }`. -/
def isFailureEnvelope (body : Json) : Bool :=
  successIsFalse body && hasKey body "message" && hasKey body "service"

/-- A settled sub-call whose fulfilled body carries a `data` field that is not
`null`, or that is rejected: the outcomes for which `globalSearch` builds its
response. -/
def Settled.hasData : Settled → Bool
  | .rejected _ => true
  | .fulfilled (.obj fields) =>
      match fields.find? (fun f => f.1 = "data") with
      | some (_, .null) => false
      | some _ => true
      | none => false
  | .fulfilled _ => false

/-! ## The two halves of the path translator -/

/-- The first `switch` of `buildTargetPath` (server.js 281-311): the path
rewritten for the service. -/
def rewritePath (serviceName originalPath : String) : String :=
  if serviceName = "user-service" then
    if jsStartsWith originalPath "/api/auth" then
      jsReplace originalPath "/api/auth" "/auth"
    else
      jsReplace originalPath "/api/users" "/users"
  else if serviceName = "item-service" then
    if jsStartsWith originalPath "/api/items/categories" then
      "/categories"
    else if jsIncludes originalPath "/search" then
      "/search"
    else
      jsReplace originalPath "/api/items" "/items"
  else if serviceName = "list-service" then
    jsReplace originalPath "/api/lists" "/lists"
  else
    originalPath

/-- The second `switch` of `buildTargetPath` (server.js 320-332): the default
path of the service. -/
def defaultPath (serviceName : String) : String :=
  if serviceName = "user-service" then "/"
  else if serviceName = "item-service" then "/items"
  else if serviceName = "list-service" then "/lists"
  else "/"

/-- The end of `buildTargetPath` (server.js 313-335) on a rewritten path: the
leading slash is added if missing and an empty or root path is replaced by the
default path of the service. -/
def normalizePath (serviceName targetPath : String) : String :=
  let targetPath : String :=
    if !jsStartsWith targetPath "/" then "/" ++ targetPath else targetPath
  if targetPath = "/" || targetPath = "" then defaultPath serviceName
  else targetPath

/-- The method `String.prototype.endsWith` for a string argument, used to
state what the specification says about sub-paths ending in `/categories`. -/
def jsEndsWith (s p : String) : Bool :=
  p.data.isSuffixOf s.data

/-! ## Counting consecutive failures -/

/-- Whether the call is `isCircuitOpen` for the service. -/
def Call.isCheckOf (serviceName : String) : Call → Bool
  | .isCircuitOpen s _ => decide (s = serviceName)
  | _ => false

/-- The count of `recordFailure` calls for the service since its last
`resetCircuitBreaker`, continued from `k` over the calls. -/
def streakFrom (serviceName : String) (k : Nat) (calls : List Call) : Nat :=
  calls.foldl
    (fun k c =>
      if c.isResetOf serviceName then 0
      else if c.isFailureOf serviceName then k + 1
      else k)
    k

/-- The number of `recordFailure` calls for the service after its last
`resetCircuitBreaker` in the sequence. -/
def streak (serviceName : String) (calls : List Call) : Nat :=
  streakFrom serviceName 0 calls

/-- The entry of the service agrees with a streak of `k` failures: no entry
only when `k = 0`, otherwise `failures = k` and open exactly when `k ≥ 3`. -/
def Counts (cb : CircuitBreakers) (serviceName : String) (k : Nat) : Prop :=
  match mapGet cb serviceName with
  | none => k = 0
  | some b => b.failures = k ∧ (b.isOpen = true ↔ 3 ≤ k)

end APIGateway

/-! ## The list service: items of a list

A shallow embedding of the item handlers of `services/list-service/server.js`
(class `ListService`). Quantities and prices are JavaScript numbers; their
arithmetic is a parameter, so that nothing proved depends on it. Item ids,
names, units and notes are strings. -/

namespace ListService

/-- The arithmetic on JavaScript numbers that the handlers use, taken as a
parameter: `0`, `+`, `*`, the truthiness test of `x || 0`, and `parseInt`. -/
structure Numbers (N : Type) where
  zero : N
  add : N → N → N
  mul : N → N → N
  truthy : N → Bool
  parseInt : APIGateway.Json → N

/-- An element of `list.items`. -/
structure ListItem (N : Type) where
  itemId : String
  itemName : String
  quantity : N
  unit : String
  estimatedPrice : N
  purchased : Bool
  notes : String
  addedAt : String

/-- The field `summary` of a list. -/
structure Summary (N : Type) where
  totalItems : Nat
  purchasedItems : Nat
  estimatedTotal : N

/-- A list document of the database `lists`. -/
structure ShoppingList (N : Type) where
  id : String
  userId : String
  name : String
  description : String
  status : String
  items : List (ListItem N)
  summary : Summary N
  createdAt : String
  updatedAt : String

/-- The catalog entry returned by `getItemData`: the fields the handlers read. -/
structure ItemData (N : Type) where
  name : String
  unit : String
  averagePrice : N

/-- The outcome of a handler: the status, `success` and `message` of the
response, its `data` if any, and the document held by the database for the
list id after the call (`none` when there is none). -/
structure Outcome (N : Type) where
  status : Nat
  success : Bool
  message : String
  data : Option (ShoppingList N)
  stored : Option (ShoppingList N)

/-- The method `calculateSummary(items)` (server.js 266-272). -/
def calculateSummary {N : Type} (ops : Numbers N) (items : List (ListItem N)) : Summary N :=
  { totalItems := items.length
    purchasedItems := (items.filter (fun item => item.purchased)).length
    estimatedTotal :=
      items.foldl
        (fun total item =>
          ops.add total
            (if ops.truthy item.estimatedPrice then item.estimatedPrice else ops.zero))
        ops.zero }

/-- The call `listsDb.update(id, { items, summary, updatedAt })`. The module
`../../shared/JsonDatabase` is not among the sources; `update` is taken to
replace the given fields of the stored document and to return the document. -/
def dbUpdate {N : Type} (list : ShoppingList N) (items : List (ListItem N))
    (summary : Summary N) (updatedAt : String) : ShoppingList N :=
  { list with items := items, summary := summary, updatedAt := updatedAt }

/-- The method `Array.prototype.findIndex` with the test
`item => item.itemId === itemId`: the index of the first such item, `none` for
`-1`. -/
def findIndex {N : Type} (itemId : String) : List (ListItem N) → Option Nat
  | [] => none
  | item :: rest =>
      if item.itemId = itemId then some 0
      else (findIndex itemId rest).map (fun i => i + 1)

/-- The items with the item at the index replaced by its image under `f`: the
in-place update of `updatedItems[itemIndex]`. -/
def modifyAt {N : Type} (f : ListItem N → ListItem N) : Nat → List (ListItem N) →
    List (ListItem N)
  | _, [] => []
  | 0, item :: rest => f item :: rest
  | i + 1, item :: rest => item :: modifyAt f i rest

/-- A response without data that leaves the database as it was. -/
def reject {N : Type} (status : Nat) (message : String)
    (found : Option (ShoppingList N)) : Outcome N :=
  { status := status, success := false, message := message, data := none, stored := found }

/-- The method `addItemToList(req, res)` (server.js 475-552): `userId` is
`req.user.id`, `itemId`, `quantity`, `notes` are the fields of the body (`none`
when absent), `found` is the result of `listsDb.findById(id)`, `itemData` the
result of `getItemData(itemId)`, and `addedAt`, `updatedAt` the two clock
readings. -/
def addItemToList {N : Type} (ops : Numbers N) (userId : String)
    (itemId : Option String) (quantity : Option APIGateway.Json) (notes : Option String)
    (found : Option (ShoppingList N)) (itemData : Option (ItemData N))
    (addedAt updatedAt : String) : Outcome N :=
  match itemId, quantity with
  | none, _ => reject 400 "ItemId e quantidade são obrigatórios" found
  | some _, none => reject 400 "ItemId e quantidade são obrigatórios" found
  | some itemId, some quantity =>
      if itemId = "" || !APIGateway.jsTruthy quantity then
        reject 400 "ItemId e quantidade são obrigatórios" found
      else
        match found with
        | none => reject 404 "Lista não encontrada" found
        | some list =>
            if list.userId ≠ userId then reject 403 "Acesso negado" found
            else
              match itemData with
              | none => reject 404 "Item não encontrado no catálogo" found
              | some itemData =>
                  match findIndex itemId list.items with
                  | some _ => reject 409 "Item já existe na lista" found
                  | none =>
                      let newItem : ListItem N :=
                        { itemId := itemId
                          itemName := itemData.name
                          quantity := ops.parseInt quantity
                          unit := itemData.unit
                          estimatedPrice :=
                            ops.mul itemData.averagePrice (ops.parseInt quantity)
                          purchased := false
                          notes :=
                            match notes with
                            | some n => if n = "" then "" else n
                            | none => ""
                          addedAt := addedAt }
                      let updatedItems := list.items ++ [newItem]
                      let summary := calculateSummary ops updatedItems
                      let updatedList := dbUpdate list updatedItems summary updatedAt
                      { status := 201
                        success := true
                        message := "Item adicionado à lista com sucesso"
                        data := some updatedList
                        stored := some updatedList }

/-- The method `updateListItem(req, res)` (server.js 555-618): `itemId` is the
route parameter, `quantity`, `purchased`, `notes` are the fields of the body
(`none` for `undefined`), `itemData` is the result of `getItemData(itemId)`
when it is called. -/
def updateListItem {N : Type} (ops : Numbers N) (userId : String) (itemId : String)
    (quantity purchased : Option APIGateway.Json) (notes : Option String)
    (found : Option (ShoppingList N)) (itemData : Option (ItemData N))
    (updatedAt : String) : Outcome N :=
  match found with
  | none => reject 404 "Lista não encontrada" found
  | some list =>
      if list.userId ≠ userId then reject 403 "Acesso negado" found
      else
        match findIndex itemId list.items with
        | none => reject 404 "Item não encontrado na lista" found
        | some itemIndex =>
            let update (item : ListItem N) : ListItem N :=
              let item :=
                match quantity with
                | some q =>
                    let item := { item with quantity := ops.parseInt q }
                    match itemData with
                    | some d =>
                        { item with estimatedPrice := ops.mul d.averagePrice (ops.parseInt q) }
                    | none => item
                | none => item
              let item :=
                match purchased with
                | some p => { item with purchased := APIGateway.jsTruthy p }
                | none => item
              match notes with
              | some n => { item with notes := n }
              | none => item
            let updatedItems := modifyAt update itemIndex list.items
            let summary := calculateSummary ops updatedItems
            let updatedList := dbUpdate list updatedItems summary updatedAt
            { status := 200
              success := true
              message := "Item atualizado com sucesso"
              data := some updatedList
              stored := some updatedList }

/-- The method `removeItemFromList(req, res)` (server.js 621-669). -/
def removeItemFromList {N : Type} (ops : Numbers N) (userId : String) (itemId : String)
    (found : Option (ShoppingList N)) (updatedAt : String) : Outcome N :=
  match found with
  | none => reject 404 "Lista não encontrada" found
  | some list =>
      if list.userId ≠ userId then reject 403 "Acesso negado" found
      else
        if !list.items.any (fun item => decide (item.itemId = itemId)) then
          reject 404 "Item não encontrado na lista" found
        else
          let updatedItems := list.items.filter (fun item => decide (item.itemId ≠ itemId))
          let summary := calculateSummary ops updatedItems
          let updatedList := dbUpdate list updatedItems summary updatedAt
          { status := 200
            success := true
            message := "Item removido da lista com sucesso"
            data := some updatedList
            stored := some updatedList }

/-- The item ids of a list, in order. -/
def itemIds {N : Type} (items : List (ListItem N)) : List String :=
  items.map (fun item => item.itemId)

/-- The stored list is consistent: its item ids are pairwise distinct and its
summary is the one `calculateSummary` gives for its items, with
`totalItems` the number of items and `purchasedItems` the number of purchased
items, at most `totalItems`. -/
def Consistent {N : Type} (ops : Numbers N) (list : ShoppingList N) : Prop :=
  (itemIds list.items).Nodup ∧
    list.summary = calculateSummary ops list.items ∧
    list.summary.totalItems = list.items.length ∧
    list.summary.purchasedItems = list.items.countP (fun item => item.purchased) ∧
    list.summary.purchasedItems ≤ list.summary.totalItems

/-- Integer arithmetic for the examples: `parseInt` of a JSON number is the
number, and `0` stands for the result on any other value. -/
def exampleNumbers : Numbers Int :=
  { zero := 0
    add := fun a b => a + b
    mul := fun a b => a * b
    truthy := fun a => decide (a ≠ 0)
    parseInt := fun v =>
      match v with
      | .num n => n
      | _ => 0 }

/-- A list of user `u1` holding one item, `rice`. -/
def exampleList : ShoppingList Int :=
  { id := "l1"
    userId := "u1"
    name := "Casa"
    description := ""
    status := "active"
    items :=
      [{ itemId := "rice", itemName := "Arroz", quantity := 2, unit := "kg",
         estimatedPrice := 30, purchased := false, notes := "", addedAt := "t0" }]
    summary := { totalItems := 1, purchasedItems := 0, estimatedTotal := 30 }
    createdAt := "t0"
    updatedAt := "t0" }

end ListService

namespace APIGateway

/-! ## The breaker map -/

theorem mapGet_mapSet_self (cb : CircuitBreakers) (key : String) (b : Breaker) :
    mapGet (mapSet cb key b) key = some b := by
  induction cb with
  | nil => simp [mapSet, mapGet]
  | cons p rest ih =>
    obtain ⟨k, v⟩ := p
    by_cases h : k = key
    · simp [mapSet, mapGet, h]
    · simp [mapSet, mapGet, h, ih]

theorem mapGet_mapSet_of_ne (cb : CircuitBreakers) (key other : String) (b : Breaker)
    (h : key ≠ other) : mapGet (mapSet cb key b) other = mapGet cb other := by
  induction cb with
  | nil => simp [mapSet, mapGet, h]
  | cons p rest ih =>
    obtain ⟨k, v⟩ := p
    by_cases hk : k = key
    · subst hk
      simp [mapSet, mapGet, h]
    · by_cases ho : k = other
      · subst ho
        simp [mapSet, mapGet, hk]
      · simp [mapSet, mapGet, hk, ho, ih]

theorem mapSet_of_mapGet (cb : CircuitBreakers) (key : String) (b : Breaker)
    (h : mapGet cb key = some b) : mapSet cb key b = cb := by
  induction cb with
  | nil => simp [mapGet] at h
  | cons p rest ih =>
    obtain ⟨k, v⟩ := p
    by_cases hk : k = key
    · simp [mapGet, hk] at h
      simp [mapSet, hk, h]
    · simp [mapGet, hk] at h
      simp [mapSet, hk, ih h]

theorem mem_of_mapGet (cb : CircuitBreakers) (key : String) (b : Breaker)
    (h : mapGet cb key = some b) : (key, b) ∈ cb := by
  induction cb with
  | nil => simp [mapGet] at h
  | cons p rest ih =>
    obtain ⟨k, v⟩ := p
    by_cases hk : k = key
    · simp [mapGet, hk] at h
      simp [hk, h]
    · simp [mapGet, hk] at h
      exact List.mem_cons_of_mem _ (ih h)

theorem mem_mapSet (cb : CircuitBreakers) (key : String) (b : Breaker)
    (p : String × Breaker) (h : p ∈ mapSet cb key b) : p ∈ cb ∨ p = (key, b) := by
  induction cb with
  | nil =>
    simp [mapSet] at h
    exact Or.inr h
  | cons q rest ih =>
    obtain ⟨k, v⟩ := q
    by_cases hk : k = key
    · simp [mapSet, hk] at h
      rcases h with h | h
      · exact Or.inr h
      · exact Or.inl (List.mem_cons_of_mem _ h)
    · simp [mapSet, hk] at h
      rcases h with h | h
      · exact Or.inl (by simp [h])
      · rcases ih h with h' | h'
        · exact Or.inl (List.mem_cons_of_mem _ h')
        · exact Or.inr h'

/-! ## The three breaker methods on the entry of their service -/

theorem isCircuitOpen_of_absent (s : String) (now : Int) (cb : CircuitBreakers)
    (h : mapGet cb s = none) : isCircuitOpen s now cb = (false, cb) := by
  simp [isCircuitOpen, h]

theorem isCircuitOpen_of_not_open (s : String) (now : Int) (cb : CircuitBreakers)
    (b : Breaker) (h : mapGet cb s = some b) (ho : b.isOpen = false) :
    isCircuitOpen s now cb = (false, cb) := by
  simp [isCircuitOpen, h, ho]

theorem isCircuitOpen_of_open_within (s : String) (now : Int) (cb : CircuitBreakers)
    (b : Breaker) (h : mapGet cb s = some b) (ho : b.isOpen = true)
    (ht : now - toNumber b.lastFailure ≤ 30000) :
    isCircuitOpen s now cb = (true, cb) := by
  have hn : ¬ (30000 < now - toNumber b.lastFailure) := not_lt.mpr ht
  simp [isCircuitOpen, h, ho, hn]

theorem isCircuitOpen_of_open_elapsed (s : String) (now : Int) (cb : CircuitBreakers)
    (b : Breaker) (h : mapGet cb s = some b) (ho : b.isOpen = true)
    (ht : now - toNumber b.lastFailure > 30000) :
    isCircuitOpen s now cb =
      (false, mapSet cb s { b with isOpen := false, isHalfOpen := true }) := by
  have hn : 30000 < now - toNumber b.lastFailure := ht
  simp [isCircuitOpen, h, ho, hn]

theorem mapGet_recordFailure_of_absent (s : String) (now : Int) (cb : CircuitBreakers)
    (h : mapGet cb s = none) :
    mapGet (recordFailure s now cb) s =
      some { failures := 1, isOpen := false, isHalfOpen := false, lastFailure := some now } := by
  simp [recordFailure, h, mapGet_mapSet_self]

theorem mapGet_recordFailure_of_lt (s : String) (now : Int) (cb : CircuitBreakers)
    (b : Breaker) (h : mapGet cb s = some b) (hf : b.failures + 1 < 3) :
    mapGet (recordFailure s now cb) s =
      some { b with failures := b.failures + 1, lastFailure := some now } := by
  have hn : ¬ (3 ≤ b.failures + 1) := not_le.mpr hf
  simp [recordFailure, h, mapGet_mapSet_self, hn]

theorem mapGet_recordFailure_of_ge (s : String) (now : Int) (cb : CircuitBreakers)
    (b : Breaker) (h : mapGet cb s = some b) (hf : 3 ≤ b.failures + 1) :
    mapGet (recordFailure s now cb) s =
      some { failures := b.failures + 1, isOpen := true, isHalfOpen := false,
             lastFailure := some now } := by
  simp [recordFailure, h, mapGet_mapSet_self, hf]

theorem mapGet_resetCircuitBreaker_self (s : String) (cb : CircuitBreakers) (b : Breaker)
    (h : mapGet cb s = some b) :
    mapGet (resetCircuitBreaker s cb) s =
      some { b with failures := 0, isOpen := false, isHalfOpen := false } := by
  simp [resetCircuitBreaker, h, mapGet_mapSet_self]

theorem mapGet_resetCircuitBreaker_of_absent (s : String) (cb : CircuitBreakers)
    (h : mapGet cb s = none) : mapGet (resetCircuitBreaker s cb) s = none := by
  simp [resetCircuitBreaker, h]

/-! ## Calls for another service leave the entry alone -/

theorem mapGet_isCircuitOpen_of_ne (s other : String) (now : Int) (cb : CircuitBreakers)
    (h : s ≠ other) : mapGet (isCircuitOpen s now cb).2 other = mapGet cb other := by
  unfold isCircuitOpen
  cases hg : mapGet cb s with
  | none => simp
  | some b =>
    by_cases hc : (b.isOpen && decide (now - toNumber b.lastFailure > 30000)) = true
    · simp only [hc, if_true]
      exact mapGet_mapSet_of_ne cb s other _ h
    · simp [hc]

theorem mapGet_recordFailure_of_ne (s other : String) (now : Int) (cb : CircuitBreakers)
    (h : s ≠ other) : mapGet (recordFailure s now cb) other = mapGet cb other := by
  unfold recordFailure
  exact mapGet_mapSet_of_ne cb s other _ h

theorem mapGet_resetCircuitBreaker_of_ne (s other : String) (cb : CircuitBreakers)
    (h : s ≠ other) : mapGet (resetCircuitBreaker s cb) other = mapGet cb other := by
  unfold resetCircuitBreaker
  cases hg : mapGet cb s with
  | none => rfl
  | some b => exact mapGet_mapSet_of_ne cb s other _ h

/-! ## Sequences of breaker calls -/

theorem run_append (cb : CircuitBreakers) (xs ys : List Call) :
    run cb (xs ++ ys) = run (run cb xs) ys := by
  simp [run, List.foldl_append]

theorem run_cons (cb : CircuitBreakers) (c : Call) (cs : List Call) :
    run cb (c :: cs) = run (step cb c) cs := rfl

theorem mapGet_step_of_untouched (s : String) (cb : CircuitBreakers) (b : Breaker)
    (c : Call) (hget : mapGet cb s = some b) (ho : b.isOpen = false)
    (hf : c.isFailureOf s = false) (hr : c.isResetOf s = false) :
    mapGet (step cb c) s = some b := by
  cases c with
  | isCircuitOpen s' now =>
    by_cases h : s' = s
    · subst h
      simp [step, isCircuitOpen_of_not_open s' now cb b hget ho, hget]
    · simp [step, mapGet_isCircuitOpen_of_ne s' s now cb h, hget]
  | recordFailure s' now =>
    have h : s' ≠ s := by simpa [Call.isFailureOf] using hf
    simp [step, mapGet_recordFailure_of_ne s' s now cb h, hget]
  | resetCircuitBreaker s' =>
    have h : s' ≠ s := by simpa [Call.isResetOf] using hr
    simp [step, mapGet_resetCircuitBreaker_of_ne s' s cb h, hget]

theorem mapGet_run_of_untouched (s : String) (b : Breaker) (calls : List Call) :
    ∀ cb : CircuitBreakers, mapGet cb s = some b → b.isOpen = false →
      (∀ c ∈ calls, c.isFailureOf s = false ∧ c.isResetOf s = false) →
      mapGet (run cb calls) s = some b := by
  induction calls with
  | nil => intro cb hget _ _; simpa [run] using hget
  | cons c cs ih =>
    intro cb hget ho hall
    rw [run_cons]
    have hc := hall c (List.mem_cons_self _ _)
    exact ih (step cb c) (mapGet_step_of_untouched s cb b c hget ho hc.1 hc.2) ho
      (fun c' hc' => hall c' (List.mem_cons_of_mem _ hc'))

theorem closedWith_step (s : String) (cb : CircuitBreakers) (k : Nat) (c : Call)
    (hk : closedWith cb s k = true) (hr : c.isResetOf s = false)
    (hlt : k + (if c.isFailureOf s then 1 else 0) < 3) :
    closedWith (step cb c) s (k + (if c.isFailureOf s then 1 else 0)) = true := by
  cases c with
  | isCircuitOpen s' now =>
    by_cases h : s' = s
    · subst h
      cases hg : mapGet cb s' with
      | none =>
        simp [step, isCircuitOpen_of_absent s' now cb hg, Call.isFailureOf]
        exact hk
      | some b =>
        have ho : b.isOpen = false := by
          simp [closedWith, hg] at hk
          exact hk.2
        simp [step, isCircuitOpen_of_not_open s' now cb b hg ho, Call.isFailureOf]
        exact hk
    · have := mapGet_isCircuitOpen_of_ne s' s now cb h
      simp only [closedWith, step, this, Call.isFailureOf] at hk ⊢
      simpa using hk
  | recordFailure s' now =>
    by_cases h : s' = s
    · subst h
      simp only [Call.isFailureOf, decide_True, if_true] at hlt ⊢
      cases hg : mapGet cb s' with
      | none =>
        have hk0 : k = 0 := by simpa [closedWith, hg] using hk
        subst hk0
        simp [closedWith, step, mapGet_recordFailure_of_absent s' now cb hg]
      | some b =>
        have hb : b.failures = k ∧ b.isOpen = false := by
          simpa [closedWith, hg] using hk
        have hf : b.failures + 1 < 3 := by omega
        simp [closedWith, step, mapGet_recordFailure_of_lt s' now cb b hg hf, hb.1, hb.2]
    · have := mapGet_recordFailure_of_ne s' s now cb h
      simp only [closedWith, step, this, Call.isFailureOf, h] at hk ⊢
      simpa using hk
  | resetCircuitBreaker s' =>
    have h : s' ≠ s := by simpa [Call.isResetOf] using hr
    have := mapGet_resetCircuitBreaker_of_ne s' s cb h
    simp only [closedWith, step, this, Call.isFailureOf] at hk ⊢
    simpa using hk

theorem closedWith_run (s : String) (calls : List Call) :
    ∀ (cb : CircuitBreakers) (k : Nat), closedWith cb s k = true →
      (∀ c ∈ calls, c.isResetOf s = false) →
      k + calls.countP (Call.isFailureOf s) < 3 →
      closedWith (run cb calls) s (k + calls.countP (Call.isFailureOf s)) = true := by
  induction calls with
  | nil => intro cb k hk _ _; simpa [run] using hk
  | cons c cs ih =>
    intro cb k hk hall hlt
    rw [run_cons]
    have hcount : (c :: cs).countP (Call.isFailureOf s) =
        (if c.isFailureOf s then 1 else 0) + cs.countP (Call.isFailureOf s) := by
      rw [List.countP_cons]; omega
    rw [hcount] at hlt ⊢
    have hstep := closedWith_step s cb k c hk (hall c (List.mem_cons_self _ _)) (by omega)
    have := ih (step cb c) _ hstep (fun c' hc' => hall c' (List.mem_cons_of_mem _ hc'))
      (by omega)
    rw [Nat.add_assoc] at this
    exact this

theorem closedWith_resetCircuitBreaker (s : String) (cb : CircuitBreakers) :
    mapGet cb s ≠ none → closedWith (resetCircuitBreaker s cb) s 0 = true := by
  intro h
  cases hg : mapGet cb s with
  | none => exact absurd hg h
  | some b => simp [closedWith, mapGet_resetCircuitBreaker_self s cb b hg]

/-! ## The invariant of the breaker map -/

theorem tripped_mapSet (cb : CircuitBreakers) (key : String) (b : Breaker)
    (h : Tripped cb) (hb : (b.isOpen = true ∨ b.isHalfOpen = true) → 3 ≤ b.failures) :
    Tripped (mapSet cb key b) := by
  intro p hp
  rcases mem_mapSet cb key b p hp with h' | h'
  · exact h p h'
  · subst h'
    exact hb

theorem tripped_step (cb : CircuitBreakers) (c : Call) (h : Tripped cb) :
    Tripped (step cb c) := by
  cases c with
  | isCircuitOpen s now =>
    simp only [step, isCircuitOpen]
    cases hg : mapGet cb s with
    | none => exact h
    | some b =>
      have hb := h (s, b) (mem_of_mapGet cb s b hg)
      by_cases hc : (b.isOpen && decide (now - toNumber b.lastFailure > 30000)) = true
      · simp only [hc, if_true]
        apply tripped_mapSet cb s _ h
        intro _
        simp only [Bool.and_eq_true] at hc
        exact hb (Or.inl hc.1)
      · simp only [hc]
        exact h
  | recordFailure s now =>
    simp only [step, recordFailure]
    apply tripped_mapSet cb s _ h
    cases hg : mapGet cb s with
    | none => simp
    | some b =>
      have hb := h (s, b) (mem_of_mapGet cb s b hg)
      by_cases hf : 3 ≤ b.failures + 1
      · simp [hf]
      · simp only [hf, if_false]
        intro ho
        have h3 : 3 ≤ b.failures := hb ho
        omega
  | resetCircuitBreaker s =>
    simp only [step, resetCircuitBreaker]
    cases hg : mapGet cb s with
    | none => exact h
    | some b =>
      apply tripped_mapSet cb s _ h
      simp

theorem tripped_run (calls : List Call) :
    ∀ cb : CircuitBreakers, Tripped cb → Tripped (run cb calls) := by
  induction calls with
  | nil => intro cb h; simpa [run] using h
  | cons c cs ih =>
    intro cb h
    rw [run_cons]
    exact ih (step cb c) (tripped_step cb c h)

theorem tripped_nil : Tripped [] := by
  intro p hp
  simp at hp

/-! ## The circuit breaker: claims -/

/-- Claim C1. From a map with no entry for the service, or one just reset for
it, a sequence of calls without a reset of the service that holds exactly three
`recordFailure` calls for it, the last at time `t` and closing the sequence
(checks of the service and calls for other services may come in between),
leaves the entry open with three failures; `isCircuitOpen` then returns true at
every `now` with `now - t ≤ 30000` and leaves the map as it is. -/
theorem open_after_three_failures (s : String) (cb : CircuitBreakers)
    (pre : List Call) (t now : Int)
    (hstart : mapGet cb s = none ∨ ∃ cb0, cb = resetCircuitBreaker s cb0)
    (hreset : ∀ c ∈ pre, c.isResetOf s = false)
    (hcount : pre.countP (Call.isFailureOf s) = 2)
    (hnow : now - t ≤ 30000) :
    mapGet (run cb (pre ++ [.recordFailure s t])) s =
        some { failures := 3, isOpen := true, isHalfOpen := false, lastFailure := some t } ∧
      isCircuitOpen s now (run cb (pre ++ [.recordFailure s t])) =
        (true, run cb (pre ++ [.recordFailure s t])) := by
  have h0 : closedWith cb s 0 = true := by
    rcases hstart with h | ⟨cb0, rfl⟩
    · simp [closedWith, h]
    · cases hg : mapGet cb0 s with
      | none => simp [closedWith, mapGet_resetCircuitBreaker_of_absent s cb0 hg]
      | some b => exact closedWith_resetCircuitBreaker s cb0 (by simp [hg])
  have h2 := closedWith_run s pre cb 0 h0 hreset (by omega)
  rw [hcount] at h2
  have hget : mapGet (run cb (pre ++ [.recordFailure s t])) s =
      some { failures := 3, isOpen := true, isHalfOpen := false, lastFailure := some t } := by
    rw [run_append]
    cases hg : mapGet (run cb pre) s with
    | none => simp [closedWith, hg] at h2
    | some b =>
      have hb : b.failures = 2 ∧ b.isOpen = false := by simpa [closedWith, hg] using h2
      have := mapGet_recordFailure_of_ge s t (run cb pre) b hg (by omega)
      simpa [run, step, hb.1] using this
  exact ⟨hget, isCircuitOpen_of_open_within s now _ _ hget rfl (by simpa [toNumber] using hnow)⟩

theorem open_after_three_failures_witness :
    isCircuitOpen "list-service" 33000
        (run [] ([.recordFailure "list-service" 1000, .isCircuitOpen "list-service" 1500,
                  .recordFailure "user-service" 1600, .recordFailure "list-service" 2000] ++
                 [.recordFailure "list-service" 3000])) =
      (true, [("list-service", { failures := 3, isOpen := true, isHalfOpen := false,
                                 lastFailure := some 3000 }),
              ("user-service", { failures := 1, isOpen := false, isHalfOpen := false,
                                 lastFailure := some 1600 })]) := by
  have h := open_after_three_failures "list-service" []
    [.recordFailure "list-service" 1000, .isCircuitOpen "list-service" 1500,
     .recordFailure "user-service" 1600, .recordFailure "list-service" 2000] 3000 33000
    (Or.inl rfl) (by decide) (by decide) (by decide)
  rw [h.2]
  decide

/-- Claim C3, the boundary. A breaker opened by three failures at time 1000 is
still reported open at time 31000, exactly 30000 ms after the last failure, and
is not moved to half-open. -/
theorem isCircuitOpen_at_timeout_boundary :
    mapGet (run [] [.recordFailure "list-service" 1000, .recordFailure "list-service" 1000,
                    .recordFailure "list-service" 1000]) "list-service" =
        some { failures := 3, isOpen := true, isHalfOpen := false, lastFailure := some 1000 } ∧
      (31000 : Int) - 1000 ≥ 30000 ∧
      isCircuitOpen "list-service" 31000
          (run [] [.recordFailure "list-service" 1000, .recordFailure "list-service" 1000,
                   .recordFailure "list-service" 1000]) =
        (true, [("list-service", { failures := 3, isOpen := true, isHalfOpen := false,
                                   lastFailure := some 1000 })]) := by
  decide

/-- Claim C3, amended. For an open entry, `isCircuitOpen` returns false and
stores the entry as half-open (`isOpen = false`, `isHalfOpen = true`, the other
fields kept) when `now - lastFailure > 30000`, and returns true without
changing the map when `now - lastFailure ≤ 30000`. -/
theorem isCircuitOpen_on_open_entry (s : String) (cb : CircuitBreakers) (b : Breaker) (now : Int)
    (hget : mapGet cb s = some b) (hopen : b.isOpen = true) :
    (now - toNumber b.lastFailure > 30000 →
        (isCircuitOpen s now cb).1 = false ∧
        mapGet (isCircuitOpen s now cb).2 s =
          some { failures := b.failures, isOpen := false, isHalfOpen := true,
                 lastFailure := b.lastFailure }) ∧
      (now - toNumber b.lastFailure ≤ 30000 → isCircuitOpen s now cb = (true, cb)) := by
  constructor
  · intro ht
    rw [isCircuitOpen_of_open_elapsed s now cb b hget hopen ht]
    exact ⟨rfl, mapGet_mapSet_self cb s _⟩
  · intro ht
    exact isCircuitOpen_of_open_within s now cb b hget hopen ht

theorem isCircuitOpen_on_open_entry_witness :
    ((isCircuitOpen "list-service" 31001
          [("list-service", { failures := 3, isOpen := true, isHalfOpen := false,
                              lastFailure := some 1000 })]).1 = false ∧
        mapGet (isCircuitOpen "list-service" 31001
          [("list-service", { failures := 3, isOpen := true, isHalfOpen := false,
                              lastFailure := some 1000 })]).2 "list-service" =
          some { failures := 3, isOpen := false, isHalfOpen := true,
                 lastFailure := some 1000 }) ∧
      isCircuitOpen "list-service" 31000
          [("list-service", { failures := 3, isOpen := true, isHalfOpen := false,
                              lastFailure := some 1000 })] =
        (true, [("list-service", { failures := 3, isOpen := true, isHalfOpen := false,
                                   lastFailure := some 1000 })]) :=
  ⟨(isCircuitOpen_on_open_entry "list-service"
      [("list-service", { failures := 3, isOpen := true, isHalfOpen := false,
                          lastFailure := some 1000 })]
      { failures := 3, isOpen := true, isHalfOpen := false, lastFailure := some 1000 } 31001
      (by decide) rfl).1 (by decide),
   (isCircuitOpen_on_open_entry "list-service"
      [("list-service", { failures := 3, isOpen := true, isHalfOpen := false,
                          lastFailure := some 1000 })]
      { failures := 3, isOpen := true, isHalfOpen := false, lastFailure := some 1000 } 31000
      (by decide) rfl).2 (by decide)⟩

/-- Claim C4, as stated, fails. A breaker opened at time 1000 is moved to
half-open by the probe at time 40000; the next `isCircuitOpen` call, with no
`recordFailure` or `resetCircuitBreaker` in between, returns false as well: the
second attempt is allowed, not rejected. -/
theorem halfOpen_second_attempt_allowed :
    isCircuitOpen "list-service" 40000
        (run [] [.recordFailure "list-service" 1000, .recordFailure "list-service" 1000,
                 .recordFailure "list-service" 1000]) =
      (false, [("list-service", { failures := 3, isOpen := false, isHalfOpen := true,
                                  lastFailure := some 1000 })]) ∧
      isCircuitOpen "list-service" 40001
          [("list-service", { failures := 3, isOpen := false, isHalfOpen := true,
                              lastFailure := some 1000 })] =
        (false, [("list-service", { failures := 3, isOpen := false, isHalfOpen := true,
                                    lastFailure := some 1000 })]) := by
  decide

/-- Claim C4, amended. After the probe has moved an open entry to half-open,
every sequence of calls that holds no `recordFailure` and no
`resetCircuitBreaker` for the service leaves the entry half-open, and every
further `isCircuitOpen` call for the service, at any time, returns false (the
attempt is allowed) and leaves the map as it is. -/
theorem halfOpen_attempts_allowed (s : String) (cb : CircuitBreakers) (b : Breaker)
    (now : Int) (calls : List Call) (next : Int)
    (hget : mapGet cb s = some b) (hopen : b.isOpen = true)
    (helapsed : now - toNumber b.lastFailure > 30000)
    (hcalls : ∀ c ∈ calls, c.isFailureOf s = false ∧ c.isResetOf s = false) :
    (isCircuitOpen s now cb).1 = false ∧
      mapGet (run (isCircuitOpen s now cb).2 calls) s =
        some { failures := b.failures, isOpen := false, isHalfOpen := true,
               lastFailure := b.lastFailure } ∧
      isCircuitOpen s next (run (isCircuitOpen s now cb).2 calls) =
        (false, run (isCircuitOpen s now cb).2 calls) := by
  have hprobe := isCircuitOpen_of_open_elapsed s now cb b hget hopen helapsed
  have hhalf : mapGet (isCircuitOpen s now cb).2 s =
      some { failures := b.failures, isOpen := false, isHalfOpen := true,
             lastFailure := b.lastFailure } := by
    rw [hprobe]
    exact mapGet_mapSet_self cb s _
  have hrun := mapGet_run_of_untouched s _ calls _ hhalf rfl hcalls
  refine ⟨by rw [hprobe], hrun, ?_⟩
  exact isCircuitOpen_of_not_open s next _ _ hrun rfl

theorem halfOpen_attempts_allowed_witness :
    (isCircuitOpen "list-service" 40000
        [("list-service", { failures := 3, isOpen := true, isHalfOpen := false,
                            lastFailure := some 1000 })]).1 = false ∧
      mapGet (run (isCircuitOpen "list-service" 40000
          [("list-service", { failures := 3, isOpen := true, isHalfOpen := false,
                              lastFailure := some 1000 })]).2
          [.isCircuitOpen "list-service" 40001, .recordFailure "item-service" 40002])
          "list-service" =
        some { failures := 3, isOpen := false, isHalfOpen := true, lastFailure := some 1000 } ∧
      isCircuitOpen "list-service" 40003
          (run (isCircuitOpen "list-service" 40000
            [("list-service", { failures := 3, isOpen := true, isHalfOpen := false,
                                lastFailure := some 1000 })]).2
            [.isCircuitOpen "list-service" 40001, .recordFailure "item-service" 40002]) =
        (false, run (isCircuitOpen "list-service" 40000
            [("list-service", { failures := 3, isOpen := true, isHalfOpen := false,
                                lastFailure := some 1000 })]).2
            [.isCircuitOpen "list-service" 40001, .recordFailure "item-service" 40002]) :=
  halfOpen_attempts_allowed "list-service"
    [("list-service", { failures := 3, isOpen := true, isHalfOpen := false,
                        lastFailure := some 1000 })]
    { failures := 3, isOpen := true, isHalfOpen := false, lastFailure := some 1000 }
    40000 [.isCircuitOpen "list-service" 40001, .recordFailure "item-service" 40002] 40003
    (by decide) rfl (by decide) (by decide)

/-- Claim C5. In every map reached from the empty map by breaker calls, a
single `recordFailure` at time `t` on a half-open entry stores it as open
(`isOpen = true`, `isHalfOpen = false`, `lastFailure = t`, one more failure),
and `isCircuitOpen` then returns true at every `now` with `now - t ≤ 30000`,
leaving the map as it is. -/
theorem recordFailure_of_halfOpen (s : String) (calls : List Call) (b : Breaker)
    (t now : Int)
    (hget : mapGet (run [] calls) s = some b) (hhalf : b.isHalfOpen = true)
    (hnow : now - t ≤ 30000) :
    mapGet (recordFailure s t (run [] calls)) s =
        some { failures := b.failures + 1, isOpen := true, isHalfOpen := false,
               lastFailure := some t } ∧
      isCircuitOpen s now (recordFailure s t (run [] calls)) =
        (true, recordFailure s t (run [] calls)) := by
  have h3 : 3 ≤ b.failures :=
    tripped_run calls [] tripped_nil (s, b) (mem_of_mapGet _ s b hget) (Or.inr hhalf)
  have hrec := mapGet_recordFailure_of_ge s t (run [] calls) b hget (by omega)
  exact ⟨hrec, isCircuitOpen_of_open_within s now _ _ hrec rfl (by simpa [toNumber] using hnow)⟩

theorem recordFailure_of_halfOpen_witness :
    mapGet (recordFailure "list-service" 41000
        (run [] [.recordFailure "list-service" 1000, .recordFailure "list-service" 1000,
                 .recordFailure "list-service" 1000, .isCircuitOpen "list-service" 40000]))
        "list-service" =
        some { failures := 3 + 1, isOpen := true, isHalfOpen := false,
               lastFailure := some 41000 } ∧
      isCircuitOpen "list-service" 71000
          (recordFailure "list-service" 41000
            (run [] [.recordFailure "list-service" 1000, .recordFailure "list-service" 1000,
                     .recordFailure "list-service" 1000, .isCircuitOpen "list-service" 40000])) =
        (true, recordFailure "list-service" 41000
            (run [] [.recordFailure "list-service" 1000, .recordFailure "list-service" 1000,
                     .recordFailure "list-service" 1000, .isCircuitOpen "list-service" 40000])) :=
  recordFailure_of_halfOpen "list-service"
    [.recordFailure "list-service" 1000, .recordFailure "list-service" 1000,
     .recordFailure "list-service" 1000, .isCircuitOpen "list-service" 40000]
    { failures := 3, isOpen := false, isHalfOpen := true, lastFailure := some 1000 }
    41000 71000 (by decide) rfl (by decide)

/-- Claim C6. For an existing entry in any state, `resetCircuitBreaker` stores
it with `failures = 0`, `isOpen = false` and `isHalfOpen = false` (keeping
`lastFailure`), and the next `isCircuitOpen` returns false at every time and
leaves the map as it is. -/
theorem resetCircuitBreaker_closes (s : String) (cb : CircuitBreakers) (b : Breaker)
    (now : Int) (hget : mapGet cb s = some b) :
    mapGet (resetCircuitBreaker s cb) s =
        some { failures := 0, isOpen := false, isHalfOpen := false,
               lastFailure := b.lastFailure } ∧
      isCircuitOpen s now (resetCircuitBreaker s cb) = (false, resetCircuitBreaker s cb) := by
  have h := mapGet_resetCircuitBreaker_self s cb b hget
  exact ⟨h, isCircuitOpen_of_not_open s now _ _ h rfl⟩

theorem resetCircuitBreaker_closes_witness :
    mapGet (resetCircuitBreaker "item-service"
        [("item-service", { failures := 5, isOpen := true, isHalfOpen := false,
                            lastFailure := some 7000 })]) "item-service" =
        some { failures := 0, isOpen := false, isHalfOpen := false,
               lastFailure := some 7000 } ∧
      isCircuitOpen "item-service" 7001
          (resetCircuitBreaker "item-service"
            [("item-service", { failures := 5, isOpen := true, isHalfOpen := false,
                                lastFailure := some 7000 })]) =
        (false, resetCircuitBreaker "item-service"
            [("item-service", { failures := 5, isOpen := true, isHalfOpen := false,
                                lastFailure := some 7000 })]) :=
  resetCircuitBreaker_closes "item-service"
    [("item-service", { failures := 5, isOpen := true, isHalfOpen := false,
                        lastFailure := some 7000 })]
    { failures := 5, isOpen := true, isHalfOpen := false, lastFailure := some 7000 }
    7001 (by decide)

/-- Claim C7. In every map reached from the empty map by any sequence of
`isCircuitOpen`, `recordFailure` and `resetCircuitBreaker` calls, whatever
their times, every stored entry with `isOpen = true` has `failures ≥ 3`. -/
theorem open_entry_has_three_failures (calls : List Call) (p : String × Breaker)
    (hmem : p ∈ run [] calls) (hopen : p.2.isOpen = true) : 3 ≤ p.2.failures :=
  tripped_run calls [] tripped_nil p hmem (Or.inl hopen)

theorem open_entry_has_three_failures_witness :
    ("list-service", Breaker.mk 4 true false (some 41000)) ∈
        run [] [.recordFailure "list-service" 1000, .recordFailure "list-service" 2000,
                .recordFailure "list-service" 3000, .isCircuitOpen "list-service" 40000,
                .recordFailure "list-service" 41000, .resetCircuitBreaker "user-service"] ∧
      3 ≤ (Breaker.mk 4 true false (some 41000)).failures :=
  ⟨by decide,
   open_entry_has_three_failures
    [.recordFailure "list-service" 1000, .recordFailure "list-service" 2000,
     .recordFailure "list-service" 3000, .isCircuitOpen "list-service" 40000,
     .recordFailure "list-service" 41000, .resetCircuitBreaker "user-service"]
    ("list-service", Breaker.mk 4 true false (some 41000))
    (by decide) rfl⟩

/-! ## The proxy -/

theorem isCircuitOpen_snd_of_true (s : String) (now : Int) (cb : CircuitBreakers)
    (h : (isCircuitOpen s now cb).1 = true) : (isCircuitOpen s now cb).2 = cb := by
  unfold isCircuitOpen at h ⊢
  cases hg : mapGet cb s with
  | none => simp
  | some b =>
    by_cases hc : (b.isOpen && decide (now - toNumber b.lastFailure > 30000)) = true
    · simp [hg, hc] at h
    · simp [hc]

theorem isCircuitOpen_of_closedWith (s : String) (now : Int) (cb : CircuitBreakers)
    (k : Nat) (h : closedWith cb s k = true) : isCircuitOpen s now cb = (false, cb) := by
  cases hg : mapGet cb s with
  | none => exact isCircuitOpen_of_absent s now cb hg
  | some b =>
    have hb : b.failures = k ∧ b.isOpen = false := by simpa [closedWith, hg] using h
    exact isCircuitOpen_of_not_open s now cb b hg hb.2

theorem proxyRequest_of_open (registry : ServiceRegistry) (s : String) (req : Request)
    (outcome : NetOutcome) (now later : Int) (cb : CircuitBreakers)
    (h : (isCircuitOpen s now cb).1 = true) :
    proxyRequest registry s req outcome now later cb =
      { response :=
          { status := 503
            body := .obj
              [("success", .bool false),
               ("message", .str ("Serviço " ++ s ++ " temporariamente indisponível")),
               ("service", .str s)] }
        circuitBreakers := cb
        effects := [.isCircuitOpen s] } := by
  have h2 := isCircuitOpen_snd_of_true s now cb h
  unfold proxyRequest
  cases hc : isCircuitOpen s now cb with
  | mk r cb1 =>
    rw [hc] at h h2
    simp only at h h2
    subst h h2
    rfl

theorem proxyRequest_of_miss (registry : ServiceRegistry) (s : String) (req : Request)
    (outcome : NetOutcome) (now later : Int) (cb : CircuitBreakers) (e : String)
    (h : (isCircuitOpen s now cb).1 = false) (hmiss : registry.discover s = .error e) :
    proxyRequest registry s req outcome now later cb =
      { response :=
          { status := 503
            body := .obj
              [("success", .bool false),
               ("message", .str ("Serviço " ++ s ++ " não encontrado")),
               ("service", .str s),
               ("availableServices",
                 .arr ((objectKeys registry.listServices).map Json.str))] }
        circuitBreakers := (isCircuitOpen s now cb).2
        effects := [.isCircuitOpen s, .discover s, .listServices] } := by
  unfold proxyRequest
  cases hc : isCircuitOpen s now cb with
  | mk r cb1 =>
    rw [hc] at h
    simp only at h
    subst h
    simp only [hmiss]

theorem proxyRequest_of_call (registry : ServiceRegistry) (s : String) (req : Request)
    (outcome : NetOutcome) (now later : Int) (cb : CircuitBreakers) (service : Service)
    (h : (isCircuitOpen s now cb).1 = false) (hreg : registry.discover s = .ok service) :
    proxyRequest registry s req outcome now later cb =
      match axios (buildConfig s service req) outcome with
      | .ok response =>
          { response := { status := response.status, body := response.data }
            circuitBreakers := resetCircuitBreaker s (isCircuitOpen s now cb).2
            effects :=
              [.isCircuitOpen s, .discover s, .axios (buildConfig s service req),
               .resetCircuitBreaker s] }
      | .error error =>
          { response := errorResponse s error
            circuitBreakers := recordFailure s later (isCircuitOpen s now cb).2
            effects :=
              [.isCircuitOpen s, .discover s, .axios (buildConfig s service req),
               .recordFailure s] } := by
  unfold proxyRequest
  cases hc : isCircuitOpen s now cb with
  | mk r cb1 =>
    rw [hc] at h
    simp only at h
    subst h
    simp only [hreg]

theorem axios_of_answer_lt (s : String) (service : Service) (req : Request)
    (status : Nat) (data : Json) (h : status < 500) :
    axios (buildConfig s service req) (.answered status data) =
      .ok { status := status, data := data } := by
  simp [axios, buildConfig, validateStatus, h]

theorem axios_of_answer_ge (s : String) (service : Service) (req : Request)
    (status : Nat) (data : Json) (h : 500 ≤ status) :
    ∃ code message, axios (buildConfig s service req) (.answered status data) =
      .error { code := code, message := message,
               response := some { status := status, data := data } } ∧
      code ≠ some "ECONNREFUSED" ∧ code ≠ some "ETIMEDOUT" := by
  have hn : ¬ status < 500 := not_lt.mpr h
  refine ⟨_, _, by simp only [axios, buildConfig, validateStatus, hn, decide_False]; rfl, ?_, ?_⟩
  · split
    · decide
    · split
      · decide
      · simp
  · split
    · decide
    · split
      · decide
      · simp

theorem closedWith_proxyRequest_of_answer_lt (registry : ServiceRegistry) (s : String)
    (service : Service) (hreg : registry.discover s = .ok service)
    (req : Request) (status : Nat) (data : Json) (now later : Int) (cb : CircuitBreakers)
    (k : Nat) (hk : closedWith cb s k = true) (hs : status < 500) :
    closedWith (proxyRequest registry s req (.answered status data) now later cb).circuitBreakers
      s 0 = true := by
  have hc := isCircuitOpen_of_closedWith s now cb k hk
  rw [proxyRequest_of_call registry s req _ now later cb service (by rw [hc]) hreg,
    axios_of_answer_lt s service req status data hs, hc]
  simp only
  cases hg : mapGet cb s with
  | none => simp [closedWith, mapGet_resetCircuitBreaker_of_absent s cb hg]
  | some b => exact closedWith_resetCircuitBreaker s cb (by simp [hg])

theorem closedWith_proxyAll_of_answers_lt (registry : ServiceRegistry) (s : String)
    (service : Service) (hreg : registry.discover s = .ok service) (xs : List Exchange) :
    ∀ (cb : CircuitBreakers), closedWith cb s 0 = true →
      (∀ x ∈ xs, ∃ status data, x.outcome = .answered status data ∧ status < 500) →
      closedWith (proxyAll registry s cb xs) s 0 = true := by
  induction xs with
  | nil => intro cb hk _; simpa [proxyAll] using hk
  | cons x rest ih =>
    intro cb hk hall
    obtain ⟨status, data, hout, hs⟩ := hall x (List.mem_cons_self _ _)
    have h1 := closedWith_proxyRequest_of_answer_lt registry s service hreg x.req status data
      x.now x.later cb 0 hk hs
    rw [← hout] at h1
    exact ih _ h1 (fun y hy => hall y (List.mem_cons_of_mem _ hy))

/-! ## The proxy: claims -/

/-- Claim C2, as stated, fails for status 500 and above. Three consecutive
requests to a registered service, each answered by the backend with status 500,
are each recorded with `recordFailure` and leave the circuit open with three
failures; the fourth request is rejected by the gateway with 503. -/
theorem three_server_errors_open_circuit :
    (proxyRequest exampleRegistry "list-service" exampleRequest
        (.answered 500 (.obj [("success", .bool false)])) 1000 1010 []).effects =
      [.isCircuitOpen "list-service", .discover "list-service",
       .axios (buildConfig "list-service" { url := "http://localhost:3002" } exampleRequest),
       .recordFailure "list-service"] ∧
    proxyAll exampleRegistry "list-service" []
        [{ req := exampleRequest, outcome := .answered 500 (.obj [("success", .bool false)]),
           now := 1000, later := 1010 },
         { req := exampleRequest, outcome := .answered 500 (.obj [("success", .bool false)]),
           now := 2000, later := 2010 },
         { req := exampleRequest, outcome := .answered 503 (.obj [("success", .bool false)]),
           now := 3000, later := 3010 }] =
      [("list-service", { failures := 3, isOpen := true, isHalfOpen := false,
                          lastFailure := some 3010 })] ∧
    (proxyRequest exampleRegistry "list-service" exampleRequest
        (.answered 200 (.obj [("success", .bool true)])) 4000 4010
        [("list-service", { failures := 3, isOpen := true, isHalfOpen := false,
                            lastFailure := some 3010 })]).response.status = 503 := by
  refine ⟨rfl, ?_, ?_⟩ <;> decide

/-- Claim C2, amended. For a registered service whose call is let through by
`isCircuitOpen`: a backend answer with status below 500 makes the gateway call
`resetCircuitBreaker` and not `recordFailure`; an answer with status 500 or
above makes it call `recordFailure` and not `resetCircuitBreaker`.
Consequently any number of consecutive requests answered with a status below
500 (every 2xx and 4xx), starting with the circuit not open and no failure
counted, leaves `failures` at 0 and the circuit not open. -/
theorem proxyRequest_records_answer (registry : ServiceRegistry) (s : String)
    (service : Service) (hreg : registry.discover s = .ok service) :
    (∀ (req : Request) (status : Nat) (data : Json) (now later : Int) (cb : CircuitBreakers),
        (isCircuitOpen s now cb).1 = false → status < 500 →
        (proxyRequest registry s req (.answered status data) now later cb).effects =
            [.isCircuitOpen s, .discover s, .axios (buildConfig s service req),
             .resetCircuitBreaker s] ∧
          (proxyRequest registry s req (.answered status data) now later cb).circuitBreakers =
            resetCircuitBreaker s (isCircuitOpen s now cb).2) ∧
    (∀ (req : Request) (status : Nat) (data : Json) (now later : Int) (cb : CircuitBreakers),
        (isCircuitOpen s now cb).1 = false → 500 ≤ status →
        (proxyRequest registry s req (.answered status data) now later cb).effects =
            [.isCircuitOpen s, .discover s, .axios (buildConfig s service req),
             .recordFailure s] ∧
          (proxyRequest registry s req (.answered status data) now later cb).circuitBreakers =
            recordFailure s later (isCircuitOpen s now cb).2) ∧
    (∀ (cb : CircuitBreakers) (xs : List Exchange), closedWith cb s 0 = true →
        (∀ x ∈ xs, ∃ status data, x.outcome = .answered status data ∧ status < 500) →
        closedWith (proxyAll registry s cb xs) s 0 = true) := by
  refine ⟨?_, ?_, ?_⟩
  · intro req status data now later cb hc hs
    rw [proxyRequest_of_call registry s req _ now later cb service hc hreg,
      axios_of_answer_lt s service req status data hs]
    exact ⟨rfl, rfl⟩
  · intro req status data now later cb hc hs
    obtain ⟨code, message, hax, _, _⟩ := axios_of_answer_ge s service req status data hs
    rw [proxyRequest_of_call registry s req _ now later cb service hc hreg, hax]
    exact ⟨rfl, rfl⟩
  · intro cb xs hk hall
    exact closedWith_proxyAll_of_answers_lt registry s service hreg xs cb hk hall

theorem proxyRequest_records_answer_witness :
    ((proxyRequest exampleRegistry "list-service" exampleRequest
          (.answered 404 (.obj [("success", .bool false)])) 1000 1010
          [("list-service", { failures := 2, isOpen := false, isHalfOpen := false,
                              lastFailure := some 900 })]).effects =
        [.isCircuitOpen "list-service", .discover "list-service",
         .axios (buildConfig "list-service" { url := "http://localhost:3002" } exampleRequest),
         .resetCircuitBreaker "list-service"] ∧
      (proxyRequest exampleRegistry "list-service" exampleRequest
          (.answered 404 (.obj [("success", .bool false)])) 1000 1010
          [("list-service", { failures := 2, isOpen := false, isHalfOpen := false,
                              lastFailure := some 900 })]).circuitBreakers =
        resetCircuitBreaker "list-service"
          (isCircuitOpen "list-service" 1000
            [("list-service", { failures := 2, isOpen := false, isHalfOpen := false,
                                lastFailure := some 900 })]).2) ∧
    closedWith
        (proxyAll exampleRegistry "list-service" []
          [{ req := exampleRequest, outcome := .answered 404 .null, now := 1, later := 2 },
           { req := exampleRequest, outcome := .answered 401 .null, now := 3, later := 4 },
           { req := exampleRequest, outcome := .answered 422 .null, now := 5, later := 6 },
           { req := exampleRequest, outcome := .answered 400 .null, now := 7, later := 8 }])
        "list-service" 0 = true :=
  ⟨(proxyRequest_records_answer exampleRegistry "list-service"
      { url := "http://localhost:3002" } rfl).1 exampleRequest 404
      (.obj [("success", .bool false)]) 1000 1010
      [("list-service", { failures := 2, isOpen := false, isHalfOpen := false,
                          lastFailure := some 900 })] (by decide) (by decide),
   (proxyRequest_records_answer exampleRegistry "list-service"
      { url := "http://localhost:3002" } rfl).2.2 []
      [{ req := exampleRequest, outcome := .answered 404 .null, now := 1, later := 2 },
       { req := exampleRequest, outcome := .answered 401 .null, now := 3, later := 4 },
       { req := exampleRequest, outcome := .answered 422 .null, now := 5, later := 6 },
       { req := exampleRequest, outcome := .answered 400 .null, now := 7, later := 8 }]
      (by decide)
      (by
        intro x hx
        simp only [List.mem_cons, List.mem_singleton, List.not_mem_nil, or_false] at hx
        rcases hx with rfl | rfl | rfl | rfl
        · exact ⟨404, .null, rfl, by decide⟩
        · exact ⟨401, .null, rfl, by decide⟩
        · exact ⟨422, .null, rfl, by decide⟩
        · exact ⟨400, .null, rfl, by decide⟩)⟩

/-- Claim C8. When `isCircuitOpen` returns true for the service, `proxyRequest`
responds 503 with `success = false` and `service` the service name; its only
call is `isCircuitOpen` (no `discover`, no HTTP call) and the breaker map is
left as it was. -/
theorem proxyRequest_of_circuit_open (registry : ServiceRegistry) (s : String)
    (req : Request) (outcome : NetOutcome) (now later : Int) (cb : CircuitBreakers)
    (hopen : (isCircuitOpen s now cb).1 = true) :
    (proxyRequest registry s req outcome now later cb).response =
        { status := 503
          body := .obj
            [("success", .bool false),
             ("message", .str ("Serviço " ++ s ++ " temporariamente indisponível")),
             ("service", .str s)] } ∧
      (proxyRequest registry s req outcome now later cb).effects = [.isCircuitOpen s] ∧
      (proxyRequest registry s req outcome now later cb).circuitBreakers = cb := by
  rw [proxyRequest_of_open registry s req outcome now later cb hopen]
  exact ⟨rfl, rfl, rfl⟩

theorem proxyRequest_of_circuit_open_witness :
    (proxyRequest exampleRegistry "list-service" exampleRequest
        (.answered 200 .null) 4000 4010
        [("list-service", { failures := 3, isOpen := true, isHalfOpen := false,
                            lastFailure := some 3010 })]).response =
        { status := 503
          body := .obj
            [("success", .bool false),
             ("message", .str ("Serviço " ++ "list-service" ++ " temporariamente indisponível")),
             ("service", .str "list-service")] } ∧
      (proxyRequest exampleRegistry "list-service" exampleRequest
        (.answered 200 .null) 4000 4010
        [("list-service", { failures := 3, isOpen := true, isHalfOpen := false,
                            lastFailure := some 3010 })]).effects =
        [.isCircuitOpen "list-service"] ∧
      (proxyRequest exampleRegistry "list-service" exampleRequest
        (.answered 200 .null) 4000 4010
        [("list-service", { failures := 3, isOpen := true, isHalfOpen := false,
                            lastFailure := some 3010 })]).circuitBreakers =
        [("list-service", { failures := 3, isOpen := true, isHalfOpen := false,
                            lastFailure := some 3010 })] :=
  proxyRequest_of_circuit_open exampleRegistry "list-service" exampleRequest
    (.answered 200 .null) 4000 4010
    [("list-service", { failures := 3, isOpen := true, isHalfOpen := false,
                        lastFailure := some 3010 })] (by decide)

/-- Claim C9. When `discover` fails for the service and its circuit is not open
(no entry, or an entry with `isOpen = false`), `proxyRequest` responds 503 with
`success = false`, `service` the service name and `availableServices` the keys
of `listServices()`; it calls `isCircuitOpen`, `discover` and `listServices`
only (no HTTP call, no `recordFailure`, no `resetCircuitBreaker`) and leaves the
breaker map as it was. -/
theorem proxyRequest_of_discovery_miss (registry : ServiceRegistry) (s : String)
    (req : Request) (outcome : NetOutcome) (now later : Int) (cb : CircuitBreakers)
    (e : String) (hmiss : registry.discover s = .error e)
    (hclosed : mapGet cb s = none ∨ ∃ b, mapGet cb s = some b ∧ b.isOpen = false) :
    (proxyRequest registry s req outcome now later cb).response =
        { status := 503
          body := .obj
            [("success", .bool false),
             ("message", .str ("Serviço " ++ s ++ " não encontrado")),
             ("service", .str s),
             ("availableServices",
               .arr ((objectKeys registry.listServices).map Json.str))] } ∧
      (proxyRequest registry s req outcome now later cb).effects =
        [.isCircuitOpen s, .discover s, .listServices] ∧
      (proxyRequest registry s req outcome now later cb).circuitBreakers = cb := by
  have hc : isCircuitOpen s now cb = (false, cb) := by
    rcases hclosed with h | ⟨b, h, ho⟩
    · exact isCircuitOpen_of_absent s now cb h
    · exact isCircuitOpen_of_not_open s now cb b h ho
  rw [proxyRequest_of_miss registry s req outcome now later cb e (by rw [hc]) hmiss, hc]
  exact ⟨rfl, rfl, rfl⟩

theorem proxyRequest_of_discovery_miss_witness :
    (proxyRequest exampleRegistry "user-service" exampleRequest
        (.answered 200 .null) 4000 4010
        [("list-service", { failures := 1, isOpen := false, isHalfOpen := false,
                            lastFailure := some 3010 })]).response =
        { status := 503
          body := .obj
            [("success", .bool false),
             ("message", .str ("Serviço " ++ "user-service" ++ " não encontrado")),
             ("service", .str "user-service"),
             ("availableServices",
               .arr ((objectKeys exampleRegistry.listServices).map Json.str))] } ∧
      (proxyRequest exampleRegistry "user-service" exampleRequest
        (.answered 200 .null) 4000 4010
        [("list-service", { failures := 1, isOpen := false, isHalfOpen := false,
                            lastFailure := some 3010 })]).effects =
        [.isCircuitOpen "user-service", .discover "user-service", .listServices] ∧
      (proxyRequest exampleRegistry "user-service" exampleRequest
        (.answered 200 .null) 4000 4010
        [("list-service", { failures := 1, isOpen := false, isHalfOpen := false,
                            lastFailure := some 3010 })]).circuitBreakers =
        [("list-service", { failures := 1, isOpen := false, isHalfOpen := false,
                            lastFailure := some 3010 })] :=
  proxyRequest_of_discovery_miss exampleRegistry "user-service" exampleRequest
    (.answered 200 .null) 4000 4010
    [("list-service", { failures := 1, isOpen := false, isHalfOpen := false,
                        lastFailure := some 3010 })]
    ("Serviço não encontrado: " ++ "user-service") rfl (Or.inl (by decide))

/-- Claim C10, the failing input. A call to the registered list-service that
ends in the axios request timeout (code `ECONNABORTED`, no response) or in a DNS
failure (code `ENOTFOUND`) is answered with status 500 and
`service = "api-gateway"`, not with 503 and the name of the service; only the
codes `ECONNREFUSED` and `ETIMEDOUT` give 503. -/
theorem proxyRequest_of_axios_timeout :
    (proxyRequest exampleRegistry "list-service" exampleRequest
        (.failed (some "ECONNABORTED") "timeout of 10000ms exceeded") 1000 11000 []).response =
        { status := 500
          body := .obj
            [("success", .bool false),
             ("message", .str "Erro interno do gateway"),
             ("service", .str "api-gateway"),
             ("error", .str "timeout of 10000ms exceeded")] } ∧
      (proxyRequest exampleRegistry "list-service" exampleRequest
        (.failed (some "ENOTFOUND") "getaddrinfo ENOTFOUND localhost") 1000 1005 []).response =
        { status := 500
          body := .obj
            [("success", .bool false),
             ("message", .str "Erro interno do gateway"),
             ("service", .str "api-gateway"),
             ("error", .str "getaddrinfo ENOTFOUND localhost")] } ∧
      (proxyRequest exampleRegistry "list-service" exampleRequest
        (.failed (some "ECONNREFUSED") "connect ECONNREFUSED 127.0.0.1:3002") 1000 1005
        []).response =
        { status := 503
          body := .obj
            [("success", .bool false),
             ("message", .str "Serviço list-service indisponível"),
             ("service", .str "list-service"),
             ("error", .str "ECONNREFUSED")] } := by
  refine ⟨rfl, rfl, rfl⟩

/-! ## The path translator -/

theorem buildTargetPath_eq (s p : String) :
    buildTargetPath s p = normalizePath s (rewritePath s p) := rfl

theorem replaceChars_append_left (p rest r : List Char) :
    replaceChars (p ++ rest) p r = r ++ rest := by
  cases h : p ++ rest with
  | nil =>
    have hp : p = [] := (List.append_eq_nil.mp h).1
    have hr : rest = [] := (List.append_eq_nil.mp h).2
    simp [replaceChars, hp, hr]
  | cons c tl =>
    have hpre : p.isPrefixOf (c :: tl) = true := by
      rw [← h]
      exact List.isPrefixOf_iff_prefix.mpr (List.prefix_append p rest)
    simp only [replaceChars, hpre, if_true]
    rw [← h, List.drop_left]

theorem replaceChars_of_not_includes (l p r : List Char)
    (h : includesChars l p = false) : replaceChars l p r = l := by
  induction l with
  | nil =>
    simp only [includesChars] at h
    simp [replaceChars, h]
  | cons c tl ih =>
    simp only [includesChars, Bool.or_eq_false_iff] at h
    simp [replaceChars, h.1, ih h.2]

theorem jsReplace_append_left (p rest r : String) :
    jsReplace (p ++ rest) p r = r ++ rest := by
  apply String.ext
  simp [jsReplace, replaceChars_append_left]

theorem jsReplace_of_not_includes (t p r : String) (h : jsIncludes t p = false) :
    jsReplace t p r = t := by
  apply String.ext
  simp only [jsReplace]
  exact replaceChars_of_not_includes t.data p.data r.data h

theorem jsStartsWith_append_left (p rest : String) : jsStartsWith (p ++ rest) p = true := by
  simp only [jsStartsWith, String.data_append]
  exact List.isPrefixOf_iff_prefix.mpr (List.prefix_append _ _)

theorem normalizePath_of_slash_cons (s t : String) (c : Char) (tl : List Char)
    (h : t.data = '/' :: c :: tl) : normalizePath s t = t := by
  have h1 : jsStartsWith t "/" = true := by
    simp only [jsStartsWith, h]
    rfl
  have h2 : t ≠ "/" := by
    intro e
    rw [e] at h
    simp at h
  have h3 : t ≠ "" := by
    intro e
    rw [e] at h
    simp at h
  simp [normalizePath, h1, h2, h3]

theorem jsStartsWith_users_auth (rest : String) :
    jsStartsWith ("/api/users" ++ rest) "/api/auth" = false := by
  rfl

theorem rewritePath_auth (rest : String) :
    rewritePath "user-service" ("/api/auth" ++ rest) = "/auth" ++ rest := by
  simp [rewritePath, jsStartsWith_append_left, jsReplace_append_left]

theorem rewritePath_users (rest : String) :
    rewritePath "user-service" ("/api/users" ++ rest) = "/users" ++ rest := by
  simp [rewritePath, jsStartsWith_users_auth, jsReplace_append_left]

theorem rewritePath_lists (rest : String) :
    rewritePath "list-service" ("/api/lists" ++ rest) = "/lists" ++ rest := by
  simp [rewritePath, jsReplace_append_left]

theorem jsStartsWith_items_categories (rest : String) :
    jsStartsWith ("/api/items" ++ rest) "/api/items/categories" =
      jsStartsWith rest "/categories" := by
  rfl

theorem rewritePath_items (rest : String) :
    rewritePath "item-service" ("/api/items" ++ rest) =
      if jsStartsWith rest "/categories" then "/categories"
      else if jsIncludes ("/api/items" ++ rest) "/search" then "/search"
      else "/items" ++ rest := by
  simp [rewritePath, jsStartsWith_items_categories, jsReplace_append_left]

theorem data_of_jsStartsWith_slash (t : String) (h : jsStartsWith t "/" = true) :
    ∃ tl, t.data = '/' :: tl := by
  cases hd : t.data with
  | nil =>
    simp only [jsStartsWith, hd] at h
    exact absurd h (by decide)
  | cons c tl =>
    simp only [jsStartsWith, hd] at h
    have hc : ('/' == c) = true := by
      have h' : (('/' == c) && ([] : List Char).isPrefixOf tl) = true := h
      simp only [Bool.and_eq_true] at h'
      exact h'.1
    have : '/' = c := eq_of_beq hc
    exact ⟨tl, by rw [this]⟩

theorem jsStartsWith_slash_of_data (t : String) (tl : List Char) (h : t.data = '/' :: tl) :
    jsStartsWith t "/" = true := by
  simp only [jsStartsWith, h]
  exact List.isPrefixOf_iff_prefix.mpr ⟨tl, rfl⟩

theorem defaultPath_cases (s : String) :
    defaultPath s = "/" ∨ defaultPath s = "/items" ∨ defaultPath s = "/lists" := by
  unfold defaultPath
  split
  · exact Or.inl rfl
  · split
    · exact Or.inr (Or.inl rfl)
    · split
      · exact Or.inr (Or.inr rfl)
      · exact Or.inl rfl

theorem normalizePath_cases (s t : String) :
    normalizePath s t = defaultPath s ∨
      (normalizePath s t ≠ "/" ∧ normalizePath s t ≠ "" ∧
        (normalizePath s t = t ∨ normalizePath s t = "/" ++ t) ∧
        jsStartsWith (normalizePath s t) "/" = true) := by
  by_cases hs : jsStartsWith t "/" = true
  · by_cases he : t = "/" ∨ t = ""
    · left
      rcases he with he | he <;> subst he <;> rfl
    · right
      have h1 : t ≠ "/" := fun e => he (Or.inl e)
      have h2 : t ≠ "" := fun e => he (Or.inr e)
      have : normalizePath s t = t := by simp [normalizePath, hs, h1, h2]
      rw [this]
      exact ⟨h1, h2, Or.inl rfl, hs⟩
  · have hs' : jsStartsWith t "/" = false := by simpa using hs
    by_cases he : "/" ++ t = "/"
    · left
      simp [normalizePath, hs', he]
    · right
      have h2 : "/" ++ t ≠ "" := by
        intro e
        have := congrArg String.data e
        simp at this
      have : normalizePath s t = "/" ++ t := by simp [normalizePath, hs', he, h2]
      rw [this]
      exact ⟨he, h2, Or.inr rfl, jsStartsWith_slash_of_data _ t.data rfl⟩

theorem normalizePath_of_root (s t : String) (h : t = "" ∨ t = "/") :
    normalizePath s t = defaultPath s := by
  rcases h with h | h <;> subst h <;> rfl

theorem includesChars_length (l p : List Char) (h : includesChars l p = true) :
    p.length ≤ l.length := by
  induction l with
  | nil =>
    simp only [includesChars, List.isEmpty_iff] at h
    simp [h]
  | cons c tl ih =>
    simp only [includesChars, Bool.or_eq_true] at h
    rcases h with h | h
    · exact (List.isPrefixOf_iff_prefix.mp h).length_le
    · exact Nat.le_succ_of_le (ih h)

theorem replaceChars_length (l p r : List Char) (h : includesChars l p = true) :
    (replaceChars l p r).length + p.length = l.length + r.length := by
  induction l with
  | nil =>
    simp only [includesChars, List.isEmpty_iff] at h
    simp [replaceChars, h]
  | cons c tl ih =>
    by_cases hp : p.isPrefixOf (c :: tl) = true
    · have hle := (List.isPrefixOf_iff_prefix.mp hp).length_le
      simp only [replaceChars, hp, if_true, List.length_append, List.length_drop]
      omega
    · have hp' : p.isPrefixOf (c :: tl) = false := Bool.eq_false_iff.mpr hp
      simp only [includesChars, hp', Bool.false_or] at h
      have := ih h
      simp only [replaceChars, hp', List.length_cons]
      simp only [Bool.false_eq_true, if_false, List.length_cons]
      omega

theorem normalizePath_length (s t : String) :
    (normalizePath s t).data.length ≤ max (t.data.length + 1) 6 := by
  rcases normalizePath_cases s t with h | h
  · rw [h]
    rcases defaultPath_cases s with d | d | d <;> rw [d] <;>
      exact le_trans (by decide) (le_max_right _ _)
  · rcases h.2.2.1 with e | e
    · rw [e]
      exact le_trans (Nat.le_succ _) (le_max_left _ _)
    · rw [e]
      refine le_trans ?_ (le_max_left _ _)
      simp [String.data_append]

theorem buildTargetPath_fixed_iff (s out pat r : String) (c : Char) (tl : List Char)
    (hrw : rewritePath s out = jsReplace out pat r)
    (hout : out.data = '/' :: c :: tl)
    (hlen : r.data.length + 2 ≤ pat.data.length) (hpat : 7 ≤ pat.data.length) :
    buildTargetPath s out = out ↔ jsIncludes out pat = false := by
  rw [buildTargetPath_eq, hrw]
  constructor
  · intro h
    by_contra hinc
    have hinc' : includesChars out.data pat.data = true := by
      simpa [jsIncludes] using hinc
    have h1 := replaceChars_length out.data pat.data r.data hinc'
    have h2 := includesChars_length out.data pat.data hinc'
    have h3 := normalizePath_length s (jsReplace out pat r)
    rw [h] at h3
    have h4 : (jsReplace out pat r).data = replaceChars out.data pat.data r.data := rfl
    rw [h4] at h3
    rcases le_max_iff.mp h3 with h5 | h5 <;> omega
  · intro h
    rw [jsReplace_of_not_includes out pat r h]
    exact normalizePath_of_slash_cons s out c tl hout

theorem buildTargetPath_auth (rest : String) :
    buildTargetPath "user-service" ("/api/auth" ++ rest) = "/auth" ++ rest := by
  rw [buildTargetPath_eq, rewritePath_auth]
  exact normalizePath_of_slash_cons _ _ 'a' ("uth".data ++ rest.data) rfl

theorem buildTargetPath_users (rest : String) :
    buildTargetPath "user-service" ("/api/users" ++ rest) = "/users" ++ rest := by
  rw [buildTargetPath_eq, rewritePath_users]
  exact normalizePath_of_slash_cons _ _ 'u' ("sers".data ++ rest.data) rfl

theorem buildTargetPath_lists (rest : String) :
    buildTargetPath "list-service" ("/api/lists" ++ rest) = "/lists" ++ rest := by
  rw [buildTargetPath_eq, rewritePath_lists]
  exact normalizePath_of_slash_cons _ _ 'l' ("ists".data ++ rest.data) rfl

theorem buildTargetPath_items (rest : String) :
    buildTargetPath "item-service" ("/api/items" ++ rest) =
      if jsStartsWith rest "/categories" then "/categories"
      else if jsIncludes rest "/search" then "/search"
      else "/items" ++ rest := by
  rw [buildTargetPath_eq, rewritePath_items]
  have hs : jsIncludes ("/api/items" ++ rest) "/search" = jsIncludes rest "/search" := rfl
  rw [hs]
  by_cases h1 : jsStartsWith rest "/categories" = true
  · simp only [h1, if_true]
    decide
  · by_cases h2 : jsIncludes rest "/search" = true
    · simp only [h1, h2, if_true, if_false]
      decide
    · simp only [h1, h2, if_false]
      exact normalizePath_of_slash_cons _ _ 'i' ("tems".data ++ rest.data) rfl

theorem rewritePath_user_of_auth (rest : String) :
    rewritePath "user-service" ("/auth" ++ rest) =
      jsReplace ("/auth" ++ rest) "/api/users" "/users" := by
  have h : jsStartsWith ("/auth" ++ rest) "/api/auth" = false := rfl
  simp [rewritePath, h]

theorem rewritePath_user_of_users (rest : String) :
    rewritePath "user-service" ("/users" ++ rest) =
      jsReplace ("/users" ++ rest) "/api/users" "/users" := by
  have h : jsStartsWith ("/users" ++ rest) "/api/auth" = false := rfl
  simp [rewritePath, h]

theorem rewritePath_list_of_lists (rest : String) :
    rewritePath "list-service" ("/lists" ++ rest) =
      jsReplace ("/lists" ++ rest) "/api/lists" "/lists" := by
  simp [rewritePath]

theorem rewritePath_item_of_items (rest : String) (h : jsIncludes rest "/search" = false) :
    rewritePath "item-service" ("/items" ++ rest) =
      jsReplace ("/items" ++ rest) "/api/items" "/items" := by
  have h1 : jsStartsWith ("/items" ++ rest) "/api/items/categories" = false := rfl
  have h2 : jsIncludes ("/items" ++ rest) "/search" = jsIncludes rest "/search" := rfl
  simp [rewritePath, h1, h2, h]

/-! ## The path translator: claims -/

/-- Claim C13. For every string `rest`, `buildTargetPath` maps
`/api/auth` + rest to `/auth` + rest and `/api/users` + rest to
`/users` + rest for user-service, and `/api/lists` + rest to `/lists` + rest
for list-service: only the leading prefix is rewritten, whatever `rest` holds. -/
theorem buildTargetPath_rewrites_leading_only (rest : String) :
    buildTargetPath "user-service" ("/api/auth" ++ rest) = "/auth" ++ rest ∧
      buildTargetPath "user-service" ("/api/users" ++ rest) = "/users" ++ rest ∧
      buildTargetPath "list-service" ("/api/lists" ++ rest) = "/lists" ++ rest := by
  refine ⟨?_, ?_, ?_⟩
  · rw [buildTargetPath_eq, rewritePath_auth]
    exact normalizePath_of_slash_cons _ _ 'a' ("uth".data ++ rest.data) rfl
  · rw [buildTargetPath_eq, rewritePath_users]
    exact normalizePath_of_slash_cons _ _ 'u' ("sers".data ++ rest.data) rfl
  · rw [buildTargetPath_eq, rewritePath_lists]
    exact normalizePath_of_slash_cons _ _ 'l' ("ists".data ++ rest.data) rfl

/-- Claim C14. For every string `rest`, `buildTargetPath` for item-service maps
`/api/items` + rest to `/categories` when `rest` starts with `/categories`
(whether or not the path contains `/search`), otherwise to `/search` when the
whole path contains `/search` anywhere, otherwise to `/items` + rest; in
particular `/api/items/categories` is mapped to `/categories`. -/
theorem buildTargetPath_item_service (rest : String) :
    buildTargetPath "item-service" ("/api/items" ++ rest) =
        (if jsStartsWith rest "/categories" then "/categories"
         else if jsIncludes ("/api/items" ++ rest) "/search" then "/search"
         else "/items" ++ rest) ∧
      buildTargetPath "item-service" "/api/items/categories" = "/categories" ∧
      buildTargetPath "item-service" "/api/items/categories/search?q=/search" =
        "/categories" ∧
      buildTargetPath "item-service" "/api/items?name=a/search" = "/search" := by
  refine ⟨?_, by decide, by decide, by decide⟩
  rw [buildTargetPath_eq, rewritePath_items]
  by_cases h1 : jsStartsWith rest "/categories" = true
  · simp only [h1, if_true]
    decide
  · by_cases h2 : jsIncludes ("/api/items" ++ rest) "/search" = true
    · simp only [h1, h2, if_true, if_false]
      decide
    · simp only [h1, h2, if_false]
      exact normalizePath_of_slash_cons _ _ 'i' ("tems".data ++ rest.data) rfl

/-- Claim C15, as stated, fails. The sub-path of `/api/items/123/categories`
ends in `/categories`, yet `buildTargetPath` for item-service returns
`/items/123/categories`, not `/categories`: the code tests how the path
starts, not how it ends. -/
theorem buildTargetPath_subpath_ending_in_categories :
    jsEndsWith "/123/categories" "/categories" = true ∧
      buildTargetPath "item-service" ("/api/items" ++ "/123/categories") =
        "/items/123/categories" := by
  decide

/-- Claim C15, amended. For item-service, every path that starts with
`/api/items/categories` (its sub-path begins with `/categories`) is rewritten
by `buildTargetPath` to the fixed backend path `/categories`, whatever follows. -/
theorem buildTargetPath_categories (originalPath : String)
    (h : jsStartsWith originalPath "/api/items/categories" = true) :
    buildTargetPath "item-service" originalPath = "/categories" := by
  have hr : rewritePath "item-service" originalPath = "/categories" := by
    simp [rewritePath, h]
  rw [buildTargetPath_eq, hr]
  decide

theorem buildTargetPath_categories_witness :
    buildTargetPath "item-service" "/api/items/categories/electronics?x=1" = "/categories" :=
  buildTargetPath_categories "/api/items/categories/electronics?x=1" (by decide)

/-- Claim C16. For every service name and every input string, the empty string
and strings without a leading slash included, `buildTargetPath` returns a
non-empty string that starts with `/`. -/
theorem buildTargetPath_starts_with_slash (serviceName originalPath : String) :
    buildTargetPath serviceName originalPath ≠ "" ∧
      jsStartsWith (buildTargetPath serviceName originalPath) "/" = true ∧
      ∃ tl, (buildTargetPath serviceName originalPath).data = '/' :: tl := by
  have key : jsStartsWith (buildTargetPath serviceName originalPath) "/" = true := by
    rw [buildTargetPath_eq]
    rcases normalizePath_cases serviceName (rewritePath serviceName originalPath) with h | h
    · rw [h]
      rcases defaultPath_cases serviceName with d | d | d <;> rw [d] <;> decide
    · exact h.2.2.2
  obtain ⟨tl, htl⟩ := data_of_jsStartsWith_slash _ key
  refine ⟨?_, key, tl, htl⟩
  intro e
  rw [e] at htl
  simp at htl

/-- Claim C17. For item-service and list-service `buildTargetPath` never
returns the root path `/`. For every service, whenever the rewriting yields the
empty string or `/`, the result is the default path of the service: `/items`
for item-service, `/lists` for list-service, `/` for user-service and for any
other service name. The inputs `""` and `/` give `/items` and `/lists`. -/
theorem buildTargetPath_default_path :
    (∀ p : String, buildTargetPath "item-service" p ≠ "/" ∧
        buildTargetPath "list-service" p ≠ "/") ∧
      (∀ s p : String, (rewritePath s p = "" ∨ rewritePath s p = "/") →
        buildTargetPath s p = defaultPath s) ∧
      defaultPath "item-service" = "/items" ∧
      defaultPath "list-service" = "/lists" ∧
      defaultPath "user-service" = "/" ∧
      (∀ s : String, s ≠ "user-service" → s ≠ "item-service" → s ≠ "list-service" →
        defaultPath s = "/") ∧
      buildTargetPath "item-service" "" = "/items" ∧
      buildTargetPath "item-service" "/" = "/items" ∧
      buildTargetPath "list-service" "" = "/lists" ∧
      buildTargetPath "list-service" "/" = "/lists" := by
  refine ⟨?_, ?_, by decide, by decide, by decide, ?_, by decide, by decide, by decide,
    by decide⟩
  · intro p
    constructor
    · rw [buildTargetPath_eq]
      rcases normalizePath_cases "item-service" (rewritePath "item-service" p) with h | h
      · rw [h]; decide
      · exact h.1
    · rw [buildTargetPath_eq]
      rcases normalizePath_cases "list-service" (rewritePath "list-service" p) with h | h
      · rw [h]; decide
      · exact h.1
  · intro s p h
    rw [buildTargetPath_eq]
    exact normalizePath_of_root s _ h
  · intro s h1 h2 h3
    simp [defaultPath, h1, h2, h3]

theorem buildTargetPath_default_path_witness :
    buildTargetPath "item-service" "" = defaultPath "item-service" ∧
      buildTargetPath "unknown-service" "/" = defaultPath "unknown-service" ∧
      defaultPath "unknown-service" = "/" :=
  ⟨buildTargetPath_default_path.2.1 "item-service" "" (Or.inl (by decide)),
   buildTargetPath_default_path.2.1 "unknown-service" "/" (Or.inr (by decide)),
   buildTargetPath_default_path.2.2.2.2.2.1 "unknown-service" (by decide) (by decide)
     (by decide)⟩

/-- Claim C18, as stated, fails. The public path `/api/lists/api/lists` lies
under the routing prefix of list-service; `buildTargetPath` maps it to
`/lists/api/lists` and maps that output to `/lists/lists`, so applying the
translator to its own output changes it. The same happens for user-service
with `/api/auth/api/users`. -/
theorem buildTargetPath_not_idempotent :
    buildTargetPath "list-service" "/api/lists/api/lists" = "/lists/api/lists" ∧
      buildTargetPath "list-service" (buildTargetPath "list-service" "/api/lists/api/lists") =
        "/lists/lists" ∧
      buildTargetPath "user-service" "/api/auth/api/users" = "/auth/api/users" ∧
      buildTargetPath "user-service" (buildTargetPath "user-service" "/api/auth/api/users") =
        "/auth/users" := by
  decide

/-- Claim C18, amended. Applying `buildTargetPath` to its own output returns
that output unchanged exactly when the remainder `rest` after the routing
prefix does not bring a rewritten prefix back: for user-service and
`/api/auth` + rest or `/api/users` + rest, if and only if `rest` does not
contain `/api/users`; for item-service and `/api/items` + rest, if and only if
`rest` starts with `/categories`, or contains `/search`, or does not contain
`/api/items`; for list-service and `/api/lists` + rest, if and only if `rest`
does not contain `/api/lists`. -/
theorem buildTargetPath_idempotent_iff (rest : String) :
    (buildTargetPath "user-service" (buildTargetPath "user-service" ("/api/auth" ++ rest)) =
        buildTargetPath "user-service" ("/api/auth" ++ rest) ↔
      jsIncludes rest "/api/users" = false) ∧
    (buildTargetPath "user-service" (buildTargetPath "user-service" ("/api/users" ++ rest)) =
        buildTargetPath "user-service" ("/api/users" ++ rest) ↔
      jsIncludes rest "/api/users" = false) ∧
    (buildTargetPath "item-service" (buildTargetPath "item-service" ("/api/items" ++ rest)) =
        buildTargetPath "item-service" ("/api/items" ++ rest) ↔
      (jsStartsWith rest "/categories" = true ∨ jsIncludes rest "/search" = true ∨
        jsIncludes rest "/api/items" = false)) ∧
    (buildTargetPath "list-service" (buildTargetPath "list-service" ("/api/lists" ++ rest)) =
        buildTargetPath "list-service" ("/api/lists" ++ rest) ↔
      jsIncludes rest "/api/lists" = false) := by
  refine ⟨?_, ?_, ?_, ?_⟩
  · rw [buildTargetPath_auth]
    have hi : jsIncludes ("/auth" ++ rest) "/api/users" = jsIncludes rest "/api/users" := rfl
    rw [← hi]
    exact buildTargetPath_fixed_iff "user-service" ("/auth" ++ rest) "/api/users" "/users"
      'a' ("uth".data ++ rest.data) (rewritePath_user_of_auth rest) rfl (by decide) (by decide)
  · rw [buildTargetPath_users]
    have hi : jsIncludes ("/users" ++ rest) "/api/users" = jsIncludes rest "/api/users" := rfl
    rw [← hi]
    exact buildTargetPath_fixed_iff "user-service" ("/users" ++ rest) "/api/users" "/users"
      'u' ("sers".data ++ rest.data) (rewritePath_user_of_users rest) rfl (by decide)
      (by decide)
  · rw [buildTargetPath_items]
    by_cases h1 : jsStartsWith rest "/categories" = true
    · simp only [h1, if_true, true_or, iff_true]
      decide
    · by_cases h2 : jsIncludes rest "/search" = true
      · simp only [h1, h2, if_true, if_false, true_or, or_true, iff_true]
        decide
      · have h1' : jsStartsWith rest "/categories" = false := Bool.eq_false_iff.mpr h1
        have h2' : jsIncludes rest "/search" = false := Bool.eq_false_iff.mpr h2
        have hi : jsIncludes ("/items" ++ rest) "/api/items" = jsIncludes rest "/api/items" :=
          rfl
        rw [← hi]
        simp only [h1', h2', Bool.false_eq_true, if_false, false_or]
        exact buildTargetPath_fixed_iff "item-service" ("/items" ++ rest) "/api/items"
          "/items" 'i' ("tems".data ++ rest.data) (rewritePath_item_of_items rest h2') rfl
          (by decide) (by decide)
  · rw [buildTargetPath_lists]
    have hi : jsIncludes ("/lists" ++ rest) "/api/lists" = jsIncludes rest "/api/lists" := rfl
    rw [← hi]
    exact buildTargetPath_fixed_iff "list-service" ("/lists" ++ rest) "/api/lists" "/lists"
      'l' ("ists".data ++ rest.data) (rewritePath_list_of_lists rest) rfl (by decide)
      (by decide)

theorem buildTargetPath_idempotent_iff_witness :
    buildTargetPath "list-service" (buildTargetPath "list-service" ("/api/lists" ++ "/42/items")) =
        buildTargetPath "list-service" ("/api/lists" ++ "/42/items") ∧
      buildTargetPath "user-service"
          (buildTargetPath "user-service" ("/api/auth" ++ "/login")) =
        buildTargetPath "user-service" ("/api/auth" ++ "/login") ∧
      buildTargetPath "item-service"
          (buildTargetPath "item-service" ("/api/items" ++ "/categories")) =
        buildTargetPath "item-service" ("/api/items" ++ "/categories") :=
  ⟨(buildTargetPath_idempotent_iff "/42/items").2.2.2.mpr (by decide),
   (buildTargetPath_idempotent_iff "/login").1.mpr (by decide),
   (buildTargetPath_idempotent_iff "/categories").2.2.1.mpr (Or.inl (by decide))⟩

/-! ## The proxy: forwarding and faults -/

theorem errorResponse_of_response (s : String) (code : Option String) (message : String)
    (r : AxiosResponse) (h1 : code ≠ some "ECONNREFUSED") (h2 : code ≠ some "ETIMEDOUT") :
    errorResponse s { code := code, message := message, response := some r } =
      { status := r.status, body := r.data } := by
  simp [errorResponse, h1, h2]

theorem errorResponse_of_fault (s : String) (code : Option String) (message : String)
    (h1 : code ≠ some "ECONNREFUSED") (h2 : code ≠ some "ETIMEDOUT") :
    errorResponse s { code := code, message := message, response := none } =
      { status := 500
        body := .obj
          [("success", .bool false),
           ("message", .str "Erro interno do gateway"),
           ("service", .str "api-gateway"),
           ("error", .str message)] } := by
  simp [errorResponse, h1, h2]

theorem axios_of_failed (config : AxiosConfig) (code : Option String) (message : String) :
    axios config (.failed code message) =
      .error { code := code, message := message, response := none } := rfl

/-- Claim C11. For every backend response with status `s` and body `b` to a
call that `proxyRequest` issues (the circuit lets it through and the service is
registered), whether axios returns it (`s < 500`) or delivers it through the
`response` field of the error (`s ≥ 500`), the response sent to the caller has
exactly status `s` and body `b`. -/
theorem proxyRequest_forwards_answer (registry : ServiceRegistry) (s : String)
    (service : Service) (req : Request) (status : Nat) (data : Json) (now later : Int)
    (cb : CircuitBreakers)
    (hcheck : (isCircuitOpen s now cb).1 = false)
    (hreg : registry.discover s = .ok service) :
    (proxyRequest registry s req (.answered status data) now later cb).response =
      { status := status, body := data } := by
  rw [proxyRequest_of_call registry s req _ now later cb service hcheck hreg]
  by_cases hs : status < 500
  · rw [axios_of_answer_lt s service req status data hs]
  · obtain ⟨code, message, hax, h1, h2⟩ :=
      axios_of_answer_ge s service req status data (not_lt.mp hs)
    rw [hax]
    exact errorResponse_of_response s code message _ h1 h2

theorem proxyRequest_forwards_answer_witness :
    (proxyRequest exampleRegistry "list-service" exampleRequest
        (.answered 502 (.obj [("success", .bool false), ("message", .str "bad gateway")]))
        1000 1010 []).response =
      { status := 502
        body := .obj [("success", .bool false), ("message", .str "bad gateway")] } :=
  proxyRequest_forwards_answer exampleRegistry "list-service"
    { url := "http://localhost:3002" } exampleRequest 502
    (.obj [("success", .bool false), ("message", .str "bad gateway")]) 1000 1010 []
    (by decide) rfl

/-- Claim C12, as stated, fails. A fault raised by the call to the registered
list-service that is neither a transport failure nor a backend response (an
error without code and without response) is answered with the generic 500, but
the breaker map does not stay as it was: a failure is recorded for
list-service, and three such faults open its circuit. -/
theorem internal_fault_is_recorded :
    (proxyRequest exampleRegistry "list-service" exampleRequest
        (.failed none "Invalid URL") 1000 1005 []).response.status = 500 ∧
      (proxyRequest exampleRegistry "list-service" exampleRequest
        (.failed none "Invalid URL") 1000 1005 []).circuitBreakers =
        [("list-service", { failures := 1, isOpen := false, isHalfOpen := false,
                            lastFailure := some 1005 })] ∧
      proxyAll exampleRegistry "list-service" []
          [{ req := exampleRequest, outcome := .failed none "Invalid URL",
             now := 1000, later := 1005 },
           { req := exampleRequest, outcome := .failed none "Invalid URL",
             now := 2000, later := 2005 },
           { req := exampleRequest, outcome := .failed none "Invalid URL",
             now := 3000, later := 3005 }] =
        [("list-service", { failures := 3, isOpen := true, isHalfOpen := false,
                            lastFailure := some 3005 })] := by
  decide

/-- Claim C12, amended. For every fault raised by a call that `proxyRequest`
issues and that carries no backend response and a code other than
`ECONNREFUSED` and `ETIMEDOUT` (no code included), the gateway responds with the
generic 500 (`success = false`, `service = "api-gateway"`, the message of the
error) and records a failure for the service: the breaker map afterwards is
the one after `recordFailure`. -/
theorem proxyRequest_of_internal_fault (registry : ServiceRegistry) (s : String)
    (service : Service) (req : Request) (code : Option String) (message : String)
    (now later : Int) (cb : CircuitBreakers)
    (hcheck : (isCircuitOpen s now cb).1 = false)
    (hreg : registry.discover s = .ok service)
    (h1 : code ≠ some "ECONNREFUSED") (h2 : code ≠ some "ETIMEDOUT") :
    (proxyRequest registry s req (.failed code message) now later cb).response =
        { status := 500
          body := .obj
            [("success", .bool false),
             ("message", .str "Erro interno do gateway"),
             ("service", .str "api-gateway"),
             ("error", .str message)] } ∧
      (proxyRequest registry s req (.failed code message) now later cb).circuitBreakers =
        recordFailure s later (isCircuitOpen s now cb).2 ∧
      (proxyRequest registry s req (.failed code message) now later cb).effects =
        [.isCircuitOpen s, .discover s, .axios (buildConfig s service req),
         .recordFailure s] := by
  rw [proxyRequest_of_call registry s req _ now later cb service hcheck hreg, axios_of_failed]
  exact ⟨errorResponse_of_fault s code message h1 h2, rfl, rfl⟩

theorem proxyRequest_of_internal_fault_witness :
    (proxyRequest exampleRegistry "list-service" exampleRequest
        (.failed none "Invalid URL") 1000 1005 []).response =
        { status := 500
          body := .obj
            [("success", .bool false),
             ("message", .str "Erro interno do gateway"),
             ("service", .str "api-gateway"),
             ("error", .str "Invalid URL")] } ∧
      (proxyRequest exampleRegistry "list-service" exampleRequest
        (.failed none "Invalid URL") 1000 1005 []).circuitBreakers =
        recordFailure "list-service" 1005 (isCircuitOpen "list-service" 1000 []).2 ∧
      (proxyRequest exampleRegistry "list-service" exampleRequest
        (.failed none "Invalid URL") 1000 1005 []).effects =
        [.isCircuitOpen "list-service", .discover "list-service",
         .axios (buildConfig "list-service" { url := "http://localhost:3002" } exampleRequest),
         .recordFailure "list-service"] :=
  proxyRequest_of_internal_fault exampleRegistry "list-service"
    { url := "http://localhost:3002" } exampleRequest none "Invalid URL" 1000 1005 []
    (by decide) rfl (by decide) (by decide)

/-! ## The aggregator: claims -/

theorem dashboardEntry_of_rejectedOrObject (r : Settled)
    (h : r.isRejectedOrObject = true) : dashboardEntry r = .ok (compositeEntry r) := by
  cases r with
  | rejected reason => simp [dashboardEntry, compositeEntry, jsonObject]
  | fulfilled value =>
    cases value with
    | obj fields =>
      cases hf : fields.find? (fun f => f.1 = "data") with
      | none => simp [dashboardEntry, compositeEntry, jsonObject, property, hf]
      | some f => simp [dashboardEntry, compositeEntry, jsonObject, property, hf]
    | null => simp [Settled.isRejectedOrObject] at h
    | bool b => simp [Settled.isRejectedOrObject] at h
    | num n => simp [Settled.isRejectedOrObject] at h
    | str t => simp [Settled.isRejectedOrObject] at h
    | arr items => simp [Settled.isRejectedOrObject] at h

/-- Claim C19. For every combination of settled outcomes of the four sub-calls,
each rejected with an error or fulfilled with an object body, the part of
`getDashboard` after `Promise.allSettled` responds with `success = true` and a
`data.data` object with exactly the keys `users`, `items`, `categories`,
`lists`, each entry being the composite entry of its own sub-call only
(`available = false`, `data = null`, the error message when rejected;
`available = true`, the `data` field of the body, `error = null` when
fulfilled). With an Authorization header, `getDashboard` responds with that
part applied to the settled results of its four `callService` sub-calls. -/
theorem getDashboard_composite :
    (∀ (timestamp : String) (servicesStatus : List (String × Json))
        (u i c l : Settled),
        u.isRejectedOrObject = true → i.isRejectedOrObject = true →
        c.isRejectedOrObject = true → l.isRejectedOrObject = true →
        dashboardResponse timestamp servicesStatus u i c l =
          { status := 200
            body := .obj
              [("success", .bool true),
               ("data", .obj
                 [("timestamp", .str timestamp),
                  ("architecture", .str "Microservices with NoSQL"),
                  ("database_approach", .str "Database per Service"),
                  ("services_status", .obj servicesStatus),
                  ("data", .obj
                    [("users", compositeEntry u), ("items", compositeEntry i),
                     ("categories", compositeEntry c), ("lists", compositeEntry l)])])] }) ∧
    (∀ (registry : ServiceRegistry) (authHeader : Option String) (timestamp : String)
        (users items categories lists : NetOutcome) (cb : CircuitBreakers),
        truthy authHeader = true →
        (getDashboard registry authHeader timestamp users items categories lists cb).response =
          dashboardResponse timestamp registry.listServices
            (callService registry "user-service" "/users" "GET" authHeader
              [("limit", .num 5)] users cb).settled
            (callService registry "item-service" "/items" "GET" none
              [("limit", .num 10)] items cb).settled
            (callService registry "item-service" "/categories" "GET" none
              [] categories cb).settled
            (callService registry "list-service" "/lists" "GET" authHeader
              [("limit", .num 5)] lists cb).settled) := by
  constructor
  · intro timestamp servicesStatus u i c l hu hi hc hl
    simp only [dashboardResponse, dashboardEntry_of_rejectedOrObject u hu,
      dashboardEntry_of_rejectedOrObject i hi, dashboardEntry_of_rejectedOrObject c hc,
      dashboardEntry_of_rejectedOrObject l hl]
    rfl
  · intro registry authHeader timestamp users items categories lists cb hauth
    have hcb : ∀ (s path : String) (auth : Option String) (params : List (String × Json))
        (o : NetOutcome) (cb' : CircuitBreakers),
        (callService registry s path "GET" auth params o cb').circuitBreakers = cb' := by
      intro s path auth params o cb'
      unfold callService
      cases registry.discover s with
      | error e => rfl
      | ok service =>
        simp only
        cases axiosDefault o <;> rfl
    simp only [getDashboard, hauth, Bool.not_true, Bool.false_eq_true, if_false, hcb]

theorem getDashboard_composite_witness :
    dashboardResponse "2025-01-01T00:00:00.000Z" exampleRegistry.listServices
        (.rejected { code := none, message := "Serviço não encontrado: user-service",
                     response := none })
        (.fulfilled (.obj [("success", .bool true), ("data", .arr [.str "arroz"])]))
        (.fulfilled (.obj [("success", .bool true)]))
        (.rejected { code := some "ECONNREFUSED", message := "connect ECONNREFUSED",
                     response := none }) =
      { status := 200
        body := .obj
          [("success", .bool true),
           ("data", .obj
             [("timestamp", .str "2025-01-01T00:00:00.000Z"),
              ("architecture", .str "Microservices with NoSQL"),
              ("database_approach", .str "Database per Service"),
              ("services_status", .obj exampleRegistry.listServices),
              ("data", .obj
                [("users", .obj [("available", .bool false), ("data", .null),
                                 ("error", .str "Serviço não encontrado: user-service")]),
                 ("items", .obj [("available", .bool true),
                                 ("data", .arr [.str "arroz"]), ("error", .null)]),
                 ("categories", .obj [("available", .bool true), ("error", .null)]),
                 ("lists", .obj [("available", .bool false), ("data", .null),
                                 ("error", .str "connect ECONNREFUSED")])])])] } :=
  getDashboard_composite.1 "2025-01-01T00:00:00.000Z" exampleRegistry.listServices
    (.rejected { code := none, message := "Serviço não encontrado: user-service",
                 response := none })
    (.fulfilled (.obj [("success", .bool true), ("data", .arr [.str "arroz"])]))
    (.fulfilled (.obj [("success", .bool true)]))
    (.rejected { code := some "ECONNREFUSED", message := "connect ECONNREFUSED",
                 response := none })
    rfl rfl rfl rfl

/-- Claim C20, as stated, fails. With the circuit of list-service open (three
failures, the last 990 ms before), `callService` still calls `discover` and
issues the HTTP call; when that call is refused, the breaker map is left as it
was, and from an empty map no failure is recorded for list-service. -/
theorem callService_with_open_circuit :
    isCircuitOpen "list-service" 4000
        [("list-service", { failures := 3, isOpen := true, isHalfOpen := false,
                            lastFailure := some 3010 })] =
      (true, [("list-service", { failures := 3, isOpen := true, isHalfOpen := false,
                                 lastFailure := some 3010 })]) ∧
    (callService exampleRegistry "list-service" "/lists" "GET" (some "Bearer token")
        [("limit", .num 5)] (.failed (some "ECONNREFUSED") "connect ECONNREFUSED")
        [("list-service", { failures := 3, isOpen := true, isHalfOpen := false,
                            lastFailure := some 3010 })]).effects =
      [.discover "list-service",
       .request { method := "GET", url := "http://localhost:3002/lists", timeout := 5000,
                  headers := some [("Authorization", "Bearer token")],
                  params := some [("limit", .num 5)] }] ∧
    (callService exampleRegistry "list-service" "/lists" "GET" (some "Bearer token")
        [("limit", .num 5)] (.failed (some "ECONNREFUSED") "connect ECONNREFUSED")
        []).circuitBreakers = [] := by
  refine ⟨by decide, rfl, rfl⟩

/-- Claim C20, amended. An aggregator sub-call does not go through the breaker
gate: whatever the breaker map (an open circuit included) and whatever the
outcome (a transport failure included), `callService` leaves the breaker map as
it is and makes no breaker call; it calls `discover` and, when the service is
registered, issues the HTTP call to the service URL followed by the path, with
a timeout of 5000 ms. -/
theorem callService_bypasses_breaker (registry : ServiceRegistry)
    (serviceName path method : String) (authHeader : Option String)
    (params : List (String × Json)) (outcome : NetOutcome) (cb : CircuitBreakers) :
    (callService registry serviceName path method authHeader params outcome cb).circuitBreakers =
        cb ∧
      (∀ e ∈ (callService registry serviceName path method authHeader params outcome cb).effects,
        e = .discover serviceName ∨ ∃ config, e = .request config) ∧
      (∀ service, registry.discover serviceName = .ok service →
        ∃ config : CallConfig,
          (callService registry serviceName path method authHeader params outcome cb).effects =
            [.discover serviceName, .request config] ∧
          config.method = method ∧ config.url = service.url ++ path ∧
          config.timeout = 5000) ∧
      (∀ e, registry.discover serviceName = .error e →
        (callService registry serviceName path method authHeader params outcome cb).effects =
          [.discover serviceName]) := by
  unfold callService
  cases hd : registry.discover serviceName with
  | error e =>
    refine ⟨rfl, ?_, ?_, ?_⟩
    · intro e' he'
      simp only [List.mem_singleton] at he'
      exact Or.inl he'
    · intro service h
      cases h
    · intro _ _
      rfl
  | ok service =>
    simp only
    cases axiosDefault outcome with
    | ok response =>
      refine ⟨rfl, ?_, ?_, ?_⟩
      · intro e' he'
        simp only [List.mem_cons, List.mem_singleton, List.not_mem_nil, or_false] at he'
        rcases he' with h | h
        · exact Or.inl h
        · exact Or.inr ⟨_, h⟩
      · intro service' h
        cases h
        exact ⟨_, rfl, rfl, rfl, rfl⟩
      · intro e h
        cases h
    | error err =>
      refine ⟨rfl, ?_, ?_, ?_⟩
      · intro e' he'
        simp only [List.mem_cons, List.mem_singleton, List.not_mem_nil, or_false] at he'
        rcases he' with h | h
        · exact Or.inl h
        · exact Or.inr ⟨_, h⟩
      · intro service' h
        cases h
        exact ⟨_, rfl, rfl, rfl, rfl⟩
      · intro e h
        cases h

theorem callService_bypasses_breaker_witness :
    (callService exampleRegistry "list-service" "/lists" "GET" (some "Bearer token")
        [("limit", .num 5)] (.failed (some "ETIMEDOUT") "connect ETIMEDOUT")
        [("list-service", { failures := 3, isOpen := true, isHalfOpen := false,
                            lastFailure := some 3010 })]).circuitBreakers =
      [("list-service", { failures := 3, isOpen := true, isHalfOpen := false,
                          lastFailure := some 3010 })] :=
  (callService_bypasses_breaker exampleRegistry "list-service" "/lists" "GET"
    (some "Bearer token") [("limit", .num 5)] (.failed (some "ETIMEDOUT") "connect ETIMEDOUT")
    [("list-service", { failures := 3, isOpen := true, isHalfOpen := false,
                        lastFailure := some 3010 })]).1

/-! ## Independence of the entries and the failure count: claims -/

theorem counts_step (s : String) (cb : CircuitBreakers) (k : Nat) (c : Call)
    (h : Counts cb s k) (hc : c.isCheckOf s = false) :
    Counts (step cb c) s (streakFrom s k [c]) := by
  cases c with
  | isCircuitOpen s' now =>
    have hne : s' ≠ s := by simpa [Call.isCheckOf] using hc
    have hg := mapGet_isCircuitOpen_of_ne s' s now cb hne
    simp only [Counts, step, hg, streakFrom, List.foldl, Call.isResetOf, Call.isFailureOf]
    simpa [Counts] using h
  | recordFailure s' now =>
    by_cases hs : s' = s
    · subst hs
      have hk : streakFrom s' k [.recordFailure s' now] = k + 1 := by
        simp [streakFrom, Call.isResetOf, Call.isFailureOf]
      rw [hk]
      cases hg : mapGet cb s' with
      | none =>
        have hk0 : k = 0 := by simpa [Counts, hg] using h
        subst hk0
        simp [Counts, step, mapGet_recordFailure_of_absent s' now cb hg]
      | some b =>
        have hb : b.failures = k ∧ (b.isOpen = true ↔ 3 ≤ k) := by
          simpa [Counts, hg] using h
        by_cases hf : 3 ≤ b.failures + 1
        · simp only [Counts, step, mapGet_recordFailure_of_ge s' now cb b hg hf]
          exact ⟨by omega, by simp; omega⟩
        · have hlt : b.failures + 1 < 3 := not_le.mp hf
          simp only [Counts, step, mapGet_recordFailure_of_lt s' now cb b hg hlt]
          refine ⟨by omega, ?_⟩
          constructor
          · intro ho
            have := hb.2.mp ho
            omega
          · intro h3
            omega
    · have hg := mapGet_recordFailure_of_ne s' s now cb hs
      have hk : streakFrom s k [.recordFailure s' now] = k := by
        simp [streakFrom, Call.isResetOf, Call.isFailureOf, hs]
      rw [hk]
      simp only [Counts, step, hg]
      simpa [Counts] using h
  | resetCircuitBreaker s' =>
    by_cases hs : s' = s
    · subst hs
      have hk : streakFrom s' k [.resetCircuitBreaker s'] = 0 := by
        simp [streakFrom, Call.isResetOf]
      rw [hk]
      cases hg : mapGet cb s' with
      | none => simp [Counts, step, mapGet_resetCircuitBreaker_of_absent s' cb hg]
      | some b => simp [Counts, step, mapGet_resetCircuitBreaker_self s' cb b hg]
    · have hg := mapGet_resetCircuitBreaker_of_ne s' s cb hs
      have hk : streakFrom s k [.resetCircuitBreaker s'] = k := by
        simp [streakFrom, Call.isResetOf, Call.isFailureOf, hs]
      rw [hk]
      simp only [Counts, step, hg]
      simpa [Counts] using h

theorem streakFrom_cons (s : String) (k : Nat) (c : Call) (cs : List Call) :
    streakFrom s k (c :: cs) = streakFrom s (streakFrom s k [c]) cs := by
  simp [streakFrom]

theorem counts_run (s : String) (calls : List Call) :
    ∀ (cb : CircuitBreakers) (k : Nat), Counts cb s k →
      (∀ c ∈ calls, c.isCheckOf s = false) →
      Counts (run cb calls) s (streakFrom s k calls) := by
  induction calls with
  | nil => intro cb k h _; simpa [run, streakFrom] using h
  | cons c cs ih =>
    intro cb k h hall
    rw [run_cons, streakFrom_cons]
    exact ih _ _ (counts_step s cb k c h (hall c (List.mem_cons_self _ _)))
      (fun c' hc' => hall c' (List.mem_cons_of_mem _ hc'))

/-- Claim C28. For distinct service names `s` and `other`, each of
`isCircuitOpen(s)`, `recordFailure(s)` and `resetCircuitBreaker(s)`, at any
time, leaves the entry of `other` as it was: present or absent as before, with
the same `failures`, `isOpen`, `isHalfOpen` and `lastFailure`. -/
theorem breaker_entries_independent (s other : String) (now : Int) (cb : CircuitBreakers)
    (hne : s ≠ other) :
    mapGet (isCircuitOpen s now cb).2 other = mapGet cb other ∧
      mapGet (recordFailure s now cb) other = mapGet cb other ∧
      mapGet (resetCircuitBreaker s cb) other = mapGet cb other :=
  ⟨mapGet_isCircuitOpen_of_ne s other now cb hne,
   mapGet_recordFailure_of_ne s other now cb hne,
   mapGet_resetCircuitBreaker_of_ne s other cb hne⟩

theorem breaker_entries_independent_witness :
    mapGet (isCircuitOpen "list-service" 40000
        [("list-service", { failures := 3, isOpen := true, isHalfOpen := false,
                            lastFailure := some 1000 }),
         ("item-service", { failures := 2, isOpen := false, isHalfOpen := false,
                            lastFailure := some 900 })]).2 "item-service" =
        mapGet [("list-service", { failures := 3, isOpen := true, isHalfOpen := false,
                                   lastFailure := some 1000 }),
                ("item-service", { failures := 2, isOpen := false, isHalfOpen := false,
                                   lastFailure := some 900 })] "item-service" ∧
      mapGet (recordFailure "list-service" 40000
        [("list-service", { failures := 3, isOpen := true, isHalfOpen := false,
                            lastFailure := some 1000 }),
         ("item-service", { failures := 2, isOpen := false, isHalfOpen := false,
                            lastFailure := some 900 })]) "item-service" =
        mapGet [("list-service", { failures := 3, isOpen := true, isHalfOpen := false,
                                   lastFailure := some 1000 }),
                ("item-service", { failures := 2, isOpen := false, isHalfOpen := false,
                                   lastFailure := some 900 })] "item-service" ∧
      mapGet (resetCircuitBreaker "list-service"
        [("list-service", { failures := 3, isOpen := true, isHalfOpen := false,
                            lastFailure := some 1000 }),
         ("item-service", { failures := 2, isOpen := false, isHalfOpen := false,
                            lastFailure := some 900 })]) "item-service" =
        mapGet [("list-service", { failures := 3, isOpen := true, isHalfOpen := false,
                                   lastFailure := some 1000 }),
                ("item-service", { failures := 2, isOpen := false, isHalfOpen := false,
                                   lastFailure := some 900 })] "item-service" :=
  breaker_entries_independent "list-service" "item-service" 40000
    [("list-service", { failures := 3, isOpen := true, isHalfOpen := false,
                        lastFailure := some 1000 }),
     ("item-service", { failures := 2, isOpen := false, isHalfOpen := false,
                        lastFailure := some 900 })] (by decide)

/-- Claim C29. From a map with no entry for the service, after any sequence of
calls that holds no `isCircuitOpen` for it (its `recordFailure` and
`resetCircuitBreaker` calls in any order, calls for other services in between),
the entry counts as `failures` the number of its `recordFailure` calls after
its last `resetCircuitBreaker`, and is open if and only if that number is at
least 3; with no entry that number is 0. -/
theorem failures_equal_streak (s : String) (cb : CircuitBreakers) (calls : List Call)
    (hfresh : mapGet cb s = none)
    (hcalls : ∀ c ∈ calls, c.isCheckOf s = false) :
    match mapGet (run cb calls) s with
    | none => streak s calls = 0
    | some b => b.failures = streak s calls ∧ (b.isOpen = true ↔ 3 ≤ streak s calls) := by
  have h0 : Counts cb s 0 := by simp [Counts, hfresh]
  exact counts_run s calls cb 0 h0 hcalls

theorem failures_equal_streak_witness :
    match mapGet (run []
        [.recordFailure "list-service" 1, .recordFailure "list-service" 2,
         .resetCircuitBreaker "list-service", .recordFailure "item-service" 3,
         .recordFailure "list-service" 4, .recordFailure "list-service" 5])
        "list-service" with
    | none => streak "list-service"
        [.recordFailure "list-service" 1, .recordFailure "list-service" 2,
         .resetCircuitBreaker "list-service", .recordFailure "item-service" 3,
         .recordFailure "list-service" 4, .recordFailure "list-service" 5] = 0
    | some b => b.failures = streak "list-service"
        [.recordFailure "list-service" 1, .recordFailure "list-service" 2,
         .resetCircuitBreaker "list-service", .recordFailure "item-service" 3,
         .recordFailure "list-service" 4, .recordFailure "list-service" 5] ∧
        (b.isOpen = true ↔ 3 ≤ streak "list-service"
          [.recordFailure "list-service" 1, .recordFailure "list-service" 2,
           .resetCircuitBreaker "list-service", .recordFailure "item-service" 3,
           .recordFailure "list-service" 4, .recordFailure "list-service" 5]) :=
  failures_equal_streak "list-service" []
    [.recordFailure "list-service" 1, .recordFailure "list-service" 2,
     .resetCircuitBreaker "list-service", .recordFailure "item-service" 3,
     .recordFailure "list-service" 4, .recordFailure "list-service" 5]
    rfl (by decide)

/-! ## Forwarded headers and query parameters: claims -/

theorem mem_deleteKey (headers : List (String × String)) (name : String)
    (h : String × String) : h ∈ deleteKey headers name ↔ h ∈ headers ∧ h.1 ≠ name := by
  simp [deleteKey]

/-- Claim C27. For every inbound header list, the headers of the request that
`proxyRequest` builds are the inbound headers, in order, without the keys
`host` and `content-length`: a header is forwarded if and only if it is an
inbound header with another key, with the same value (so `authorization` is
forwarded unchanged), and nothing is added. When the call is issued, the
request with these headers is the one handed to axios. -/
theorem forwarded_headers_exact (s : String) (service : Service) (req : Request) :
    (buildConfig s service req).headers =
        req.headers.filter (fun h => decide (h.1 ≠ "host") && decide (h.1 ≠ "content-length")) ∧
      (∀ k v : String, (k, v) ∈ (buildConfig s service req).headers ↔
        ((k, v) ∈ req.headers ∧ k ≠ "host" ∧ k ≠ "content-length")) ∧
      (∀ (registry : ServiceRegistry) (outcome : NetOutcome) (now later : Int)
          (cb : CircuitBreakers),
        (isCircuitOpen s now cb).1 = false → registry.discover s = .ok service →
        Effect.axios (buildConfig s service req) ∈
          (proxyRequest registry s req outcome now later cb).effects) := by
  refine ⟨?_, ?_, ?_⟩
  · simp [buildConfig, deleteKey, List.filter_filter, Bool.and_comm]
  · intro k v
    simp only [buildConfig, mem_deleteKey]
    tauto
  · intro registry outcome now later cb hc hreg
    rw [proxyRequest_of_call registry s req outcome now later cb service hc hreg]
    cases axios (buildConfig s service req) outcome <;> simp

theorem forwarded_headers_exact_witness :
    (buildConfig "list-service" { url := "http://localhost:3002" } exampleRequest).headers =
        [("authorization", "Bearer token")] ∧
      Effect.axios (buildConfig "list-service" { url := "http://localhost:3002" } exampleRequest) ∈
        (proxyRequest exampleRegistry "list-service" exampleRequest
          (.answered 200 .null) 1000 1010 []).effects :=
  ⟨by decide,
   (forwarded_headers_exact "list-service" { url := "http://localhost:3002" }
      exampleRequest).2.2 exampleRegistry (.answered 200 .null) 1000 1010 []
      (by decide) rfl⟩

/-- Claim C26, the failing input. For `GET /api/lists?status=active` the
request built for list-service keeps the query string in its URL
(`/lists?status=active`) and also carries `status` in `params`, which axios
appends to the URL: the parameter reaches the backend twice. For
`/api/items/search?q=arroz` and `/api/items/categories?x=1` the URL is the
fixed path and the parameter is carried once, in `params`. -/
theorem query_string_kept_in_url :
    (buildConfig "list-service" { url := "http://localhost:3002" }
        { method := "GET", originalUrl := "/api/lists?status=active", headers := [],
          body := .null, query := [("status", .str "active")] }).url =
        "http://localhost:3002/lists?status=active" ∧
      (buildConfig "list-service" { url := "http://localhost:3002" }
        { method := "GET", originalUrl := "/api/lists?status=active", headers := [],
          body := .null, query := [("status", .str "active")] }).params =
        some [("status", .str "active")] ∧
      (buildConfig "item-service" { url := "http://localhost:3003" }
        { method := "GET", originalUrl := "/api/items/search?q=arroz", headers := [],
          body := .null, query := [("q", .str "arroz")] }).url =
        "http://localhost:3003/search" ∧
      (buildConfig "item-service" { url := "http://localhost:3003" }
        { method := "GET", originalUrl := "/api/items/search?q=arroz", headers := [],
          body := .null, query := [("q", .str "arroz")] }).params =
        some [("q", .str "arroz")] ∧
      (buildConfig "item-service" { url := "http://localhost:3003" }
        { method := "GET", originalUrl := "/api/items/categories?x=1", headers := [],
          body := .null, query := [("x", .str "1")] }).url =
        "http://localhost:3003/categories" := by
  refine ⟨by decide, rfl, by decide, rfl, by decide⟩

/-! ## The aggregator: sub-calls -/

theorem callService_circuitBreakers (registry : ServiceRegistry)
    (s path method : String) (authHeader : Option String) (params : List (String × Json))
    (outcome : NetOutcome) (cb : CircuitBreakers) :
    (callService registry s path method authHeader params outcome cb).circuitBreakers = cb := by
  unfold callService
  cases registry.discover s with
  | error e => rfl
  | ok service =>
    simp only
    cases axiosDefault outcome <;> rfl

theorem callService_effects_of_registered (registry : ServiceRegistry)
    (s path method : String) (authHeader : Option String) (params : List (String × Json))
    (outcome : NetOutcome) (cb : CircuitBreakers) (service : Service)
    (hreg : registry.discover s = .ok service) :
    (callService registry s path method authHeader params outcome cb).effects =
      [.discover s,
       .request
         { method := method
           url := service.url ++ path
           timeout := 5000
           headers :=
             match authHeader with
             | some h => if truthy authHeader then some [("Authorization", h)] else none
             | none => none
           params :=
             if method = "GET" && decide ((objectKeys params).length > 0) then some params
             else none }] := by
  unfold callService
  simp only [hreg]
  cases axiosDefault outcome <;> rfl

theorem callService_settled_of_registered (registry : ServiceRegistry)
    (s path method : String) (authHeader : Option String) (params : List (String × Json))
    (outcome : NetOutcome) (cb : CircuitBreakers) (service : Service)
    (hreg : registry.discover s = .ok service) :
    (callService registry s path method authHeader params outcome cb).settled =
      match axiosDefault outcome with
      | .ok response => .fulfilled response.data
      | .error error => .rejected error := by
  unfold callService
  simp only [hreg]
  cases axiosDefault outcome <;> rfl

theorem axiosDefault_of_success (status : Nat) (data : Json)
    (h1 : 200 ≤ status) (h2 : status < 300) :
    axiosDefault (.answered status data) = .ok { status := status, data := data } := by
  simp [axiosDefault, h1, h2]

theorem axiosDefault_of_other (status : Nat) (data : Json)
    (h : ¬ (200 ≤ status ∧ status < 300)) :
    ∃ code, axiosDefault (.answered status data) =
      .error { code := code
               message := "Request failed with status code " ++ toString status
               response := some { status := status, data := data } } := by
  have h' : (decide (200 ≤ status) && decide (status < 300)) = false := by
    simpa [Bool.and_eq_false_iff, not_and_or] using h
  exact ⟨if status / 100 = 4 then some "ERR_BAD_REQUEST"
      else if status / 100 = 5 then some "ERR_BAD_RESPONSE" else none,
    by simp only [axiosDefault, h']; rfl⟩

/-- Claim C22. Without an Authorization header (absent or empty)
`getDashboard` responds 401 with `success = false`, issues no sub-call and
leaves the breaker map as it was. With the header it starts exactly the four
sub-calls user-service `/users`, item-service `/items`, item-service
`/categories` and list-service `/lists`, in this order, followed by
`listServices`; when the three services are registered, the four HTTP
requests carry the Authorization value for `/users` and `/lists` only. -/
theorem getDashboard_subcalls (registry : ServiceRegistry) (timestamp : String)
    (users items categories lists : NetOutcome) (cb : CircuitBreakers) :
    (∀ authHeader : Option String, truthy authHeader = false →
        getDashboard registry authHeader timestamp users items categories lists cb =
          { response :=
              { status := 401
                body := .obj
                  [("success", .bool false),
                   ("message", .str "Token de autenticação obrigatório")] }
            circuitBreakers := cb
            effects := [] }) ∧
      (∀ h : String, h ≠ "" →
        (getDashboard registry (some h) timestamp users items categories lists cb).effects =
          (callService registry "user-service" "/users" "GET" (some h)
              [("limit", .num 5)] users cb).effects ++
            (callService registry "item-service" "/items" "GET" none
              [("limit", .num 10)] items cb).effects ++
            (callService registry "item-service" "/categories" "GET" none
              [] categories cb).effects ++
            (callService registry "list-service" "/lists" "GET" (some h)
              [("limit", .num 5)] lists cb).effects ++ [.listServices]) ∧
      (∀ (h : String) (su si sl : Service), h ≠ "" →
        registry.discover "user-service" = .ok su →
        registry.discover "item-service" = .ok si →
        registry.discover "list-service" = .ok sl →
        (getDashboard registry (some h) timestamp users items categories lists cb).effects =
          [.discover "user-service",
           .request { method := "GET", url := su.url ++ "/users", timeout := 5000,
                      headers := some [("Authorization", h)],
                      params := some [("limit", .num 5)] },
           .discover "item-service",
           .request { method := "GET", url := si.url ++ "/items", timeout := 5000,
                      headers := none, params := some [("limit", .num 10)] },
           .discover "item-service",
           .request { method := "GET", url := si.url ++ "/categories", timeout := 5000,
                      headers := none, params := none },
           .discover "list-service",
           .request { method := "GET", url := sl.url ++ "/lists", timeout := 5000,
                      headers := some [("Authorization", h)],
                      params := some [("limit", .num 5)] },
           .listServices]) := by
  have hdecomp : ∀ h : String, h ≠ "" →
      (getDashboard registry (some h) timestamp users items categories lists cb).effects =
        (callService registry "user-service" "/users" "GET" (some h)
            [("limit", .num 5)] users cb).effects ++
          (callService registry "item-service" "/items" "GET" none
            [("limit", .num 10)] items cb).effects ++
          (callService registry "item-service" "/categories" "GET" none
            [] categories cb).effects ++
          (callService registry "list-service" "/lists" "GET" (some h)
            [("limit", .num 5)] lists cb).effects ++ [.listServices] := by
    intro h hh
    have ht : truthy (some h) = true := by simp [truthy, hh]
    simp only [getDashboard, ht, Bool.not_true, Bool.false_eq_true, if_false,
      callService_circuitBreakers]
  refine ⟨?_, hdecomp, ?_⟩
  · intro authHeader ha
    simp [getDashboard, ha]
  · intro h su si sl hh hu hi hl
    have ht : truthy (some h) = true := by simp [truthy, hh]
    rw [hdecomp h hh,
      callService_effects_of_registered registry "user-service" "/users" "GET" (some h) _
        users cb su hu,
      callService_effects_of_registered registry "item-service" "/items" "GET" none _
        items cb si hi,
      callService_effects_of_registered registry "item-service" "/categories" "GET" none _
        categories cb si hi,
      callService_effects_of_registered registry "list-service" "/lists" "GET" (some h) _
        lists cb sl hl]
    simp [ht, objectKeys]

theorem getDashboard_subcalls_witness :
    getDashboard exampleRegistry none "2025-01-01T00:00:00.000Z"
        (.answered 200 .null) (.answered 200 .null) (.answered 200 .null)
        (.answered 200 .null)
        [("list-service", { failures := 1, isOpen := false, isHalfOpen := false,
                            lastFailure := some 3010 })] =
      { response :=
          { status := 401
            body := .obj
              [("success", .bool false),
               ("message", .str "Token de autenticação obrigatório")] }
        circuitBreakers :=
          [("list-service", { failures := 1, isOpen := false, isHalfOpen := false,
                              lastFailure := some 3010 })]
        effects := [] } :=
  (getDashboard_subcalls exampleRegistry "2025-01-01T00:00:00.000Z"
    (.answered 200 .null) (.answered 200 .null) (.answered 200 .null) (.answered 200 .null)
    [("list-service", { failures := 1, isOpen := false, isHalfOpen := false,
                        lastFailure := some 3010 })]).1 none rfl

/-- Claim C21, as stated, fails. The registered item-service is reached and
answers the `/items` sub-call with status 404 and a well-formed body carrying
`data`; the sub-call is rejected and its dashboard entry has
`available = false`, `data = null` and the axios message as `error`. -/
theorem subcall_error_status_unavailable :
    (callService exampleRegistry "item-service" "/items" "GET" none [("limit", .num 10)]
        (.answered 404 (.obj [("success", .bool false), ("data", .arr [])])) []).effects =
      [.discover "item-service",
       .request { method := "GET", url := "http://localhost:3003/items", timeout := 5000,
                  headers := none, params := some [("limit", .num 10)] }] ∧
    dashboardEntry
        (callService exampleRegistry "item-service" "/items" "GET" none [("limit", .num 10)]
          (.answered 404 (.obj [("success", .bool false), ("data", .arr [])])) []).settled =
      .ok (.obj [("available", .bool false), ("data", .null),
                 ("error", .str "Request failed with status code 404")]) := by
  refine ⟨rfl, rfl⟩

/-- Claim C21, amended. For every aggregator sub-call to a registered service
that the backend answers with a status outside 200-299 (every status of 400
and above included), whatever the body, the sub-call is rejected: its dashboard
entry has `available = false`, `data = null` and its search entry
`available = false`, `results = []`, `total = 0`, both with the error
`Request failed with status code` followed by the status. An answer with a
status in 200-299 fulfils the sub-call with the body. -/
theorem subcall_available_only_on_success (registry : ServiceRegistry)
    (s path : String) (authHeader : Option String) (params : List (String × Json))
    (cb : CircuitBreakers) (service : Service) (status : Nat) (data : Json)
    (hreg : registry.discover s = .ok service) :
    (¬ (200 ≤ status ∧ status < 300) →
        dashboardEntry
            (callService registry s path "GET" authHeader params
              (.answered status data) cb).settled =
          .ok (.obj [("available", .bool false), ("data", .null),
                     ("error", .str ("Request failed with status code " ++ toString status))]) ∧
        searchEntry
            (callService registry s path "GET" authHeader params
              (.answered status data) cb).settled =
          .ok (.obj [("available", .bool false), ("results", .arr []), ("total", .num 0),
                     ("error", .str ("Request failed with status code " ++ toString status))])) ∧
      (200 ≤ status → status < 300 →
        (callService registry s path "GET" authHeader params
          (.answered status data) cb).settled = .fulfilled data) := by
  constructor
  · intro h
    obtain ⟨code, hax⟩ := axiosDefault_of_other status data h
    rw [callService_settled_of_registered registry s path "GET" authHeader params _ cb
      service hreg, hax]
    exact ⟨rfl, rfl⟩
  · intro h1 h2
    rw [callService_settled_of_registered registry s path "GET" authHeader params _ cb
      service hreg, axiosDefault_of_success status data h1 h2]

theorem subcall_available_only_on_success_witness :
    (dashboardEntry
          (callService exampleRegistry "list-service" "/lists" "GET" (some "Bearer token")
            [("limit", .num 5)] (.answered 401 (.obj [("success", .bool false)])) []).settled =
        .ok (.obj [("available", .bool false), ("data", .null),
                   ("error", .str ("Request failed with status code " ++ toString 401))]) ∧
      searchEntry
          (callService exampleRegistry "list-service" "/lists" "GET" (some "Bearer token")
            [("limit", .num 5)] (.answered 401 (.obj [("success", .bool false)])) []).settled =
        .ok (.obj [("available", .bool false), ("results", .arr []), ("total", .num 0),
                   ("error", .str ("Request failed with status code " ++ toString 401))])) ∧
    (callService exampleRegistry "list-service" "/lists" "GET" (some "Bearer token")
        [("limit", .num 5)] (.answered 200 (.obj [("success", .bool true)])) []).settled =
      .fulfilled (.obj [("success", .bool true)]) :=
  ⟨(subcall_available_only_on_success exampleRegistry "list-service" "/lists"
      (some "Bearer token") [("limit", .num 5)] [] { url := "http://localhost:3002" } 401
      (.obj [("success", .bool false)]) rfl).1 (by decide),
   (subcall_available_only_on_success exampleRegistry "list-service" "/lists"
      (some "Bearer token") [("limit", .num 5)] [] { url := "http://localhost:3002" } 200
      (.obj [("success", .bool true)]) rfl).2 (by decide) (by decide)⟩

/-! ## The global search: claims -/

theorem property_ok_of_ne_null (d : Json) (key : String) (h : d ≠ .null) :
    ∃ x, property d key = .ok x := by
  cases d with
  | null => exact absurd rfl h
  | bool b => exact ⟨_, rfl⟩
  | num n => exact ⟨_, rfl⟩
  | str t => exact ⟨_, rfl⟩
  | arr items => exact ⟨_, rfl⟩
  | obj fields => exact ⟨_, rfl⟩

theorem searchEntry_of_data (fields : List (String × Json)) (f : String × Json)
    (hf : fields.find? (fun f => f.1 = "data") = some f) (hd : f.2 ≠ .null) :
    ∃ e, searchEntry (.fulfilled (.obj fields)) = .ok e := by
  obtain ⟨r, hr⟩ := property_ok_of_ne_null f.2 "results" hd
  obtain ⟨t, ht⟩ := property_ok_of_ne_null f.2 "total" hd
  have h1 : property (.obj fields) "data" = .ok (some f.2) := by
    simp [property, hf]
  refine ⟨jsonObject [("available", some (.bool true)), ("results", r), ("total", t),
    ("error", some .null)], ?_⟩
  simp only [searchEntry, h1, propertyOfData, hr, ht]

theorem searchEntry_of_hasData (r : Settled) (h : r.hasData = true) :
    ∃ e, searchEntry r = .ok e := by
  cases r with
  | rejected reason => exact ⟨_, rfl⟩
  | fulfilled value =>
    cases value with
    | obj fields =>
      cases hf : fields.find? (fun f => f.1 = "data") with
      | none => simp [Settled.hasData, hf] at h
      | some f =>
        obtain ⟨k, d⟩ := f
        have hd : d ≠ .null := by
          intro e
          subst e
          simp [Settled.hasData, hf] at h
        exact searchEntry_of_data fields (k, d) hf hd
    | null => simp [Settled.hasData] at h
    | bool b => simp [Settled.hasData] at h
    | num n => simp [Settled.hasData] at h
    | str t => simp [Settled.hasData] at h
    | arr items => simp [Settled.hasData] at h

theorem searchEntry_of_missing_data (fields : List (String × Json))
    (hf : fields.find? (fun f => f.1 = "data") = none) :
    ∃ e, searchEntry (.fulfilled (.obj fields)) = .error e := by
  have h1 : property (.obj fields) "data" = .ok none := by
    simp [property, hf]
  refine ⟨{ code := none
            message := "Cannot read properties of undefined (reading 'results')"
            response := none }, ?_⟩
  simp only [searchEntry, h1, propertyOfData]
  rfl

theorem searchEntry_of_null_data (fields : List (String × Json)) (k : String)
    (hf : fields.find? (fun f => f.1 = "data") = some (k, .null)) :
    ∃ e, searchEntry (.fulfilled (.obj fields)) = .error e := by
  have h1 : property (.obj fields) "data" = .ok (some .null) := by
    simp [property, hf]
  refine ⟨{ code := none
            message := "Cannot read properties of null (reading 'results')"
            response := none }, ?_⟩
  simp only [searchEntry, h1, propertyOfData]
  rfl

theorem searchEntry_of_not_hasData (r : Settled) (h : r.hasData = false) :
    ∃ e, searchEntry r = .error e := by
  cases r with
  | rejected reason => simp [Settled.hasData] at h
  | fulfilled value =>
    cases value with
    | obj fields =>
      cases hf : fields.find? (fun f => f.1 = "data") with
      | none => exact searchEntry_of_missing_data fields hf
      | some f =>
        obtain ⟨k, d⟩ := f
        cases d with
        | null => exact searchEntry_of_null_data fields k hf
        | bool b => simp [Settled.hasData, hf] at h
        | num n => simp [Settled.hasData, hf] at h
        | str t => simp [Settled.hasData, hf] at h
        | arr items => simp [Settled.hasData, hf] at h
        | obj fs => simp [Settled.hasData, hf] at h
    | null => exact ⟨_, rfl⟩
    | bool b => exact ⟨_, rfl⟩
    | num n => exact ⟨_, rfl⟩
    | str t => exact ⟨_, rfl⟩
    | arr items => exact ⟨_, rfl⟩

theorem hasData_of_malformed (fields : List (String × Json))
    (h : fields.find? (fun f => f.1 = "data") = none ∨
      ∃ k, fields.find? (fun f => f.1 = "data") = some (k, .null)) :
    (Settled.fulfilled (.obj fields)).hasData = false := by
  rcases h with h | ⟨k, h⟩ <;> simp [Settled.hasData, h]

theorem searchResponse_of_item_error (v : Json) (i : Settled) (u : Option Settled)
    (e : JsError) (h : searchEntry i = .error e) :
    searchResponse v i u =
      { status := 500
        body := .obj [("success", .bool false), ("message", .str "Erro na busca")] } := by
  simp only [searchResponse, h]

theorem searchResponse_of_user_error (v : Json) (i r : Settled)
    (e : JsError) (h : searchEntry r = .error e) :
    searchResponse v i (some r) =
      { status := 500
        body := .obj [("success", .bool false), ("message", .str "Erro na busca")] } := by
  cases hi : searchEntry i with
  | error e' => simp only [searchResponse, hi]
  | ok items => simp only [searchResponse, hi, h]

/-- Claim C23, as stated, fails. For `GET /api/search?q=arroz` without an
Authorization header, when item-service answers the search with status 200 and
a body without a `data` field, `globalSearch` responds 500 with a body that has
no `data`, hence no `items` entry. -/
theorem globalSearch_without_items_entry :
    (globalSearch exampleRegistry (some (.str "arroz")) none
        (.answered 200 (.obj [("success", .bool true)])) (.answered 200 .null) []).response =
      { status := 500
        body := .obj [("success", .bool false), ("message", .str "Erro na busca")] } ∧
    hasKey
        (globalSearch exampleRegistry (some (.str "arroz")) none
          (.answered 200 (.obj [("success", .bool true)])) (.answered 200 .null)
          []).response.body "data" = false := by
  refine ⟨rfl, rfl⟩

/-- Claim C23, amended. For a request whose `q` is absent or empty,
`globalSearch` responds 400 with `success = false` and issues no sub-call. For
a request with a non-empty `q`, it issues exactly one sub-call (item-service
`/search`) without an Authorization header and exactly two (then user-service
`/search`) with it. Whenever every sub-call is rejected or fulfilled with a
body whose `data` is present and not `null`, the response is 200 and its `data`
holds `query` and an `items` entry, and a `users` entry exactly when the header
was present. -/
theorem globalSearch_subcalls (registry : ServiceRegistry)
    (itemOutcome userOutcome : NetOutcome) (cb : CircuitBreakers) :
    (∀ (q : Option Json) (authHeader : Option String),
        (q = none ∨ ∃ v, q = some v ∧ jsTruthy v = false) →
        globalSearch registry q authHeader itemOutcome userOutcome cb =
          { response :=
              { status := 400
                body := .obj
                  [("success", .bool false),
                   ("message", .str "Parâmetro de busca \"q\" é obrigatório")] }
            circuitBreakers := cb
            effects := [] }) ∧
      (∀ (v : Json) (authHeader : Option String),
        jsTruthy v = true → truthy authHeader = false →
        (globalSearch registry (some v) authHeader itemOutcome userOutcome cb).effects =
            (callService registry "item-service" "/search" "GET" none
              [("q", v), ("limit", .num 10)] itemOutcome cb).effects ∧
          (globalSearch registry (some v) authHeader itemOutcome userOutcome cb).response =
            searchResponse v
              (callService registry "item-service" "/search" "GET" none
                [("q", v), ("limit", .num 10)] itemOutcome cb).settled none) ∧
      (∀ (v : Json) (authHeader : Option String),
        jsTruthy v = true → truthy authHeader = true →
        (globalSearch registry (some v) authHeader itemOutcome userOutcome cb).effects =
            (callService registry "item-service" "/search" "GET" none
              [("q", v), ("limit", .num 10)] itemOutcome cb).effects ++
            (callService registry "user-service" "/search" "GET" authHeader
              [("q", v), ("limit", .num 5)] userOutcome cb).effects ∧
          (globalSearch registry (some v) authHeader itemOutcome userOutcome cb).response =
            searchResponse v
              (callService registry "item-service" "/search" "GET" none
                [("q", v), ("limit", .num 10)] itemOutcome cb).settled
              (some (callService registry "user-service" "/search" "GET" authHeader
                [("q", v), ("limit", .num 5)] userOutcome cb).settled)) ∧
      (∀ (v : Json) (i : Settled), i.hasData = true →
        ∃ items, searchResponse v i none =
          { status := 200
            body := .obj [("success", .bool true),
                          ("data", .obj [("query", v), ("items", items)])] }) ∧
      (∀ (v : Json) (i u : Settled), i.hasData = true → u.hasData = true →
        ∃ items users, searchResponse v i (some u) =
          { status := 200
            body := .obj [("success", .bool true),
                          ("data", .obj [("query", v), ("items", items),
                                         ("users", users)])] }) := by
  refine ⟨?_, ?_, ?_, ?_, ?_⟩
  · intro q authHeader hq
    rcases hq with hq | ⟨v, hq, hv⟩
    · subst hq
      rfl
    · subst hq
      simp [globalSearch, hv]
  · intro v authHeader hv ha
    simp [globalSearch, hv, ha]
  · intro v authHeader hv ha
    simp [globalSearch, hv, ha, callService_circuitBreakers]
  · intro v i hi
    obtain ⟨items, he⟩ := searchEntry_of_hasData i hi
    exact ⟨items, by simp only [searchResponse, he]⟩
  · intro v i u hi hu
    obtain ⟨items, he⟩ := searchEntry_of_hasData i hi
    obtain ⟨users, hu'⟩ := searchEntry_of_hasData u hu
    exact ⟨items, users, by simp only [searchResponse, he, hu']⟩

theorem globalSearch_subcalls_witness :
    globalSearch exampleRegistry (some (.str "")) (some "Bearer token")
        (.answered 200 .null) (.answered 200 .null) [] =
      { response :=
          { status := 400
            body := .obj
              [("success", .bool false),
               ("message", .str "Parâmetro de busca \"q\" é obrigatório")] }
        circuitBreakers := []
        effects := [] } ∧
    (globalSearch exampleRegistry (some (.str "arroz")) none
        (.answered 200 .null) (.answered 200 .null) []).effects =
      (callService exampleRegistry "item-service" "/search" "GET" none
        [("q", .str "arroz"), ("limit", .num 10)] (.answered 200 .null) []).effects :=
  ⟨(globalSearch_subcalls exampleRegistry (.answered 200 .null) (.answered 200 .null) []).1
      (some (.str "")) (some "Bearer token") (Or.inr ⟨.str "", rfl, by decide⟩),
   ((globalSearch_subcalls exampleRegistry (.answered 200 .null) (.answered 200 .null)
      []).2.1 (.str "arroz") none (by decide) rfl).1⟩

/-- Claim C24, as stated, fails. With an Authorization header, when
item-service answers the search with status 200 and the body
`{ success: true, data: null }`, `globalSearch` fails the parent request: it
responds 500 with `success = false`, although the sub-call was fulfilled with a
JSON object body. -/
theorem globalSearch_fails_on_null_data :
    (globalSearch exampleRegistry (some (.str "arroz")) (some "Bearer token")
        (.answered 200 (.obj [("success", .bool true), ("data", .null)]))
        (.answered 200 .null) []).response =
      { status := 500
        body := .obj [("success", .bool false), ("message", .str "Erro na busca")] } := by
  rfl

/-- Claim C24, amended. For every settled outcome of the search sub-calls in
which each is rejected, or fulfilled with a body whose `data` field is present
and not `null`, the response has status 200 and `success = true`, and a
rejected sub-call yields the entry `available = false`, `results = []`,
`total = 0` with the message of the error. A sub-call, the item search or the
user search, fulfilled with an object body without a `data` field or with
`data = null` (more generally, with any body whose `data` is absent or `null`)
makes the handler respond 500 with `success = false` and the message
`Erro na busca`, whatever the other sub-call gives. For a non-empty `q` the
response of `globalSearch` is this response for the settled results of its
sub-calls. -/
theorem searchResponse_of_settled :
    (∀ (v : Json) (i : Settled) (u : Option Settled), i.hasData = true →
        (∀ r, u = some r → r.hasData = true) →
        ∃ results, searchResponse v i u =
          { status := 200
            body := .obj [("success", .bool true), ("data", results)] }) ∧
      (∀ reason : JsError, searchEntry (.rejected reason) =
        .ok (.obj [("available", .bool false), ("results", .arr []), ("total", .num 0),
                   ("error", .str reason.message)])) ∧
      (∀ (v : Json) (reason : JsError) (u : Settled) (users : Json),
        searchEntry u = .ok users →
        searchResponse v (.rejected reason) (some u) =
          { status := 200
            body := .obj
              [("success", .bool true),
               ("data", .obj
                 [("query", v),
                  ("items", .obj [("available", .bool false), ("results", .arr []),
                                  ("total", .num 0), ("error", .str reason.message)]),
                  ("users", users)])] }) ∧
      (∀ (v : Json) (fields : List (String × Json)) (u : Option Settled),
        fields.find? (fun f => f.1 = "data") = none →
        searchResponse v (.fulfilled (.obj fields)) u =
          { status := 500
            body := .obj [("success", .bool false), ("message", .str "Erro na busca")] }) ∧
      (∀ (v : Json) (fields : List (String × Json)) (k : String) (u : Option Settled),
        fields.find? (fun f => f.1 = "data") = some (k, .null) →
        searchResponse v (.fulfilled (.obj fields)) u =
          { status := 500
            body := .obj [("success", .bool false), ("message", .str "Erro na busca")] }) ∧
      (∀ (v : Json) (i : Settled) (fields : List (String × Json)),
        (fields.find? (fun f => f.1 = "data") = none ∨
          ∃ k, fields.find? (fun f => f.1 = "data") = some (k, .null)) →
        searchResponse v i (some (.fulfilled (.obj fields))) =
          { status := 500
            body := .obj [("success", .bool false), ("message", .str "Erro na busca")] }) ∧
      (∀ (v : Json) (i : Settled) (u : Option Settled),
        (i.hasData = false ∨ ∃ r, u = some r ∧ r.hasData = false) →
        searchResponse v i u =
          { status := 500
            body := .obj [("success", .bool false), ("message", .str "Erro na busca")] }) ∧
      (∀ (registry : ServiceRegistry) (v : Json) (authHeader : Option String)
        (itemOutcome userOutcome : NetOutcome) (cb : CircuitBreakers),
        jsTruthy v = true →
        (globalSearch registry (some v) authHeader itemOutcome userOutcome cb).response =
          searchResponse v
            (callService registry "item-service" "/search" "GET" none
              [("q", v), ("limit", .num 10)] itemOutcome cb).settled
            (if truthy authHeader then
              some (callService registry "user-service" "/search" "GET" authHeader
                [("q", v), ("limit", .num 5)] userOutcome cb).settled
             else none)) := by
  refine ⟨?_, ?_, ?_, ?_, ?_, ?_, ?_, ?_⟩
  · intro v i u hi hu
    obtain ⟨items, he⟩ := searchEntry_of_hasData i hi
    cases u with
    | none =>
      exact ⟨.obj [("query", v), ("items", items)], by simp only [searchResponse, he]⟩
    | some r =>
      obtain ⟨users, hr⟩ := searchEntry_of_hasData r (hu r rfl)
      exact ⟨.obj [("query", v), ("items", items), ("users", users)],
        by simp only [searchResponse, he, hr]⟩
  · intro reason
    rfl
  · intro v reason u users hu
    have hr : searchEntry (.rejected reason) =
        .ok (.obj [("available", .bool false), ("results", .arr []), ("total", .num 0),
                   ("error", .str reason.message)]) := rfl
    simp only [searchResponse, hr, hu]
  · intro v fields u hf
    obtain ⟨e, he⟩ := searchEntry_of_missing_data fields hf
    exact searchResponse_of_item_error v _ u e he
  · intro v fields k u hf
    obtain ⟨e, he⟩ := searchEntry_of_null_data fields k hf
    exact searchResponse_of_item_error v _ u e he
  · intro v i fields hf
    obtain ⟨e, he⟩ := searchEntry_of_not_hasData _ (hasData_of_malformed fields hf)
    exact searchResponse_of_user_error v i _ e he
  · intro v i u h
    rcases h with h | ⟨r, hu, h⟩
    · obtain ⟨e, he⟩ := searchEntry_of_not_hasData i h
      exact searchResponse_of_item_error v i u e he
    · subst hu
      obtain ⟨e, he⟩ := searchEntry_of_not_hasData r h
      exact searchResponse_of_user_error v i r e he
  · intro registry v authHeader itemOutcome userOutcome cb hv
    by_cases ha : truthy authHeader = true
    · simp [globalSearch, hv, ha, callService_circuitBreakers]
    · have ha' : truthy authHeader = false := Bool.eq_false_iff.mpr ha
      simp [globalSearch, hv, ha']

theorem searchResponse_of_settled_witness :
    (∃ results,
      searchResponse (.str "arroz")
          (.fulfilled (.obj [("success", .bool true),
                             ("data", .obj [("results", .arr []), ("total", .num 0)])]))
          (some (.rejected { code := none, message := "Serviço não encontrado: user-service",
                             response := none })) =
        { status := 200
          body := .obj [("success", .bool true), ("data", results)] }) ∧
      searchResponse (.str "arroz")
          (.fulfilled (.obj [("success", .bool true), ("data", .null)])) none =
        { status := 500
          body := .obj [("success", .bool false), ("message", .str "Erro na busca")] } ∧
      searchResponse (.str "arroz")
          (.rejected { code := some "ECONNREFUSED", message := "connect ECONNREFUSED",
                       response := none })
          (some (.fulfilled (.obj [("success", .bool true)]))) =
        { status := 500
          body := .obj [("success", .bool false), ("message", .str "Erro na busca")] } :=
  ⟨searchResponse_of_settled.1 (.str "arroz")
      (.fulfilled (.obj [("success", .bool true),
                         ("data", .obj [("results", .arr []), ("total", .num 0)])]))
      (some (.rejected { code := none, message := "Serviço não encontrado: user-service",
                         response := none }))
      rfl
      (by
        intro r hr
        cases hr
        rfl),
   searchResponse_of_settled.2.2.2.2.1 (.str "arroz")
      [("success", .bool true), ("data", .null)] "data" none rfl,
   searchResponse_of_settled.2.2.2.2.2.1 (.str "arroz")
      (.rejected { code := some "ECONNREFUSED", message := "connect ECONNREFUSED",
                   response := none })
      [("success", .bool true)] (Or.inl rfl)⟩

/-! ## The failure responses of the gateway: claims -/

theorem isFailureEnvelope_errorResponse (s : String) (code : Option String)
    (message : String) :
    isFailureEnvelope
      (errorResponse s { code := code, message := message, response := none }).body = true := by
  by_cases h : (code = some "ECONNREFUSED" ∨ code = some "ETIMEDOUT")
  · rcases h with h | h <;> subst h <;> rfl
  · have h1 : code ≠ some "ECONNREFUSED" := fun e => h (Or.inl e)
    have h2 : code ≠ some "ETIMEDOUT" := fun e => h (Or.inr e)
    rw [errorResponse_of_fault s code message h1 h2]
    rfl

theorem dashboardResponse_cases (timestamp : String) (servicesStatus : List (String × Json))
    (u i c l : Settled) :
    (dashboardResponse timestamp servicesStatus u i c l).status = 200 ∨
      dashboardResponse timestamp servicesStatus u i c l =
        { status := 500
          body := .obj
            [("success", .bool false),
             ("message", .str "Erro ao agregar dados do dashboard")] } := by
  unfold dashboardResponse
  simp only []
  split
  · exact Or.inl rfl
  · exact Or.inr rfl

theorem searchResponse_cases (v : Json) (i : Settled) (u : Option Settled) :
    (searchResponse v i u).status = 200 ∨
      searchResponse v i u =
        { status := 500
          body := .obj [("success", .bool false), ("message", .str "Erro na busca")] } := by
  unfold searchResponse
  simp only []
  split
  · exact Or.inl rfl
  · exact Or.inr rfl

/-- Claim C25, as stated, fails. The 401 of the dashboard and the 400 of the
search carry `success = false` and a `message` but no `service` field, so they
are not in the envelope `{ success: false, message, service }`. -/
theorem aggregate_failures_without_service :
    isFailureEnvelope
        (getDashboard exampleRegistry none "2025-01-01T00:00:00.000Z" (.answered 200 .null)
          (.answered 200 .null) (.answered 200 .null) (.answered 200 .null)
          []).response.body = false ∧
      hasKey
        (getDashboard exampleRegistry none "2025-01-01T00:00:00.000Z" (.answered 200 .null)
          (.answered 200 .null) (.answered 200 .null) (.answered 200 .null)
          []).response.body "service" = false ∧
      isFailureEnvelope
        (globalSearch exampleRegistry none none (.answered 200 .null) (.answered 200 .null)
          []).response.body = false := by
  refine ⟨rfl, rfl, rfl⟩

/-- Claim C25, amended. The failure responses of the proxy (circuit-open 503,
discovery-miss 503, unreachable 503, internal 500), of the unmatched-route
handler (404) and of the error handler (500) carry `success = false`, a
`message` and a `service` field. The failure responses of the aggregated
endpoints (dashboard 401, search 400, aggregation 500 of either) carry
`success = false` and a `message` only, without a `service` field. -/
theorem failure_response_envelopes :
    (∀ (registry : ServiceRegistry) (s : String) (req : Request) (outcome : NetOutcome)
        (now later : Int) (cb : CircuitBreakers),
        (isCircuitOpen s now cb).1 = true →
        isFailureEnvelope (proxyRequest registry s req outcome now later cb).response.body =
          true) ∧
      (∀ (registry : ServiceRegistry) (s : String) (req : Request) (outcome : NetOutcome)
        (now later : Int) (cb : CircuitBreakers) (e : String),
        (isCircuitOpen s now cb).1 = false → registry.discover s = .error e →
        isFailureEnvelope (proxyRequest registry s req outcome now later cb).response.body =
          true) ∧
      (∀ (registry : ServiceRegistry) (s : String) (req : Request) (code : Option String)
        (message : String) (now later : Int) (cb : CircuitBreakers) (service : Service),
        (isCircuitOpen s now cb).1 = false → registry.discover s = .ok service →
        isFailureEnvelope
          (proxyRequest registry s req (.failed code message) now later cb).response.body =
          true) ∧
      isFailureEnvelope notFoundResponse.body = true ∧
      isFailureEnvelope errorHandlerResponse.body = true ∧
      (∀ (registry : ServiceRegistry) (authHeader : Option String) (timestamp : String)
        (users items categories lists : NetOutcome) (cb : CircuitBreakers),
        truthy authHeader = false →
        (getDashboard registry authHeader timestamp users items categories lists
          cb).response.body =
          .obj [("success", .bool false),
                ("message", .str "Token de autenticação obrigatório")]) ∧
      (∀ (registry : ServiceRegistry) (authHeader : Option String)
        (itemOutcome userOutcome : NetOutcome) (cb : CircuitBreakers),
        (globalSearch registry none authHeader itemOutcome userOutcome cb).response.body =
          .obj [("success", .bool false),
                ("message", .str "Parâmetro de busca \"q\" é obrigatório")]) ∧
      (∀ (timestamp : String) (servicesStatus : List (String × Json)) (u i c l : Settled),
        (dashboardResponse timestamp servicesStatus u i c l).status ≠ 200 →
        (dashboardResponse timestamp servicesStatus u i c l).body =
          .obj [("success", .bool false),
                ("message", .str "Erro ao agregar dados do dashboard")]) ∧
      (∀ (v : Json) (i : Settled) (u : Option Settled),
        (searchResponse v i u).status ≠ 200 →
        (searchResponse v i u).body =
          .obj [("success", .bool false), ("message", .str "Erro na busca")]) := by
  refine ⟨?_, ?_, ?_, rfl, rfl, ?_, ?_, ?_, ?_⟩
  · intro registry s req outcome now later cb h
    rw [proxyRequest_of_open registry s req outcome now later cb h]
    rfl
  · intro registry s req outcome now later cb e h hmiss
    rw [proxyRequest_of_miss registry s req outcome now later cb e h hmiss]
    rfl
  · intro registry s req code message now later cb service h hreg
    rw [proxyRequest_of_call registry s req _ now later cb service h hreg, axios_of_failed]
    exact isFailureEnvelope_errorResponse s code message
  · intro registry authHeader timestamp users items categories lists cb ha
    simp [getDashboard, ha]
  · intro registry authHeader itemOutcome userOutcome cb
    rfl
  · intro timestamp servicesStatus u i c l h
    rcases dashboardResponse_cases timestamp servicesStatus u i c l with h' | h'
    · exact absurd h' h
    · rw [h']
  · intro v i u h
    rcases searchResponse_cases v i u with h' | h'
    · exact absurd h' h
    · rw [h']

theorem failure_response_envelopes_witness :
    isFailureEnvelope
        (proxyRequest exampleRegistry "list-service" exampleRequest (.answered 200 .null)
          4000 4010
          [("list-service", { failures := 3, isOpen := true, isHalfOpen := false,
                              lastFailure := some 3010 })]).response.body = true ∧
      isFailureEnvelope
        (proxyRequest exampleRegistry "user-service" exampleRequest (.answered 200 .null)
          4000 4010 []).response.body = true ∧
      (getDashboard exampleRegistry (some "") "2025-01-01T00:00:00.000Z" (.answered 200 .null)
          (.answered 200 .null) (.answered 200 .null) (.answered 200 .null)
          []).response.body =
        .obj [("success", .bool false),
              ("message", .str "Token de autenticação obrigatório")] :=
  ⟨failure_response_envelopes.1 exampleRegistry "list-service" exampleRequest
      (.answered 200 .null) 4000 4010
      [("list-service", { failures := 3, isOpen := true, isHalfOpen := false,
                          lastFailure := some 3010 })] (by decide),
   failure_response_envelopes.2.1 exampleRegistry "user-service" exampleRequest
      (.answered 200 .null) 4000 4010 [] ("Serviço não encontrado: " ++ "user-service")
      (by decide) rfl,
   failure_response_envelopes.2.2.2.2.2.1 exampleRegistry (some "")
      "2025-01-01T00:00:00.000Z" (.answered 200 .null) (.answered 200 .null)
      (.answered 200 .null) (.answered 200 .null) [] rfl⟩

end APIGateway

namespace ListService

/-! ## The list service: claims -/

theorem findIndex_eq_none_iff {N : Type} (itemId : String) (items : List (ListItem N)) :
    findIndex itemId items = none ↔ itemId ∉ itemIds items := by
  induction items with
  | nil => simp [findIndex, itemIds]
  | cons item rest ih =>
    by_cases h : item.itemId = itemId
    · simp [findIndex, itemIds, h]
    · have h' : ¬ itemId = item.itemId := fun e => h e.symm
      simp only [findIndex, h, if_false, Option.map_eq_none', ih, itemIds, List.map_cons,
        List.mem_cons, h', false_or]

theorem itemIds_modifyAt {N : Type} (f : ListItem N → ListItem N)
    (hf : ∀ item, (f item).itemId = item.itemId) (i : Nat) (items : List (ListItem N)) :
    itemIds (modifyAt f i items) = itemIds items := by
  induction items generalizing i with
  | nil => cases i <;> rfl
  | cons item rest ih =>
    cases i with
    | zero => simp [modifyAt, itemIds, hf]
    | succ i =>
      have := ih i
      simp only [itemIds] at this
      simp [modifyAt, itemIds, this]

theorem itemIds_filter_nodup {N : Type} (p : ListItem N → Bool) (items : List (ListItem N))
    (h : (itemIds items).Nodup) : (itemIds (items.filter p)).Nodup := by
  have hsub : List.Sublist (itemIds (items.filter p)) (itemIds items) :=
    List.Sublist.map _ (List.filter_sublist items)
  exact List.Nodup.sublist hsub h

theorem itemIds_append_nodup {N : Type} (items : List (ListItem N)) (item : ListItem N)
    (h : (itemIds items).Nodup) (hnew : item.itemId ∉ itemIds items) :
    (itemIds (items ++ [item])).Nodup := by
  simp only [itemIds, List.map_append, List.map_cons, List.map_nil]
  rw [List.nodup_append]
  refine ⟨h, List.nodup_singleton _, ?_⟩
  intro a ha hb
  simp only [List.mem_singleton] at hb
  subst hb
  exact hnew ha

theorem consistent_dbUpdate {N : Type} (ops : Numbers N) (list : ShoppingList N)
    (items : List (ListItem N)) (updatedAt : String) (h : (itemIds items).Nodup) :
    Consistent ops (dbUpdate list items (calculateSummary ops items) updatedAt) := by
  refine ⟨h, rfl, rfl, ?_, ?_⟩
  · simp [dbUpdate, calculateSummary, List.countP_eq_length_filter]
  · simp only [dbUpdate, calculateSummary]
    exact List.length_filter_le _ _

theorem reject_stored {N : Type} (status : Nat) (message : String)
    (found : Option (ShoppingList N)) :
    (reject status message found).stored = found ∧
      (reject status message found).status = status := ⟨rfl, rfl⟩

theorem addItemToList_cases {N : Type} (ops : Numbers N) (userId : String)
    (itemId : Option String) (quantity : Option APIGateway.Json) (notes : Option String)
    (found : Option (ShoppingList N)) (itemData : Option (ItemData N))
    (addedAt updatedAt : String) :
    ((addItemToList ops userId itemId quantity notes found itemData addedAt updatedAt).stored =
          found ∧
        (addItemToList ops userId itemId quantity notes found itemData addedAt updatedAt).status ∈
          [400, 403, 404, 409]) ∨
      ∃ (list : ShoppingList N) (id : String) (item : ListItem N),
        found = some list ∧ itemId = some id ∧ item.itemId = id ∧
        findIndex id list.items = none ∧
        (addItemToList ops userId itemId quantity notes found itemData addedAt updatedAt).status =
          201 ∧
        (addItemToList ops userId itemId quantity notes found itemData addedAt updatedAt).stored =
          some (dbUpdate list (list.items ++ [item])
            (calculateSummary ops (list.items ++ [item])) updatedAt) := by
  cases itemId with
  | none => exact Or.inl ⟨rfl, by simp [addItemToList, reject]⟩
  | some id =>
    cases quantity with
    | none => exact Or.inl ⟨rfl, by simp [addItemToList, reject]⟩
    | some q =>
      by_cases h1 : (decide (id = "") || !APIGateway.jsTruthy q) = true
      · exact Or.inl ⟨by simp [addItemToList, h1, reject],
          by simp [addItemToList, h1, reject]⟩
      · have h1' : (decide (id = "") || !APIGateway.jsTruthy q) = false :=
          Bool.eq_false_iff.mpr h1
        cases found with
        | none =>
          exact Or.inl ⟨by simp [addItemToList, h1', reject],
            by simp [addItemToList, h1', reject]⟩
        | some list =>
          by_cases h2 : list.userId = userId
          · cases itemData with
            | none =>
              exact Or.inl ⟨by simp [addItemToList, h1', h2, reject],
                by simp [addItemToList, h1', h2, reject]⟩
            | some d =>
              cases h3 : findIndex id list.items with
              | some i =>
                exact Or.inl ⟨by simp [addItemToList, h1', h2, h3, reject],
                  by simp [addItemToList, h1', h2, h3, reject]⟩
              | none =>
                refine Or.inr ⟨list, id,
                  { itemId := id
                    itemName := d.name
                    quantity := ops.parseInt q
                    unit := d.unit
                    estimatedPrice := ops.mul d.averagePrice (ops.parseInt q)
                    purchased := false
                    notes :=
                      match notes with
                      | some n => if n = "" then "" else n
                      | none => ""
                    addedAt := addedAt }, rfl, rfl, rfl, h3, ?_, ?_⟩
                · simp [addItemToList, h1', h2, h3]
                · simp [addItemToList, h1', h2, h3]
          · exact Or.inl ⟨by simp [addItemToList, h1', h2, reject],
              by simp [addItemToList, h1', h2, reject]⟩

theorem updateListItem_cases {N : Type} (ops : Numbers N) (userId itemId : String)
    (quantity purchased : Option APIGateway.Json) (notes : Option String)
    (found : Option (ShoppingList N)) (itemData : Option (ItemData N))
    (updatedAt : String) :
    ((updateListItem ops userId itemId quantity purchased notes found itemData
          updatedAt).stored = found ∧
        (updateListItem ops userId itemId quantity purchased notes found itemData
          updatedAt).status ∈ [403, 404]) ∨
      ∃ (list : ShoppingList N) (i : Nat) (f : ListItem N → ListItem N),
        found = some list ∧ (∀ item, (f item).itemId = item.itemId) ∧
        (updateListItem ops userId itemId quantity purchased notes found itemData
          updatedAt).status = 200 ∧
        (updateListItem ops userId itemId quantity purchased notes found itemData
          updatedAt).stored =
          some (dbUpdate list (modifyAt f i list.items)
            (calculateSummary ops (modifyAt f i list.items)) updatedAt) := by
  cases found with
  | none => exact Or.inl ⟨rfl, by simp [updateListItem, reject]⟩
  | some list =>
    by_cases h2 : list.userId = userId
    · cases h3 : findIndex itemId list.items with
      | none =>
        exact Or.inl ⟨by simp [updateListItem, h2, h3, reject],
          by simp [updateListItem, h2, h3, reject]⟩
      | some i =>
        refine Or.inr ⟨list, i,
          (fun item =>
            match notes with
            | some n =>
                { (match purchased with
                   | some p =>
                       { (match quantity with
                          | some q =>
                              match itemData with
                              | some d =>
                                  { ({ item with quantity := ops.parseInt q } : ListItem N) with
                                    estimatedPrice :=
                                      ops.mul d.averagePrice (ops.parseInt q) }
                              | none => { item with quantity := ops.parseInt q }
                          | none => item) with purchased := APIGateway.jsTruthy p }
                   | none =>
                       (match quantity with
                        | some q =>
                            match itemData with
                            | some d =>
                                { ({ item with quantity := ops.parseInt q } : ListItem N) with
                                  estimatedPrice := ops.mul d.averagePrice (ops.parseInt q) }
                            | none => { item with quantity := ops.parseInt q }
                        | none => item)) with notes := n }
            | none =>
                (match purchased with
                 | some p =>
                     { (match quantity with
                        | some q =>
                            match itemData with
                            | some d =>
                                { ({ item with quantity := ops.parseInt q } : ListItem N) with
                                  estimatedPrice := ops.mul d.averagePrice (ops.parseInt q) }
                            | none => { item with quantity := ops.parseInt q }
                        | none => item) with purchased := APIGateway.jsTruthy p }
                 | none =>
                     (match quantity with
                      | some q =>
                          match itemData with
                          | some d =>
                              { ({ item with quantity := ops.parseInt q } : ListItem N) with
                                estimatedPrice := ops.mul d.averagePrice (ops.parseInt q) }
                          | none => { item with quantity := ops.parseInt q }
                      | none => item))),
          rfl, ?_, ?_, ?_⟩
        · intro item
          cases notes <;> cases purchased <;> cases quantity <;> cases itemData <;> rfl
        · simp [updateListItem, h2, h3]
        · simp only [updateListItem, h2, h3, ne_eq, not_true_eq_false, if_false]
    · exact Or.inl ⟨by simp [updateListItem, h2, reject],
        by simp [updateListItem, h2, reject]⟩

theorem removeItemFromList_cases {N : Type} (ops : Numbers N) (userId itemId : String)
    (found : Option (ShoppingList N)) (updatedAt : String) :
    ((removeItemFromList ops userId itemId found updatedAt).stored = found ∧
        (removeItemFromList ops userId itemId found updatedAt).status ∈ [403, 404]) ∨
      ∃ list : ShoppingList N,
        found = some list ∧
        (removeItemFromList ops userId itemId found updatedAt).status = 200 ∧
        (removeItemFromList ops userId itemId found updatedAt).stored =
          some (dbUpdate list (list.items.filter (fun item => decide (item.itemId ≠ itemId)))
            (calculateSummary ops
              (list.items.filter (fun item => decide (item.itemId ≠ itemId)))) updatedAt) := by
  cases found with
  | none => exact Or.inl ⟨rfl, by simp [removeItemFromList, reject]⟩
  | some list =>
    by_cases h2 : list.userId = userId
    · by_cases h3 : list.items.any (fun item => decide (item.itemId = itemId)) = true
      · refine Or.inr ⟨list, rfl, ?_, ?_⟩
        · simp only [removeItemFromList, h2, ne_eq, not_true_eq_false, if_false, h3,
            Bool.not_true, Bool.false_eq_true]
        · simp only [removeItemFromList, h2, ne_eq, not_true_eq_false, if_false, h3,
            Bool.not_true, Bool.false_eq_true]
      · have h3' : list.items.any (fun item => decide (item.itemId = itemId)) = false :=
          Bool.eq_false_iff.mpr h3
        exact Or.inl ⟨by simp only [removeItemFromList, h2, ne_eq, not_true_eq_false,
            if_false, h3', Bool.not_false, if_true, reject],
          by simp only [removeItemFromList, h2, ne_eq, not_true_eq_false,
            if_false, h3', Bool.not_false, if_true, reject]; decide⟩
    · exact Or.inl ⟨by simp [removeItemFromList, h2, reject],
        by simp [removeItemFromList, h2, reject]⟩

/-- Claim C30, as stated, fails. The list of user `u1` holds the item `rice`
and its item ids are pairwise distinct; `addItemToList` by `u1` with
`itemId = "rice"` and a quantity, when the catalog lookup returns nothing,
responds 404 and not 409: the catalog is consulted before the list is searched
for the item. -/
theorem duplicate_item_without_catalog_entry :
    "rice" ∈ itemIds exampleList.items ∧ (itemIds exampleList.items).Nodup ∧
      (addItemToList exampleNumbers "u1" (some "rice") (some (.num 1)) none
        (some exampleList) none "t1" "t2").status = 404 := by
  decide

/-- Claim C30, amended. For every stored list whose item ids are pairwise
distinct: `addItemToList` with an `itemId` already in the list leaves the list
as it is and responds 400, 403, 404 or 409, and responds 409 when the request
carries a non-empty `itemId` and a quantity, comes from the owner of the list
and the item is found in the catalog; and after every successful
`addItemToList` (201), `updateListItem` (200) or `removeItemFromList` (200)
the stored list has pairwise distinct item ids and its summary is
`calculateSummary` of its items, with `totalItems` the number of items and
`purchasedItems` the number of purchased items, at most `totalItems`. -/
theorem list_items_stay_consistent {N : Type} (ops : Numbers N) (list : ShoppingList N)
    (hdistinct : (itemIds list.items).Nodup) :
    (∀ (userId itemId : String) (quantity : Option APIGateway.Json) (notes : Option String)
        (itemData : Option (ItemData N)) (addedAt updatedAt : String),
        itemId ∈ itemIds list.items →
        (addItemToList ops userId (some itemId) quantity notes (some list) itemData addedAt
            updatedAt).stored = some list ∧
          (addItemToList ops userId (some itemId) quantity notes (some list) itemData addedAt
            updatedAt).status ∈ [400, 403, 404, 409] ∧
          (itemId ≠ "" → (∃ q, quantity = some q ∧ APIGateway.jsTruthy q = true) →
            list.userId = userId → itemData ≠ none →
            (addItemToList ops userId (some itemId) quantity notes (some list) itemData addedAt
              updatedAt).status = 409)) ∧
      (∀ (userId : String) (itemId : Option String) (quantity : Option APIGateway.Json)
        (notes : Option String) (itemData : Option (ItemData N)) (addedAt updatedAt : String),
        (addItemToList ops userId itemId quantity notes (some list) itemData addedAt
          updatedAt).status = 201 →
        ∃ updated,
          (addItemToList ops userId itemId quantity notes (some list) itemData addedAt
            updatedAt).stored = some updated ∧ Consistent ops updated) ∧
      (∀ (userId itemId : String) (quantity purchased : Option APIGateway.Json)
        (notes : Option String) (itemData : Option (ItemData N)) (updatedAt : String),
        (updateListItem ops userId itemId quantity purchased notes (some list) itemData
          updatedAt).status = 200 →
        ∃ updated,
          (updateListItem ops userId itemId quantity purchased notes (some list) itemData
            updatedAt).stored = some updated ∧ Consistent ops updated) ∧
      (∀ (userId itemId : String) (updatedAt : String),
        (removeItemFromList ops userId itemId (some list) updatedAt).status = 200 →
        ∃ updated,
          (removeItemFromList ops userId itemId (some list) updatedAt).stored = some updated ∧
            Consistent ops updated) := by
  refine ⟨?_, ?_, ?_, ?_⟩
  · intro userId itemId quantity notes itemData addedAt updatedAt hmem
    have hfind : findIndex itemId list.items ≠ none := by
      intro h
      exact (findIndex_eq_none_iff itemId list.items).mp h hmem
    rcases addItemToList_cases ops userId (some itemId) quantity notes (some list) itemData
      addedAt updatedAt with h | ⟨l, id, item, hl, hid, _, hnone, _, _⟩
    · refine ⟨h.1, h.2, ?_⟩
      intro hne hq hu hd
      obtain ⟨q, hq, hqt⟩ := hq
      subst hq
      cases itemData with
      | none => exact absurd rfl hd
      | some d =>
        cases hf : findIndex itemId list.items with
        | none => exact absurd hf hfind
        | some i => simp [addItemToList, hne, hqt, hu, hf, reject]
    · cases hl
      cases hid
      exact absurd hnone hfind
  · intro userId itemId quantity notes itemData addedAt updatedAt hs
    rcases addItemToList_cases ops userId itemId quantity notes (some list) itemData
      addedAt updatedAt with h | ⟨l, id, item, hl, _, hitem, hnone, _, hstored⟩
    · rw [hs] at h
      exact absurd h.2 (by decide)
    · cases hl
      refine ⟨_, hstored, consistent_dbUpdate ops list _ updatedAt ?_⟩
      apply itemIds_append_nodup list.items item hdistinct
      rw [hitem]
      exact (findIndex_eq_none_iff id list.items).mp hnone
  · intro userId itemId quantity purchased notes itemData updatedAt hs
    rcases updateListItem_cases ops userId itemId quantity purchased notes (some list)
      itemData updatedAt with h | ⟨l, i, f, hl, hf, _, hstored⟩
    · rw [hs] at h
      exact absurd h.2 (by decide)
    · cases hl
      refine ⟨_, hstored, consistent_dbUpdate ops list _ updatedAt ?_⟩
      rw [itemIds_modifyAt f hf i list.items]
      exact hdistinct
  · intro userId itemId updatedAt hs
    rcases removeItemFromList_cases ops userId itemId (some list) updatedAt with
      h | ⟨l, hl, _, hstored⟩
    · rw [hs] at h
      exact absurd h.2 (by decide)
    · cases hl
      exact ⟨_, hstored, consistent_dbUpdate ops list _ updatedAt
        (itemIds_filter_nodup _ list.items hdistinct)⟩

theorem list_items_stay_consistent_witness :
    (addItemToList exampleNumbers "u1" (some "rice") (some (.num 1)) none
        (some exampleList) (some { name := "Arroz", unit := "kg", averagePrice := 15 })
        "t1" "t2").status = 409 ∧
      ∃ updated,
        (addItemToList exampleNumbers "u1" (some "beans") (some (.num 2)) none
          (some exampleList) (some { name := "Feijão", unit := "kg", averagePrice := 8 })
          "t1" "t2").stored = some updated ∧ Consistent exampleNumbers updated :=
  ⟨((list_items_stay_consistent exampleNumbers exampleList (by decide)).1 "u1" "rice"
      (some (.num 1)) none (some { name := "Arroz", unit := "kg", averagePrice := 15 })
      "t1" "t2" (by decide)).2.2 (by decide) ⟨.num 1, rfl, rfl⟩ rfl (by simp),
   (list_items_stay_consistent exampleNumbers exampleList (by decide)).2.1 "u1"
      (some "beans") (some (.num 2)) none
      (some { name := "Feijão", unit := "kg", averagePrice := 8 }) "t1" "t2" (by decide)⟩

end ListService
